import Mathlib

/-!
Verification of the flight-dynamics state machine and PFD layout model of the
Python-based Primary Flight Display simulator (`example.py`, `pfd/pfd.py`).

The simulator's per-frame update is embedded shallowly over `ℚ` (the Python
code computes with IEEE doubles; the embedding uses exact rational arithmetic
for the same formulas).  The two trigonometric functions the code applies,
`np.cos(np.radians x)` and `np.tan(np.radians x)`, have no rational form, so
the tick function is parameterised over two oracles `cosd tand : ℚ → ℚ`
standing for cosine-of-degrees and tangent-of-degrees; every theorem below
either holds for all oracles or states the needed property of the oracle
(for instance evenness of cosine) as a hypothesis.
-/

attribute [local semireducible] Rat.add Rat.sub Rat.mul Rat.inv Rat.ofScientific

set_option exponentiation.threshold 100000
set_option maxRecDepth 100000
set_option maxHeartbeats 4000000

namespace PFDSim

/-- FlightMode, the strings of `MODES` in `example.py` plus the internal
`ALT_CAPTURE` mode. -/
inductive Mode
  | CLIMB
  | DESCENT
  | ALT_CAPTURE
  | CRUISE
  | ROLLS
deriving DecidableEq, Repr

/-- The module-level simulation variables of `example.py` (lines 59-79):
commanded setpoints, flight mode with its recorded previous mode, and the
dynamic quantities. -/
structure SimState where
  mode : Mode
  prev_mode : Mode
  altitude_cmd : ℚ
  ias_cmd : ℚ
  bank_angle : ℚ
  roll : ℚ
  pitch : ℚ
  heading : ℚ
  airspeed : ℚ
  altitude : ℚ
  vspeed : ℚ
  g_factor : ℚ
deriving DecidableEq, Repr

/-- Flight constants of `example.py` lines 18-24. -/
def VS_CLIMB : ℚ := 700

def VS_DESCENT : ℚ := -600

def PITCH_CLIMB : ℚ := 7

def PITCH_DESCENT : ℚ := -4

def ALT_CAPTURE_BAND : ℚ := 80

/-- The smoothing helper (`example.py` line 84): first-order convergence of
`v` toward target `t` at rate `r` over a frame of `dt` seconds. -/
def smooth (v t r dt : ℚ) : ℚ := v + (t - v) * r * dt

/-- The airspeed helper (`example.py` line 87): converge toward the target
biased by `-0.4 * pitch`, at rate 0.8. -/
def update_airspeed (ias pitch target dt : ℚ) : ℚ :=
  smooth ias (target - pitch * 0.4) 0.8 dt

/-- The guarded denominator of `compute_g` (`example.py` line 91):
`max(0.01, cos(radians(bank)))`, never smaller than 1/100. -/
def gDen (cosd : ℚ → ℚ) (bank : ℚ) : ℚ := max 0.01 (cosd bank)

/-- The g-load helper (`example.py` line 90): `1 / max(0.01, cos(radians(bank)))`. -/
def compute_g (cosd : ℚ → ℚ) (bank : ℚ) : ℚ := 1 / gDen cosd bank

/-- `np.clip(x, lo, hi)` = `min(max(x, lo), hi)`. -/
def clip (x lo hi : ℚ) : ℚ := min (max x lo) hi

/-- Python's float modulo `x % y` = `x - y * floor(x / y)`; for `y > 0` the
result lies in `[0, y)`. -/
def fmod (x y : ℚ) : ℚ := x - y * (⌊x / y⌋ : ℚ)

/-- The guarded turn-rate denominator `max(airspeed, 1)` of `example.py`
line 197, never smaller than 1. -/
def turnDen (airspeed : ℚ) : ℚ := max airspeed 1

/-- The standard-rate-turn approximation of `example.py` line 197:
`1091 * tan(radians(roll)) / max(airspeed, 1)` in degrees per second. -/
def turn_rate (tand : ℚ → ℚ) (roll airspeed : ℚ) : ℚ :=
  1091 * tand roll / turnDen airspeed

/-- FLIGHT LOGIC of `example.py` lines 144-191: the per-mode `if/elif` chain
updating roll, pitch, vspeed, altitude and airspeed, with the mode-transition
checks of the CLIMB, DESCENT and ALT_CAPTURE branches.  `cosd` stands for
`np.cos(np.radians ·)` (used only in the ROLLS branch). -/
def modeLogic (cosd : ℚ → ℚ) (dt : ℚ) (s : SimState) : SimState :=
  if s.mode = Mode.CLIMB then
    let roll := smooth s.roll 0 2.0 dt
    let pitch := smooth s.pitch PITCH_CLIMB 1.5 dt
    let vspeed := smooth s.vspeed VS_CLIMB 1.5 dt
    let altitude := s.altitude + vspeed / 60 * dt
    let airspeed := update_airspeed s.airspeed pitch (s.ias_cmd - 10) dt
    if s.altitude_cmd - ALT_CAPTURE_BAND ≤ altitude then
      { s with roll := roll, pitch := pitch, vspeed := vspeed,
               altitude := altitude, airspeed := airspeed, mode := Mode.ALT_CAPTURE }
    else
      { s with roll := roll, pitch := pitch, vspeed := vspeed,
               altitude := altitude, airspeed := airspeed }
  else if s.mode = Mode.DESCENT then
    let roll := smooth s.roll 0 2.0 dt
    let pitch := smooth s.pitch PITCH_DESCENT 1.5 dt
    let vspeed := smooth s.vspeed VS_DESCENT 1.5 dt
    let altitude := s.altitude + vspeed / 60 * dt
    let airspeed := update_airspeed s.airspeed pitch (s.ias_cmd + 5) dt
    if altitude ≤ s.altitude_cmd + ALT_CAPTURE_BAND then
      { s with roll := roll, pitch := pitch, vspeed := vspeed,
               altitude := altitude, airspeed := airspeed, mode := Mode.ALT_CAPTURE }
    else
      { s with roll := roll, pitch := pitch, vspeed := vspeed,
               altitude := altitude, airspeed := airspeed }
  else if s.mode = Mode.ALT_CAPTURE then
    let roll := smooth s.roll 0 2.5 dt
    let error := s.altitude_cmd - s.altitude
    let vs_cmd := clip (error * 5.0) (-500) 500
    let vspeed := smooth s.vspeed vs_cmd 2.0 dt
    let pitch := smooth s.pitch (vs_cmd / 150) 2.0 dt
    let altitude := s.altitude + vspeed / 25 * dt
    let airspeed := update_airspeed s.airspeed pitch s.ias_cmd dt
    if |error| < 5 then
      { s with roll := roll, pitch := 0, vspeed := 0,
               altitude := s.altitude_cmd, airspeed := s.ias_cmd, mode := Mode.CRUISE }
    else
      { s with roll := roll, pitch := pitch, vspeed := vspeed,
               altitude := altitude, airspeed := airspeed }
  else if s.mode = Mode.CRUISE then
    { s with roll := smooth s.roll 0 3.0 dt, pitch := smooth s.pitch 0 3.0 dt,
             vspeed := smooth s.vspeed 0 3.0 dt,
             airspeed := smooth s.airspeed s.ias_cmd 1.2 dt }
  else if s.mode = Mode.ROLLS then
    let roll := smooth s.roll s.bank_angle 1.5 dt
    let g_target := compute_g cosd |roll|
    let g_factor := smooth s.g_factor g_target 3.0 dt
    let pitch := smooth s.pitch (3 + (g_factor - 1) * 3) 1.5 dt
    let airspeed := update_airspeed s.airspeed pitch (s.ias_cmd - 5) dt
    { s with roll := roll, g_factor := g_factor, pitch := pitch, airspeed := airspeed }
  else
    s

/-- G-load decay of `example.py` lines 190-191: outside ROLLS, `g_factor`
converges toward 1.0 at rate 2.5; evaluated on the mode as it stands after
the flight-logic branch. -/
def gDecay (dt : ℚ) (s : SimState) : SimState :=
  if s.mode ≠ Mode.ROLLS then { s with g_factor := smooth s.g_factor 1.0 2.5 dt } else s

/-- HEADING DYNAMICS of `example.py` lines 196-198: active only when
`abs(roll) > 1.0` and `airspeed > 30`, wrapping with float modulo 360.
`tand` stands for `np.tan(np.radians ·)`. -/
def headingUpdate (tand : ℚ → ℚ) (dt : ℚ) (s : SimState) : SimState :=
  if 1 < |s.roll| ∧ 30 < s.airspeed then
    { s with heading := fmod (s.heading + turn_rate tand s.roll s.airspeed * dt) 360 }
  else
    s

/-- One simulation tick without UI events: flight logic, then g-load decay,
then heading dynamics, in the order of the main loop of `example.py`. -/
def tick (cosd tand : ℚ → ℚ) (dt : ℚ) (s : SimState) : SimState :=
  headingUpdate tand dt (gDecay dt (modeLogic cosd dt s))

/-- The fixed bank-angle options of `example.py` line 59. -/
def BANK_OPTIONS : List ℚ := [-65, -60, -45, -30, 0, 30, 45, 60, 65]

/-- The discrete UI events the MOUSEBUTTONDOWN handler of `example.py`
(lines 108-139) can produce: a flight-mode button press and the six knob
buttons. -/
inductive UIEvent
  | selectMode (m : Mode)
  | altUp
  | altDn
  | iasUp
  | iasDn
  | turnUp
  | turnDn

/-- Effect of one UI event on the simulation state (`example.py` lines
108-139).  A mode button stores the previous mode and sets the new one; the
ALT knob steps `altitude_cmd` by 100 and, only from CRUISE, switches the mode
to CLIMB or DESCENT (without touching `prev_mode`); the IAS knob steps
`ias_cmd` by 5; the TURN knob steps `bank_angle` through `BANK_OPTIONS`. -/
def applyEvent (e : UIEvent) (s : SimState) : SimState :=
  match e with
  | UIEvent.selectMode m => { s with prev_mode := s.mode, mode := m }
  | UIEvent.altUp =>
      let s := { s with altitude_cmd := s.altitude_cmd + 100 }
      if s.mode = Mode.CRUISE then { s with mode := Mode.CLIMB } else s
  | UIEvent.altDn =>
      let s := { s with altitude_cmd := s.altitude_cmd - 100 }
      if s.mode = Mode.CRUISE then { s with mode := Mode.DESCENT } else s
  | UIEvent.iasUp => { s with ias_cmd := s.ias_cmd + 5 }
  | UIEvent.iasDn => { s with ias_cmd := s.ias_cmd - 5 }
  | UIEvent.turnUp =>
      let idx := BANK_OPTIONS.indexOf s.bank_angle
      if idx < BANK_OPTIONS.length - 1 then
        { s with bank_angle := BANK_OPTIONS.getD (idx + 1) s.bank_angle }
      else s
  | UIEvent.turnDn =>
      let idx := BANK_OPTIONS.indexOf s.bank_angle
      if 0 < idx then
        { s with bank_angle := BANK_OPTIONS.getD (idx - 1) s.bank_angle }
      else s

/-- The four modes offered as buttons (`MODES`, `example.py` line 47);
`ALT_CAPTURE` is not among them. -/
def buttonModes : List Mode := [Mode.CLIMB, Mode.DESCENT, Mode.CRUISE, Mode.ROLLS]

/-- Events the UI of `example.py` can actually emit: a `selectMode` only for
one of the four button modes, every knob event unconditionally. -/
def eventFromUI : UIEvent → Prop
  | UIEvent.selectMode m => m ∈ buttonModes
  | _ => True

/-- The initial state of `example.py` lines 59-79. -/
def initState : SimState :=
  { mode := Mode.CRUISE, prev_mode := Mode.CRUISE,
    altitude_cmd := 1000, ias_cmd := 100, bank_angle := 0,
    roll := 0, pitch := 0, heading := 0,
    airspeed := 100, altitude := 1000, vspeed := 0, g_factor := 1 }

/-- The scenario of the claimed climb run: altitude 1000, commanded altitude
2000, mode CLIMB, all other quantities at their initial values. -/
def climbScenario : SimState :=
  { initState with mode := Mode.CLIMB, altitude_cmd := 2000 }

/-- The state of the climb run after `n` ticks of fixed `dt = 1/60`. -/
def trace (cosd tand : ℚ → ℚ) (n : ℕ) : SimState :=
  (tick cosd tand (1/60))^[n] climbScenario

/-- AircraftState of `pfd/pfd.py` lines 20-31: the per-frame snapshot the
renderer consumes (`heading_cmd` is optional; `example.py` passes `None`). -/
structure AircraftState where
  roll : ℚ
  pitch : ℚ
  airspeed : ℚ
  airspeed_cmd : ℚ
  altitude : ℚ
  altitude_cmd : ℚ
  vspeed : ℚ
  heading : ℚ
  heading_cmd : Option ℚ
  course : ℚ

/-- The layout-relevant fields of `PrimaryFlightDisplay` (`pfd/pfd.py`):
the derived size and unit, the three instrument centers named by the spec,
and the mutable telemetry fields (`fps`, `real_time`, `sim_time`, `state`).
Pixel surfaces and the instrument objects' internal drawing are not
modelled; only the constructor's geometry arithmetic is. -/
structure PrimaryFlightDisplay where
  resolution : ℕ × ℕ
  size : ℚ
  unit : ℚ
  airspeed_center : ℚ × ℚ
  altitude_center : ℚ × ℚ
  heading_center : ℚ × ℚ
  fps : ℚ
  real_time : Option ℚ
  sim_time : Option ℚ
  state : Option AircraftState

/-- The constructor `PrimaryFlightDisplay.__init__` (`pfd/pfd.py` lines
38-79): `size = min(resolution)`, `unit = size / 16`, and the instrument
centers at `centerx - unit*5`, `centerx + unit*5`, and `centery + unit*5`
(pygame's `Rect.centerx`/`centery` are the integer halves of the
resolution). -/
def pfdInit (w h : ℕ) : PrimaryFlightDisplay :=
  let size : ℚ := ((min w h : ℕ) : ℚ)
  let unit : ℚ := size / 16
  let centerx : ℚ := ((w / 2 : ℕ) : ℚ)
  let centery : ℚ := ((h / 2 : ℕ) : ℚ)
  { resolution := (w, h), size := size, unit := unit,
    airspeed_center := (centerx - unit * 5, centery),
    altitude_center := (centerx + unit * 5, centery),
    heading_center := (centerx, centery + unit * 5),
    fps := 0, real_time := none, sim_time := none, state := none }

/-- `PrimaryFlightDisplay.update` (`pfd/pfd.py` lines 114-122): stores the
latest snapshot and the two time readouts; no geometry field is touched. -/
def pfd_update (p : PrimaryFlightDisplay) (st : AircraftState)
    (rt simt : Option ℚ) : PrimaryFlightDisplay :=
  { p with state := some st, real_time := rt, sim_time := simt }

/-- `PrimaryFlightDisplay.tick` (`pfd/pfd.py` lines 174-179): refreshes the
measured frame rate (taken here as an input, coming from the frame clock);
no geometry field is touched. -/
def pfd_tick (p : PrimaryFlightDisplay) (fps : ℚ) : PrimaryFlightDisplay :=
  { p with fps := fps }

/-! ### Projection lemmas: which fields each stage of the tick leaves alone -/

lemma modeLogic_heading (c : ℚ → ℚ) (dt : ℚ) (s : SimState) :
    (modeLogic c dt s).heading = s.heading := by
  unfold modeLogic; dsimp only; split_ifs <;> rfl

lemma modeLogic_altitude_cmd (c : ℚ → ℚ) (dt : ℚ) (s : SimState) :
    (modeLogic c dt s).altitude_cmd = s.altitude_cmd := by
  unfold modeLogic; dsimp only; split_ifs <;> rfl

lemma modeLogic_ias_cmd (c : ℚ → ℚ) (dt : ℚ) (s : SimState) :
    (modeLogic c dt s).ias_cmd = s.ias_cmd := by
  unfold modeLogic; dsimp only; split_ifs <;> rfl

lemma modeLogic_mode_not_ROLLS (c : ℚ → ℚ) (dt : ℚ) (s : SimState)
    (h : s.mode ≠ Mode.ROLLS) : (modeLogic c dt s).mode ≠ Mode.ROLLS := by
  unfold modeLogic; dsimp only; split_ifs <;> simpa using h

lemma modeLogic_mode_of_ROLLS (c : ℚ → ℚ) (dt : ℚ) (s : SimState)
    (h : s.mode = Mode.ROLLS) : (modeLogic c dt s).mode = Mode.ROLLS := by
  unfold modeLogic; dsimp only; split_ifs <;> simp_all

lemma modeLogic_g_factor_of_not_ROLLS (c : ℚ → ℚ) (dt : ℚ) (s : SimState)
    (h : s.mode ≠ Mode.ROLLS) : (modeLogic c dt s).g_factor = s.g_factor := by
  unfold modeLogic; dsimp only; split_ifs <;> first | rfl | exact absurd (by assumption) h

lemma gDecay_mode (dt : ℚ) (s : SimState) : (gDecay dt s).mode = s.mode := by
  unfold gDecay; split_ifs <;> rfl

lemma gDecay_roll (dt : ℚ) (s : SimState) : (gDecay dt s).roll = s.roll := by
  unfold gDecay; split_ifs <;> rfl

lemma gDecay_airspeed (dt : ℚ) (s : SimState) : (gDecay dt s).airspeed = s.airspeed := by
  unfold gDecay; split_ifs <;> rfl

lemma gDecay_heading (dt : ℚ) (s : SimState) : (gDecay dt s).heading = s.heading := by
  unfold gDecay; split_ifs <;> rfl

lemma gDecay_altitude (dt : ℚ) (s : SimState) : (gDecay dt s).altitude = s.altitude := by
  unfold gDecay; split_ifs <;> rfl

lemma gDecay_altitude_cmd (dt : ℚ) (s : SimState) :
    (gDecay dt s).altitude_cmd = s.altitude_cmd := by
  unfold gDecay; split_ifs <;> rfl

lemma gDecay_ias_cmd (dt : ℚ) (s : SimState) : (gDecay dt s).ias_cmd = s.ias_cmd := by
  unfold gDecay; split_ifs <;> rfl

lemma gDecay_vspeed (dt : ℚ) (s : SimState) : (gDecay dt s).vspeed = s.vspeed := by
  unfold gDecay; split_ifs <;> rfl

lemma gDecay_pitch (dt : ℚ) (s : SimState) : (gDecay dt s).pitch = s.pitch := by
  unfold gDecay; split_ifs <;> rfl

lemma gDecay_g_factor_of_ROLLS (dt : ℚ) (s : SimState) (h : s.mode = Mode.ROLLS) :
    (gDecay dt s).g_factor = s.g_factor := by
  unfold gDecay; split_ifs with h1 <;> simp_all

lemma gDecay_g_factor_of_not_ROLLS (dt : ℚ) (s : SimState) (h : s.mode ≠ Mode.ROLLS) :
    (gDecay dt s).g_factor = smooth s.g_factor 1.0 2.5 dt := by
  unfold gDecay; split_ifs with h1 <;> simp_all

lemma headingUpdate_mode (t : ℚ → ℚ) (dt : ℚ) (s : SimState) :
    (headingUpdate t dt s).mode = s.mode := by
  unfold headingUpdate; split_ifs <;> rfl

lemma headingUpdate_roll (t : ℚ → ℚ) (dt : ℚ) (s : SimState) :
    (headingUpdate t dt s).roll = s.roll := by
  unfold headingUpdate; split_ifs <;> rfl

lemma headingUpdate_pitch (t : ℚ → ℚ) (dt : ℚ) (s : SimState) :
    (headingUpdate t dt s).pitch = s.pitch := by
  unfold headingUpdate; split_ifs <;> rfl

lemma headingUpdate_airspeed (t : ℚ → ℚ) (dt : ℚ) (s : SimState) :
    (headingUpdate t dt s).airspeed = s.airspeed := by
  unfold headingUpdate; split_ifs <;> rfl

lemma headingUpdate_altitude (t : ℚ → ℚ) (dt : ℚ) (s : SimState) :
    (headingUpdate t dt s).altitude = s.altitude := by
  unfold headingUpdate; split_ifs <;> rfl

lemma headingUpdate_altitude_cmd (t : ℚ → ℚ) (dt : ℚ) (s : SimState) :
    (headingUpdate t dt s).altitude_cmd = s.altitude_cmd := by
  unfold headingUpdate; split_ifs <;> rfl

lemma headingUpdate_ias_cmd (t : ℚ → ℚ) (dt : ℚ) (s : SimState) :
    (headingUpdate t dt s).ias_cmd = s.ias_cmd := by
  unfold headingUpdate; split_ifs <;> rfl

lemma headingUpdate_vspeed (t : ℚ → ℚ) (dt : ℚ) (s : SimState) :
    (headingUpdate t dt s).vspeed = s.vspeed := by
  unfold headingUpdate; split_ifs <;> rfl

lemma headingUpdate_g_factor (t : ℚ → ℚ) (dt : ℚ) (s : SimState) :
    (headingUpdate t dt s).g_factor = s.g_factor := by
  unfold headingUpdate; split_ifs <;> rfl

/-! ### Claim C2: the smoothing primitive is monotone and never overshoots -/

lemma smooth_sub_target (x T r dt : ℚ) : smooth x T r dt - T = (x - T) * (1 - r * dt) := by
  unfold smooth; ring

lemma smooth_sub_self (x T r dt : ℚ) : smooth x T r dt - x = (T - x) * (r * dt) := by
  unfold smooth; ring

lemma smooth_step_props (x T r dt : ℚ) (hr : 0 < r) (hdt : 0 < dt) (h1 : r * dt ≤ 1) :
    (min x T ≤ smooth x T r dt ∧ smooth x T r dt ≤ max x T)
    ∧ |smooth x T r dt - T| ≤ |x - T|
    ∧ 0 ≤ (T - x) * (T - smooth x T r dt) := by
  have h0 : 0 < r * dt := mul_pos hr hdt
  have hsub := smooth_sub_target x T r dt
  have hself := smooth_sub_self x T r dt
  refine ⟨⟨?_, ?_⟩, ?_, ?_⟩
  · rcases le_total x T with h | h
    · rw [min_eq_left h]; nlinarith
    · rw [min_eq_right h]; nlinarith
  · rcases le_total x T with h | h
    · rw [max_eq_right h]; nlinarith
    · rw [max_eq_left h]; nlinarith
  · rw [hsub, abs_mul, abs_of_nonneg (by linarith : (0:ℚ) ≤ 1 - r * dt)]
    exact mul_le_of_le_one_right (abs_nonneg _) (by linarith)
  · have h2 : T - smooth x T r dt = (T - x) * (1 - r * dt) := by unfold smooth; ring
    rw [h2]
    nlinarith [mul_self_nonneg (T - x)]

/-- Claim C2: for a fixed target `T`, rate `r > 0` and constant `dt > 0` with
`r*dt ≤ 1`, the sequence obtained by iterating `smooth` stays between the
previous value and `T` at every step (no overshoot), its distance to `T`
never grows, and the sign of `T - v` never flips. -/
theorem C2_smooth_monotone_never_overshoots (v0 T r dt : ℚ)
    (hr : 0 < r) (hdt : 0 < dt) (h1 : r * dt ≤ 1) (n : ℕ) :
    (min ((fun x => smooth x T r dt)^[n] v0) T ≤ (fun x => smooth x T r dt)^[n+1] v0
      ∧ (fun x => smooth x T r dt)^[n+1] v0 ≤ max ((fun x => smooth x T r dt)^[n] v0) T)
    ∧ |(fun x => smooth x T r dt)^[n+1] v0 - T| ≤ |(fun x => smooth x T r dt)^[n] v0 - T|
    ∧ 0 ≤ (T - (fun x => smooth x T r dt)^[n] v0)
        * (T - (fun x => smooth x T r dt)^[n+1] v0) := by
  rw [Function.iterate_succ_apply' (fun x => smooth x T r dt) n v0]
  exact smooth_step_props _ T r dt hr hdt h1

/-- Witness for C2 at `v0 = 0`, `T = 100`, `r = 2`, `dt = 1/2`, `n = 0`. -/
theorem C2_smooth_witness :
    (min ((fun x => smooth x 100 2 (1/2))^[0] 0) 100 ≤ (fun x => smooth x 100 2 (1/2))^[0+1] 0
      ∧ (fun x => smooth x 100 2 (1/2))^[0+1] 0 ≤ max ((fun x => smooth x 100 2 (1/2))^[0] 0) 100)
    ∧ |(fun x => smooth x 100 2 (1/2))^[0+1] 0 - 100|
        ≤ |(fun x => smooth x 100 2 (1/2))^[0] 0 - 100|
    ∧ 0 ≤ (100 - (fun x => smooth x 100 2 (1/2))^[0] 0)
        * (100 - (fun x => smooth x 100 2 (1/2))^[0+1] 0) :=
  C2_smooth_monotone_never_overshoots 0 100 2 (1/2)
    (by norm_num) (by norm_num) (by norm_num) 0

/-! ### Claim C5: altitude-setpoint events and the mode -/

/-- Claim C5: an altitude-setpoint increment switches a CRUISE mode to CLIMB
(upward) or DESCENT (downward); in every one of the four other modes it
changes `altitude_cmd` by ±100 and leaves the mode unchanged. -/
theorem C5_alt_knob_mode_coupling (s : SimState) :
    (s.mode = Mode.CRUISE →
      (applyEvent UIEvent.altUp s).mode = Mode.CLIMB ∧
      (applyEvent UIEvent.altDn s).mode = Mode.DESCENT)
    ∧ (s.mode = Mode.CLIMB ∨ s.mode = Mode.DESCENT ∨ s.mode = Mode.ALT_CAPTURE
        ∨ s.mode = Mode.ROLLS →
      (applyEvent UIEvent.altUp s).mode = s.mode ∧ (applyEvent UIEvent.altDn s).mode = s.mode)
    ∧ (applyEvent UIEvent.altUp s).altitude_cmd = s.altitude_cmd + 100
    ∧ (applyEvent UIEvent.altDn s).altitude_cmd = s.altitude_cmd - 100 := by
  refine ⟨fun hc => ?_, fun h4 => ?_, ?_, ?_⟩
  · constructor <;> simp [applyEvent, hc]
  · rcases h4 with h | h | h | h <;> constructor <;> simp [applyEvent, h]
  · show (applyEvent UIEvent.altUp s).altitude_cmd = _
    unfold applyEvent; dsimp only; split_ifs <;> rfl
  · show (applyEvent UIEvent.altDn s).altitude_cmd = _
    unfold applyEvent; dsimp only; split_ifs <;> rfl

/-! ### Claim C7: what the code records in `prev_mode` -/

/-- Claim C7 counterexample: the automatic CRUISE-to-CLIMB switch caused by
an upward altitude increment does NOT record the prior mode: starting from
CRUISE with `prev_mode = ROLLS`, after the event the mode is CLIMB but
`prev_mode` is still ROLLS, not the CRUISE that was active immediately
before the change. -/
theorem C7_auto_switch_prev_mode_counterexample :
    (applyEvent UIEvent.altUp
      { initState with mode := Mode.CRUISE, prev_mode := Mode.ROLLS }).mode = Mode.CLIMB
    ∧ (applyEvent UIEvent.altUp
      { initState with mode := Mode.CRUISE, prev_mode := Mode.ROLLS }).prev_mode = Mode.ROLLS
    ∧ Mode.ROLLS ≠ Mode.CRUISE := by
  refine ⟨rfl, rfl, by decide⟩

/-- Claim C7 (amended): `prev_mode` records the prior mode on flight-mode
button presses only; the altitude-setpoint events (including the automatic
CRUISE-to-CLIMB/DESCENT switch they may cause) leave `prev_mode` unchanged. -/
theorem C7_prev_mode_recorded_on_buttons_only (s : SimState) (m : Mode) :
    ((applyEvent (UIEvent.selectMode m) s).prev_mode = s.mode
      ∧ (applyEvent (UIEvent.selectMode m) s).mode = m)
    ∧ (applyEvent UIEvent.altUp s).prev_mode = s.prev_mode
    ∧ (applyEvent UIEvent.altDn s).prev_mode = s.prev_mode := by
  refine ⟨⟨rfl, rfl⟩, ?_, ?_⟩ <;>
    · show (applyEvent _ s).prev_mode = _
      unfold applyEvent; dsimp only; split_ifs <;> rfl

/-! ### Claim C8: the two guarded denominators are bounded away from zero -/

/-- Claim C8: the turn-rate denominator `max(airspeed, 1)` is at least 1 and
the g-load denominator `max(0.01, cos(radians(bank)))` is at least 1/100,
for every airspeed, bank angle and cosine oracle, so both divisions of the
per-tick update are by positive numbers. -/
theorem C8_division_guards (cosd tand : ℚ → ℚ) (a bank roll : ℚ) :
    (1 ≤ turnDen a ∧ 0 < turnDen a)
    ∧ (1/100 ≤ gDen cosd bank ∧ 0 < gDen cosd bank)
    ∧ turn_rate tand roll a = 1091 * tand roll / turnDen a
    ∧ compute_g cosd bank = 1 / gDen cosd bank := by
  have h1 : (1:ℚ) ≤ turnDen a := le_max_right a 1
  have h2 : (1/100 : ℚ) ≤ gDen cosd bank := by
    have : (0.01 : ℚ) ≤ gDen cosd bank := le_max_left _ _
    linarith [show (0.01 : ℚ) = 1/100 by norm_num]
  exact ⟨⟨h1, by linarith⟩, ⟨h2, by linarith⟩, rfl, rfl⟩

/-! ### Claim C9: the PFD geometry unit and the instrument centers -/

/-- Claim C9: at construction, `unit = min(w, h) / 16` (50 for an 800x800
display), the airspeed, altitude and heading indicator centers sit at fixed
`±5*unit` offsets from the integer screen center, and neither `update` nor
`tick` changes the unit or any center afterward. -/
theorem C9_geometry_unit_and_centers :
    ((pfdInit 800 800).unit = 50
      ∧ (pfdInit 800 800).airspeed_center = (150, 400)
      ∧ (pfdInit 800 800).altitude_center = (650, 400)
      ∧ (pfdInit 800 800).heading_center = (400, 650))
    ∧ (∀ w h : ℕ,
        (pfdInit w h).unit = ((min w h : ℕ) : ℚ) / 16
        ∧ (pfdInit w h).airspeed_center
            = (((w / 2 : ℕ) : ℚ) - 5 * (pfdInit w h).unit, ((h / 2 : ℕ) : ℚ))
        ∧ (pfdInit w h).altitude_center
            = (((w / 2 : ℕ) : ℚ) + 5 * (pfdInit w h).unit, ((h / 2 : ℕ) : ℚ))
        ∧ (pfdInit w h).heading_center
            = (((w / 2 : ℕ) : ℚ), ((h / 2 : ℕ) : ℚ) + 5 * (pfdInit w h).unit))
    ∧ (∀ (p : PrimaryFlightDisplay) (st : AircraftState) (rt simt : Option ℚ) (f : ℚ),
        (pfd_update p st rt simt).unit = p.unit ∧ (pfd_tick p f).unit = p.unit
        ∧ (pfd_update p st rt simt).airspeed_center = p.airspeed_center
        ∧ (pfd_update p st rt simt).altitude_center = p.altitude_center
        ∧ (pfd_update p st rt simt).heading_center = p.heading_center
        ∧ (pfd_tick p f).airspeed_center = p.airspeed_center
        ∧ (pfd_tick p f).altitude_center = p.altitude_center
        ∧ (pfd_tick p f).heading_center = p.heading_center) := by
  refine ⟨⟨by norm_num [pfdInit], by norm_num [pfdInit], by norm_num [pfdInit],
      by norm_num [pfdInit]⟩, fun w h => ⟨rfl, ?_, ?_, ?_⟩,
      fun p st rt simt f => ⟨rfl, rfl, rfl, rfl, rfl, rfl, rfl, rfl⟩⟩ <;>
    simp [pfdInit] <;> ring

/-! ### Branch equations for `modeLogic` -/

lemma modeLogic_CLIMB (c : ℚ → ℚ) (dt : ℚ) (s : SimState) (h : s.mode = Mode.CLIMB) :
    modeLogic c dt s =
      { s with roll := smooth s.roll 0 2.0 dt,
               pitch := smooth s.pitch PITCH_CLIMB 1.5 dt,
               vspeed := smooth s.vspeed VS_CLIMB 1.5 dt,
               altitude := s.altitude + smooth s.vspeed VS_CLIMB 1.5 dt / 60 * dt,
               airspeed := update_airspeed s.airspeed (smooth s.pitch PITCH_CLIMB 1.5 dt)
                 (s.ias_cmd - 10) dt,
               mode := if s.altitude_cmd - ALT_CAPTURE_BAND
                   ≤ s.altitude + smooth s.vspeed VS_CLIMB 1.5 dt / 60 * dt
                 then Mode.ALT_CAPTURE else Mode.CLIMB } := by
  unfold modeLogic
  rw [if_pos h]
  dsimp only
  split_ifs with hc
  · rfl
  · rw [h]

lemma modeLogic_DESCENT (c : ℚ → ℚ) (dt : ℚ) (s : SimState) (h : s.mode = Mode.DESCENT) :
    modeLogic c dt s =
      { s with roll := smooth s.roll 0 2.0 dt,
               pitch := smooth s.pitch PITCH_DESCENT 1.5 dt,
               vspeed := smooth s.vspeed VS_DESCENT 1.5 dt,
               altitude := s.altitude + smooth s.vspeed VS_DESCENT 1.5 dt / 60 * dt,
               airspeed := update_airspeed s.airspeed (smooth s.pitch PITCH_DESCENT 1.5 dt)
                 (s.ias_cmd + 5) dt,
               mode := if s.altitude + smooth s.vspeed VS_DESCENT 1.5 dt / 60 * dt
                   ≤ s.altitude_cmd + ALT_CAPTURE_BAND
                 then Mode.ALT_CAPTURE else Mode.DESCENT } := by
  unfold modeLogic
  rw [if_neg (by rw [h]; exact by decide), if_pos h]
  dsimp only
  split_ifs with hc
  · rfl
  · rw [h]

lemma modeLogic_CAPTURE_snap (c : ℚ → ℚ) (dt : ℚ) (s : SimState)
    (h : s.mode = Mode.ALT_CAPTURE) (hs : |s.altitude_cmd - s.altitude| < 5) :
    modeLogic c dt s =
      { s with roll := smooth s.roll 0 2.5 dt, pitch := 0, vspeed := 0,
               altitude := s.altitude_cmd, airspeed := s.ias_cmd, mode := Mode.CRUISE } := by
  unfold modeLogic
  rw [if_neg (by rw [h]; exact by decide), if_neg (by rw [h]; exact by decide), if_pos h]
  dsimp only
  rw [if_pos hs]

lemma modeLogic_CAPTURE_nosnap (c : ℚ → ℚ) (dt : ℚ) (s : SimState)
    (h : s.mode = Mode.ALT_CAPTURE) (hs : ¬ |s.altitude_cmd - s.altitude| < 5) :
    modeLogic c dt s =
      { s with roll := smooth s.roll 0 2.5 dt,
               pitch := smooth s.pitch
                 (clip ((s.altitude_cmd - s.altitude) * 5.0) (-500) 500 / 150) 2.0 dt,
               vspeed := smooth s.vspeed
                 (clip ((s.altitude_cmd - s.altitude) * 5.0) (-500) 500) 2.0 dt,
               altitude := s.altitude + smooth s.vspeed
                 (clip ((s.altitude_cmd - s.altitude) * 5.0) (-500) 500) 2.0 dt / 25 * dt,
               airspeed := update_airspeed s.airspeed
                 (smooth s.pitch
                   (clip ((s.altitude_cmd - s.altitude) * 5.0) (-500) 500 / 150) 2.0 dt)
                 s.ias_cmd dt } := by
  unfold modeLogic
  rw [if_neg (by rw [h]; exact by decide), if_neg (by rw [h]; exact by decide), if_pos h]
  dsimp only
  rw [if_neg hs]

lemma modeLogic_CRUISE (c : ℚ → ℚ) (dt : ℚ) (s : SimState) (h : s.mode = Mode.CRUISE) :
    modeLogic c dt s =
      { s with roll := smooth s.roll 0 3.0 dt, pitch := smooth s.pitch 0 3.0 dt,
               vspeed := smooth s.vspeed 0 3.0 dt,
               airspeed := smooth s.airspeed s.ias_cmd 1.2 dt } := by
  unfold modeLogic
  rw [if_neg (by rw [h]; exact by decide), if_neg (by rw [h]; exact by decide),
    if_neg (by rw [h]; exact by decide), if_pos h]

lemma modeLogic_ROLLS (c : ℚ → ℚ) (dt : ℚ) (s : SimState) (h : s.mode = Mode.ROLLS) :
    modeLogic c dt s =
      { s with roll := smooth s.roll s.bank_angle 1.5 dt,
               g_factor := smooth s.g_factor
                 (compute_g c |smooth s.roll s.bank_angle 1.5 dt|) 3.0 dt,
               pitch := smooth s.pitch
                 (3 + (smooth s.g_factor
                   (compute_g c |smooth s.roll s.bank_angle 1.5 dt|) 3.0 dt - 1) * 3) 1.5 dt,
               airspeed := update_airspeed s.airspeed
                 (smooth s.pitch
                   (3 + (smooth s.g_factor
                     (compute_g c |smooth s.roll s.bank_angle 1.5 dt|) 3.0 dt - 1) * 3) 1.5 dt)
                 (s.ias_cmd - 5) dt } := by
  unfold modeLogic
  rw [if_neg (by rw [h]; exact by decide), if_neg (by rw [h]; exact by decide),
    if_neg (by rw [h]; exact by decide), if_neg (by rw [h]; exact by decide), if_pos h]

/-! ### Claim C3: the heading dynamics -/

/-- Claim C3: the per-tick heading update is exactly the guarded
standard-rate-turn integration: when the tick's roll exceeds 1 degree in
magnitude and its airspeed exceeds 30, the heading becomes
`(heading + 1091*tan(radians roll)/max(airspeed,1) * dt) mod 360`; otherwise
the heading is unchanged across the tick (no decay toward zero turn). -/
theorem C3_heading_update_exact (c t : ℚ → ℚ) (dt : ℚ) (s : SimState) :
    (1 < |(modeLogic c dt s).roll| ∧ 30 < (modeLogic c dt s).airspeed →
      (tick c t dt s).heading
        = fmod (s.heading
            + turn_rate t (modeLogic c dt s).roll (modeLogic c dt s).airspeed * dt) 360)
    ∧ (¬(1 < |(modeLogic c dt s).roll| ∧ 30 < (modeLogic c dt s).airspeed) →
      (tick c t dt s).heading = s.heading) := by
  have hr := gDecay_roll dt (modeLogic c dt s)
  have ha := gDecay_airspeed dt (modeLogic c dt s)
  have hh : (gDecay dt (modeLogic c dt s)).heading = s.heading :=
    (gDecay_heading dt _).trans (modeLogic_heading c dt s)
  constructor
  · intro h
    show (headingUpdate t dt (gDecay dt (modeLogic c dt s))).heading = _
    unfold headingUpdate
    rw [if_pos (by rw [hr, ha]; exact h)]
    dsimp only
    rw [hh, hr, ha]
  · intro h
    show (headingUpdate t dt (gDecay dt (modeLogic c dt s))).heading = _
    unfold headingUpdate
    rw [if_neg (by rw [hr, ha]; exact h)]
    exact hh

/-! ### Claim C4: the heading stays in [0, 360) -/

lemma fmod_bounds (x y : ℚ) (hy : 0 < y) : 0 ≤ fmod x y ∧ fmod x y < y := by
  unfold fmod
  have h1 : (⌊x / y⌋ : ℚ) * y ≤ x := (le_div_iff hy).mp (Int.floor_le _)
  have h2 : x < ((⌊x / y⌋ : ℚ) + 1) * y := (div_lt_iff hy).mp (Int.lt_floor_add_one _)
  constructor <;> nlinarith

/-- Claim C4: `0 ≤ heading < 360` is an invariant: it holds at initialization
(heading = 0) and is preserved by every tick, for every oracle, `dt`, and
state whose heading lies in `[0, 360)`. -/
theorem C4_heading_wrap_invariant :
    (0 ≤ initState.heading ∧ initState.heading < 360)
    ∧ ∀ (c t : ℚ → ℚ) (dt : ℚ) (s : SimState),
        0 ≤ s.heading → s.heading < 360 →
        0 ≤ (tick c t dt s).heading ∧ (tick c t dt s).heading < 360 := by
  refine ⟨⟨by norm_num [initState], by norm_num [initState]⟩, fun c t dt s h0 h1 => ?_⟩
  have hh : (gDecay dt (modeLogic c dt s)).heading = s.heading :=
    (gDecay_heading dt _).trans (modeLogic_heading c dt s)
  show 0 ≤ (headingUpdate t dt (gDecay dt (modeLogic c dt s))).heading
    ∧ (headingUpdate t dt (gDecay dt (modeLogic c dt s))).heading < 360
  unfold headingUpdate
  split_ifs with hc
  · dsimp only
    exact fmod_bounds _ 360 (by norm_num)
  · rw [hh]
    exact ⟨h0, h1⟩

/-! ### Claim C6: the g-load update -/

/-- Claim C6: on a tick starting in ROLLS, `g_factor` is smoothed toward
`1 / max(0.01, cos(radians(roll)))` at rate 3.0 (with `roll` the tick's
updated roll; the cosine oracle is assumed even, as cosine is), so the target
at roll 60° with `cos 60° = 1/2` is exactly 2 and at roll 0° exactly 1, each
a fixed point of its smoothing step; on a tick starting in any other mode,
`g_factor` is smoothed toward 1.0 at rate 2.5. -/
theorem C6_g_factor_update (c t : ℚ → ℚ) (dt : ℚ) (s : SimState)
    (hEven : ∀ x, c (-x) = c x) :
    (s.mode = Mode.ROLLS →
      (tick c t dt s).g_factor
        = smooth s.g_factor (compute_g c (smooth s.roll s.bank_angle 1.5 dt)) 3.0 dt)
    ∧ (s.mode ≠ Mode.ROLLS →
      (tick c t dt s).g_factor = smooth s.g_factor 1.0 2.5 dt)
    ∧ (c 60 = 1/2 → compute_g c 60 = 2 ∧ smooth 2 2 3.0 dt = 2)
    ∧ (c 0 = 1 → compute_g c 0 = 1 ∧ smooth 1 1 2.5 dt = 1) := by
  refine ⟨fun h => ?_, fun h => ?_, fun h60 => ⟨?_, ?_⟩, fun hc0 => ⟨?_, ?_⟩⟩
  · have habs : c |smooth s.roll s.bank_angle 1.5 dt| = c (smooth s.roll s.bank_angle 1.5 dt) := by
      rcases abs_choice (smooth s.roll s.bank_angle 1.5 dt) with hh | hh <;> rw [hh]
      exact hEven _
    show (headingUpdate t dt (gDecay dt (modeLogic c dt s))).g_factor = _
    rw [headingUpdate_g_factor,
      gDecay_g_factor_of_ROLLS _ _ (modeLogic_mode_of_ROLLS c dt s h)]
    unfold modeLogic
    rw [h]
    dsimp only
    simp only [show (Mode.ROLLS = Mode.CLIMB) = False by simp,
      show (Mode.ROLLS = Mode.DESCENT) = False by simp,
      show (Mode.ROLLS = Mode.ALT_CAPTURE) = False by simp,
      show (Mode.ROLLS = Mode.CRUISE) = False by simp, if_false, if_true,
      show (Mode.ROLLS = Mode.ROLLS) = True by simp]
    unfold compute_g gDen
    rw [habs]
  · rw [show (tick c t dt s).g_factor = (gDecay dt (modeLogic c dt s)).g_factor from
      headingUpdate_g_factor t dt _,
      gDecay_g_factor_of_not_ROLLS _ _ (modeLogic_mode_not_ROLLS c dt s h),
      modeLogic_g_factor_of_not_ROLLS c dt s h]
  · unfold compute_g gDen
    rw [h60, max_eq_right (by norm_num : (0.01:ℚ) ≤ 1/2)]
    norm_num
  · unfold smooth; ring
  · unfold compute_g gDen
    rw [hc0, max_eq_right (by norm_num : (0.01:ℚ) ≤ 1)]
    norm_num
  · unfold smooth; ring

/-- Witness for C6 with the constant (hence even) cosine oracle 1, at the
initial state. -/
theorem C6_g_factor_witness :
    (initState.mode = Mode.ROLLS →
      (tick (fun _ => 1) (fun _ => 0) (1/60) initState).g_factor
        = smooth initState.g_factor
            (compute_g (fun _ => 1) (smooth initState.roll initState.bank_angle 1.5 (1/60)))
            3.0 (1/60))
    ∧ (initState.mode ≠ Mode.ROLLS →
      (tick (fun _ => 1) (fun _ => 0) (1/60) initState).g_factor
        = smooth initState.g_factor 1.0 2.5 (1/60))
    ∧ ((fun _ : ℚ => (1:ℚ)) 60 = 1/2 →
      compute_g (fun _ => 1) 60 = 2 ∧ smooth 2 2 3.0 (1/60) = 2)
    ∧ ((fun _ : ℚ => (1:ℚ)) 0 = 1 →
      compute_g (fun _ => 1) 0 = 1 ∧ smooth 1 1 2.5 (1/60) = 1) :=
  C6_g_factor_update (fun _ => 1) (fun _ => 0) (1/60) initState (fun _ => rfl)

/-! ### Claim C10: ALT_CAPTURE is reached only from CLIMB or DESCENT -/

/-- Claim C10: no UI-producible event ever sets the mode to ALT_CAPTURE (the
buttons offer only CLIMB, DESCENT, CRUISE and ROLLS), and a tick moves a
non-ALT_CAPTURE state into ALT_CAPTURE only from CLIMB with post-update
altitude at or above `altitude_cmd - 80`, or from DESCENT with post-update
altitude at or below `altitude_cmd + 80`. -/
theorem C10_alt_capture_only_internal (c t : ℚ → ℚ) (dt : ℚ) (e : UIEvent) (s : SimState)
    (he : eventFromUI e) :
    ((applyEvent e s).mode = Mode.ALT_CAPTURE → s.mode = Mode.ALT_CAPTURE)
    ∧ ((tick c t dt s).mode = Mode.ALT_CAPTURE → s.mode ≠ Mode.ALT_CAPTURE →
        (s.mode = Mode.CLIMB
          ∧ s.altitude_cmd - ALT_CAPTURE_BAND ≤ (tick c t dt s).altitude)
        ∨ (s.mode = Mode.DESCENT
          ∧ (tick c t dt s).altitude ≤ s.altitude_cmd + ALT_CAPTURE_BAND)) := by
  constructor
  · cases e with
    | selectMode m =>
        intro hm
        rw [show (applyEvent (UIEvent.selectMode m) s).mode = m from rfl] at hm
        subst hm
        simp [eventFromUI, buttonModes] at he
    | altUp =>
        unfold applyEvent; dsimp only
        split_ifs with h
        · intro hm; simp at hm
        · exact fun hm => hm
    | altDn =>
        unfold applyEvent; dsimp only
        split_ifs with h
        · intro hm; simp at hm
        · exact fun hm => hm
    | iasUp => exact fun hm => hm
    | iasDn => exact fun hm => hm
    | turnUp =>
        unfold applyEvent; dsimp only
        split_ifs <;> exact fun hm => hm
    | turnDn =>
        unfold applyEvent; dsimp only
        split_ifs <;> exact fun hm => hm
  · intro hm hne
    have hmode : (tick c t dt s).mode = (modeLogic c dt s).mode :=
      (headingUpdate_mode t dt _).trans (gDecay_mode dt _)
    have halt : (tick c t dt s).altitude = (modeLogic c dt s).altitude :=
      (headingUpdate_altitude t dt _).trans (gDecay_altitude dt _)
    rw [hmode] at hm
    rw [halt]
    cases hms : s.mode with
    | CLIMB =>
        left
        refine ⟨rfl, ?_⟩
        rw [modeLogic_CLIMB c dt s hms] at hm ⊢
        dsimp only at hm ⊢
        by_cases hc : s.altitude_cmd - ALT_CAPTURE_BAND
            ≤ s.altitude + smooth s.vspeed VS_CLIMB 1.5 dt / 60 * dt
        · exact hc
        · rw [if_neg hc] at hm; simp at hm
    | DESCENT =>
        right
        refine ⟨rfl, ?_⟩
        rw [modeLogic_DESCENT c dt s hms] at hm ⊢
        dsimp only at hm ⊢
        by_cases hc : s.altitude + smooth s.vspeed VS_DESCENT 1.5 dt / 60 * dt
            ≤ s.altitude_cmd + ALT_CAPTURE_BAND
        · exact hc
        · rw [if_neg hc] at hm; simp at hm
    | ALT_CAPTURE => exact absurd hms hne
    | CRUISE =>
        rw [modeLogic_CRUISE c dt s hms] at hm
        dsimp only at hm
        rw [hms] at hm
        simp at hm
    | ROLLS =>
        rw [modeLogic_ROLLS c dt s hms] at hm
        dsimp only at hm
        rw [hms] at hm
        simp at hm

/-- Witness for C10 at the altitude-up knob event and the initial state. -/
theorem C10_alt_capture_witness :
    ((applyEvent UIEvent.altUp initState).mode = Mode.ALT_CAPTURE →
      initState.mode = Mode.ALT_CAPTURE)
    ∧ ((tick (fun _ => 0) (fun _ => 0) (1/60) initState).mode = Mode.ALT_CAPTURE →
        initState.mode ≠ Mode.ALT_CAPTURE →
        (initState.mode = Mode.CLIMB
          ∧ initState.altitude_cmd - ALT_CAPTURE_BAND
              ≤ (tick (fun _ => 0) (fun _ => 0) (1/60) initState).altitude)
        ∨ (initState.mode = Mode.DESCENT
          ∧ (tick (fun _ => 0) (fun _ => 0) (1/60) initState).altitude
              ≤ initState.altitude_cmd + ALT_CAPTURE_BAND)) :=
  C10_alt_capture_only_internal (fun _ => 0) (fun _ => 0) (1/60) UIEvent.altUp initState
    True.intro

/-! ### Claim C1: composed tick equations for the climb scenario

During the claimed run the roll starts at 0 and every branch smooths it
toward 0, so it stays exactly 0; with roll 0 the heading guard never fires
and the trace is independent of both trigonometric oracles. -/

lemma smooth_zero (r dt : ℚ) : smooth 0 0 r dt = 0 := by
  unfold smooth; ring

lemma tick_CLIMB (c t : ℚ → ℚ) (dt : ℚ) (s : SimState)
    (h : s.mode = Mode.CLIMB) (hr : s.roll = 0) :
    tick c t dt s =
      { s with roll := 0,
               pitch := smooth s.pitch PITCH_CLIMB 1.5 dt,
               vspeed := smooth s.vspeed VS_CLIMB 1.5 dt,
               altitude := s.altitude + smooth s.vspeed VS_CLIMB 1.5 dt / 60 * dt,
               airspeed := update_airspeed s.airspeed (smooth s.pitch PITCH_CLIMB 1.5 dt)
                 (s.ias_cmd - 10) dt,
               g_factor := smooth s.g_factor 1.0 2.5 dt,
               mode := if s.altitude_cmd - ALT_CAPTURE_BAND
                   ≤ s.altitude + smooth s.vspeed VS_CLIMB 1.5 dt / 60 * dt
                 then Mode.ALT_CAPTURE else Mode.CLIMB } := by
  have hroll0 : smooth s.roll 0 2.0 dt = 0 := by rw [hr]; exact smooth_zero 2.0 dt
  unfold tick
  rw [modeLogic_CLIMB c dt s h, hroll0]
  unfold gDecay
  rw [if_pos (by dsimp only; split_ifs <;> simp)]
  unfold headingUpdate
  rw [if_neg (by dsimp only; norm_num)]

lemma tick_CAPTURE_nosnap (c t : ℚ → ℚ) (dt : ℚ) (s : SimState)
    (h : s.mode = Mode.ALT_CAPTURE) (hr : s.roll = 0)
    (hs : ¬ |s.altitude_cmd - s.altitude| < 5) :
    tick c t dt s =
      { s with roll := 0,
               pitch := smooth s.pitch
                 (clip ((s.altitude_cmd - s.altitude) * 5.0) (-500) 500 / 150) 2.0 dt,
               vspeed := smooth s.vspeed
                 (clip ((s.altitude_cmd - s.altitude) * 5.0) (-500) 500) 2.0 dt,
               altitude := s.altitude + smooth s.vspeed
                 (clip ((s.altitude_cmd - s.altitude) * 5.0) (-500) 500) 2.0 dt / 25 * dt,
               airspeed := update_airspeed s.airspeed
                 (smooth s.pitch
                   (clip ((s.altitude_cmd - s.altitude) * 5.0) (-500) 500 / 150) 2.0 dt)
                 s.ias_cmd dt,
               g_factor := smooth s.g_factor 1.0 2.5 dt } := by
  have hroll0 : smooth s.roll 0 2.5 dt = 0 := by rw [hr]; exact smooth_zero 2.5 dt
  unfold tick
  rw [modeLogic_CAPTURE_nosnap c dt s h hs, hroll0]
  unfold gDecay
  rw [if_pos (by dsimp only; rw [h]; simp)]
  unfold headingUpdate
  rw [if_neg (by dsimp only; norm_num)]

lemma tick_CAPTURE_snap (c t : ℚ → ℚ) (dt : ℚ) (s : SimState)
    (h : s.mode = Mode.ALT_CAPTURE) (hr : s.roll = 0)
    (hs : |s.altitude_cmd - s.altitude| < 5) :
    tick c t dt s =
      { s with roll := 0, pitch := 0, vspeed := 0,
               altitude := s.altitude_cmd, airspeed := s.ias_cmd,
               g_factor := smooth s.g_factor 1.0 2.5 dt, mode := Mode.CRUISE } := by
  have hroll0 : smooth s.roll 0 2.5 dt = 0 := by rw [hr]; exact smooth_zero 2.5 dt
  unfold tick
  rw [modeLogic_CAPTURE_snap c dt s h hs, hroll0]
  unfold gDecay
  rw [if_pos (by dsimp only; simp)]
  unfold headingUpdate
  rw [if_neg (by dsimp only; norm_num)]

/-! ### Per-field corollaries used at concrete trace indices -/

lemma tick_altitude_cmd (c t : ℚ → ℚ) (dt : ℚ) (s : SimState) :
    (tick c t dt s).altitude_cmd = s.altitude_cmd :=
  (headingUpdate_altitude_cmd t dt _).trans
    ((gDecay_altitude_cmd dt _).trans (modeLogic_altitude_cmd c dt s))

lemma tick_ias_cmd (c t : ℚ → ℚ) (dt : ℚ) (s : SimState) :
    (tick c t dt s).ias_cmd = s.ias_cmd :=
  (headingUpdate_ias_cmd t dt _).trans
    ((gDecay_ias_cmd dt _).trans (modeLogic_ias_cmd c dt s))

lemma tick_mode_eq (c t : ℚ → ℚ) (dt : ℚ) (s : SimState) :
    (tick c t dt s).mode = (modeLogic c dt s).mode :=
  (headingUpdate_mode t dt _).trans (gDecay_mode dt _)

lemma tick_roll_eq (c t : ℚ → ℚ) (dt : ℚ) (s : SimState) :
    (tick c t dt s).roll = (modeLogic c dt s).roll :=
  (headingUpdate_roll t dt _).trans (gDecay_roll dt _)

lemma tick_vspeed_eq (c t : ℚ → ℚ) (dt : ℚ) (s : SimState) :
    (tick c t dt s).vspeed = (modeLogic c dt s).vspeed :=
  (headingUpdate_vspeed t dt _).trans (gDecay_vspeed dt _)

lemma tick_altitude_eq (c t : ℚ → ℚ) (dt : ℚ) (s : SimState) :
    (tick c t dt s).altitude = (modeLogic c dt s).altitude :=
  (headingUpdate_altitude t dt _).trans (gDecay_altitude dt _)

lemma tick_airspeed_eq (c t : ℚ → ℚ) (dt : ℚ) (s : SimState) :
    (tick c t dt s).airspeed = (modeLogic c dt s).airspeed :=
  (headingUpdate_airspeed t dt _).trans (gDecay_airspeed dt _)

lemma tick_pitch_eq (c t : ℚ → ℚ) (dt : ℚ) (s : SimState) :
    (tick c t dt s).pitch = (modeLogic c dt s).pitch :=
  (headingUpdate_pitch t dt _).trans (gDecay_pitch dt _)

lemma modeLogic_CLIMB_mode (c : ℚ → ℚ) (dt : ℚ) (s : SimState) (h : s.mode = Mode.CLIMB) :
    (modeLogic c dt s).mode
      = (if s.altitude_cmd - ALT_CAPTURE_BAND
            ≤ s.altitude + smooth s.vspeed VS_CLIMB 1.5 dt / 60 * dt
         then Mode.ALT_CAPTURE else Mode.CLIMB) := by
  rw [modeLogic_CLIMB c dt s h]

lemma modeLogic_CLIMB_roll (c : ℚ → ℚ) (dt : ℚ) (s : SimState) (h : s.mode = Mode.CLIMB) :
    (modeLogic c dt s).roll = smooth s.roll 0 2.0 dt := by
  rw [modeLogic_CLIMB c dt s h]

lemma modeLogic_CLIMB_vspeed (c : ℚ → ℚ) (dt : ℚ) (s : SimState) (h : s.mode = Mode.CLIMB) :
    (modeLogic c dt s).vspeed = smooth s.vspeed VS_CLIMB 1.5 dt := by
  rw [modeLogic_CLIMB c dt s h]

lemma modeLogic_CLIMB_altitude (c : ℚ → ℚ) (dt : ℚ) (s : SimState) (h : s.mode = Mode.CLIMB) :
    (modeLogic c dt s).altitude = s.altitude + smooth s.vspeed VS_CLIMB 1.5 dt / 60 * dt := by
  rw [modeLogic_CLIMB c dt s h]

lemma modeLogic_nosnap_mode (c : ℚ → ℚ) (dt : ℚ) (s : SimState)
    (h : s.mode = Mode.ALT_CAPTURE) (hs : ¬ |s.altitude_cmd - s.altitude| < 5) :
    (modeLogic c dt s).mode = Mode.ALT_CAPTURE := by
  rw [modeLogic_CAPTURE_nosnap c dt s h hs]
  exact h

lemma modeLogic_nosnap_roll (c : ℚ → ℚ) (dt : ℚ) (s : SimState)
    (h : s.mode = Mode.ALT_CAPTURE) (hs : ¬ |s.altitude_cmd - s.altitude| < 5) :
    (modeLogic c dt s).roll = smooth s.roll 0 2.5 dt := by
  rw [modeLogic_CAPTURE_nosnap c dt s h hs]

lemma modeLogic_nosnap_vspeed (c : ℚ → ℚ) (dt : ℚ) (s : SimState)
    (h : s.mode = Mode.ALT_CAPTURE) (hs : ¬ |s.altitude_cmd - s.altitude| < 5) :
    (modeLogic c dt s).vspeed
      = smooth s.vspeed (clip ((s.altitude_cmd - s.altitude) * 5.0) (-500) 500) 2.0 dt := by
  rw [modeLogic_CAPTURE_nosnap c dt s h hs]

lemma modeLogic_nosnap_altitude (c : ℚ → ℚ) (dt : ℚ) (s : SimState)
    (h : s.mode = Mode.ALT_CAPTURE) (hs : ¬ |s.altitude_cmd - s.altitude| < 5) :
    (modeLogic c dt s).altitude
      = s.altitude
        + smooth s.vspeed (clip ((s.altitude_cmd - s.altitude) * 5.0) (-500) 500) 2.0 dt
          / 25 * dt := by
  rw [modeLogic_CAPTURE_nosnap c dt s h hs]

lemma modeLogic_snap_mode (c : ℚ → ℚ) (dt : ℚ) (s : SimState)
    (h : s.mode = Mode.ALT_CAPTURE) (hs : |s.altitude_cmd - s.altitude| < 5) :
    (modeLogic c dt s).mode = Mode.CRUISE := by
  rw [modeLogic_CAPTURE_snap c dt s h hs]

lemma modeLogic_snap_altitude (c : ℚ → ℚ) (dt : ℚ) (s : SimState)
    (h : s.mode = Mode.ALT_CAPTURE) (hs : |s.altitude_cmd - s.altitude| < 5) :
    (modeLogic c dt s).altitude = s.altitude_cmd := by
  rw [modeLogic_CAPTURE_snap c dt s h hs]

lemma modeLogic_snap_vspeed (c : ℚ → ℚ) (dt : ℚ) (s : SimState)
    (h : s.mode = Mode.ALT_CAPTURE) (hs : |s.altitude_cmd - s.altitude| < 5) :
    (modeLogic c dt s).vspeed = 0 := by
  rw [modeLogic_CAPTURE_snap c dt s h hs]

lemma modeLogic_snap_airspeed (c : ℚ → ℚ) (dt : ℚ) (s : SimState)
    (h : s.mode = Mode.ALT_CAPTURE) (hs : |s.altitude_cmd - s.altitude| < 5) :
    (modeLogic c dt s).airspeed = s.ias_cmd := by
  rw [modeLogic_CAPTURE_snap c dt s h hs]

lemma modeLogic_snap_pitch (c : ℚ → ℚ) (dt : ℚ) (s : SimState)
    (h : s.mode = Mode.ALT_CAPTURE) (hs : |s.altitude_cmd - s.altitude| < 5) :
    (modeLogic c dt s).pitch = 0 := by
  rw [modeLogic_CAPTURE_snap c dt s h hs]

/-! ### Claim C1: closed forms of the CLIMB phase

With `dt = 1/60` the CLIMB branch gives `vspeed (n+1) = smooth (vspeed n) 700
1.5 (1/60)` and `altitude (n+1) = altitude n + vspeed (n+1) / 3600`, whose
solutions from `vspeed 0 = 0`, `altitude 0 = 1000` are geometric: below,
`qpow n = (39/40)^n`. -/

def qpow (n : ℕ) : ℚ := ((39 ^ n : ℕ) : ℚ) / ((40 ^ n : ℕ) : ℚ)

def V (n : ℕ) : ℚ := 700 * (1 - qpow n)

def A (n : ℕ) : ℚ := 1000 + 7/36 * ((n : ℚ) - 39 * (1 - qpow n))

lemma qpow_eq (n : ℕ) : qpow n = (39/40 : ℚ) ^ n := by
  unfold qpow
  push_cast
  rw [div_pow]

lemma qpow_nonneg (n : ℕ) : 0 ≤ qpow n := by
  rw [qpow_eq]; positivity

lemma qpow_le_one (n : ℕ) : qpow n ≤ 1 := by
  rw [qpow_eq]
  exact pow_le_one₀ (by norm_num) (by norm_num)

lemma V_succ (n : ℕ) : smooth (V n) VS_CLIMB 1.5 (1/60) = V (n + 1) := by
  simp only [V, qpow_eq, smooth, VS_CLIMB, pow_succ]
  ring

lemma A_succ (n : ℕ) : A n + V (n + 1) / 60 * (1/60) = A (n + 1) := by
  simp only [A, V, qpow_eq, pow_succ]
  push_cast
  ring

lemma V_nonneg (n : ℕ) : 0 ≤ V n := by
  have := qpow_le_one n
  unfold V
  nlinarith

lemma A_mono : Monotone A := by
  apply monotone_nat_of_le_succ
  intro n
  have h1 := V_nonneg (n + 1)
  have h2 : 0 ≤ V (n + 1) / 60 * (1/60) :=
    mul_nonneg (div_nonneg h1 (by norm_num)) (by norm_num)
  have := A_succ n
  linarith

lemma A_4770_lt : A 4770 < 1920 := by decide

lemma A_4771_ge : (1920 : ℚ) ≤ A 4771 := by decide

lemma A_4771_lt : A 4771 < 2000 := by decide

/-! ### Claim C1: the CLIMB phase of the trace -/

lemma climb_phase (c t : ℚ → ℚ) : ∀ n, n ≤ 4770 →
    (trace c t n).mode = Mode.CLIMB ∧ (trace c t n).roll = 0
    ∧ (trace c t n).altitude_cmd = 2000 ∧ (trace c t n).ias_cmd = 100
    ∧ (trace c t n).vspeed = V n ∧ (trace c t n).altitude = A n := by
  intro n
  induction n with
  | zero =>
      intro _
      refine ⟨rfl, rfl, rfl, rfl, ?_, ?_⟩
      · show (0:ℚ) = V 0
        norm_num [V, qpow]
      · show (1000:ℚ) = A 0
        norm_num [A, qpow]
  | succ n ih =>
      intro hn
      obtain ⟨hm, hr, hac, hic, hv, ha⟩ := ih (Nat.le_of_succ_le hn)
      have hstep : trace c t (n + 1) = tick c t (1/60) (trace c t n) :=
        Function.iterate_succ_apply' _ n _
      rw [hstep, tick_CLIMB c t (1/60) _ hm hr]
      dsimp only
      have hv' : smooth (trace c t n).vspeed VS_CLIMB 1.5 (1/60) = V (n + 1) := by
        rw [hv]; exact V_succ n
      have ha' : (trace c t n).altitude
          + smooth (trace c t n).vspeed VS_CLIMB 1.5 (1/60) / 60 * (1/60) = A (n + 1) := by
        rw [ha, hv']; exact A_succ n
      have hlt : A (n + 1) < 1920 := lt_of_le_of_lt (A_mono hn) A_4770_lt
      refine ⟨?_, rfl, hac, hic, hv', ha'⟩
      rw [if_neg]
      rw [hac, ha']
      unfold ALT_CAPTURE_BAND
      intro hcontra
      norm_num at hcontra
      linarith

lemma trace_4771 (c t : ℚ → ℚ) :
    (trace c t 4771).mode = Mode.ALT_CAPTURE ∧ (trace c t 4771).roll = 0
    ∧ (trace c t 4771).altitude_cmd = 2000 ∧ (trace c t 4771).ias_cmd = 100
    ∧ (trace c t 4771).vspeed = V 4771 ∧ (trace c t 4771).altitude = A 4771 := by
  obtain ⟨hm, hr, hac, hic, hv, ha⟩ := climb_phase c t 4770 le_rfl
  have hstep : trace c t 4771 = tick c t (1/60) (trace c t 4770) :=
    Function.iterate_succ_apply' _ 4770 _
  refine ⟨?_, ?_, ?_, ?_, ?_, ?_⟩
  · rw [hstep, tick_mode_eq, modeLogic_CLIMB_mode c (1/60) _ hm, hac, ha, hv,
      V_succ 4770, A_succ 4770, if_pos]
    unfold ALT_CAPTURE_BAND
    have := A_4771_ge
    linarith
  · rw [hstep, tick_roll_eq, modeLogic_CLIMB_roll c (1/60) _ hm, hr]
    exact smooth_zero 2.0 (1/60)
  · rw [hstep, tick_altitude_cmd]
    exact hac
  · rw [hstep, tick_ias_cmd]
    exact hic
  · rw [hstep, tick_vspeed_eq, modeLogic_CLIMB_vspeed c (1/60) _ hm, hv]
    exact V_succ 4770
  · rw [hstep, tick_altitude_eq, modeLogic_CLIMB_altitude c (1/60) _ hm, ha, hv,
      V_succ 4770]
    exact A_succ 4770

/-! ### Claim C1: the ALT_CAPTURE phase as a two-variable system

In ALT_CAPTURE only `vspeed` and `altitude` feed back into themselves and
into the transition test, so that part of the tick is mirrored by `capStep`
on pairs `(vspeed, altitude)` with `altitude_cmd = 2000` and `dt = 1/60`;
`capAt k` is the pair after `k` capture-phase ticks from the state the climb
reaches at tick 4771.  The states after 120, 240, ..., 717, 718 steps are
recorded as explicit rationals so each equality is a bounded kernel
computation. -/

def capStep (p : ℚ × ℚ) : ℚ × ℚ :=
  (smooth p.1 (clip ((2000 - p.2) * 5.0) (-500) 500) 2.0 (1/60),
   p.2 + smooth p.1 (clip ((2000 - p.2) * 5.0) (-500) 500) 2.0 (1/60) / 25 * (1/60))

def capAt (k : ℕ) : ℚ × ℚ := capStep^[k] (V 4771, A 4771)

lemma capAt_succ (k : ℕ) : capAt (k + 1) = capStep (capAt k) :=
  Function.iterate_succ_apply' _ k _

lemma capAt_add (m n : ℕ) : capAt (m + n) = capStep^[m] (capAt n) :=
  Function.iterate_add_apply capStep m n _

lemma capStep_inv (p : ℚ × ℚ) (h1 : 0 ≤ p.1) (h2 : p.1 ≤ 45 * (2000 - p.2))
    (h3 : 2000 - p.2 ≤ 80) :
    (0 ≤ (capStep p).1 ∧ (capStep p).1 ≤ 45 * (2000 - (capStep p).2)
      ∧ 2000 - (capStep p).2 ≤ 80)
    ∧ 2000 - (capStep p).2 ≤ 2000 - p.2 := by
  obtain ⟨v, a⟩ := p
  dsimp only at h1 h2 h3 ⊢
  have he0 : 0 ≤ 2000 - a := by linarith
  have hclip : clip ((2000 - a) * 5.0) (-500) 500 = (2000 - a) * 5.0 := by
    unfold clip
    rw [max_eq_left (by nlinarith), min_eq_left (by nlinarith)]
  unfold capStep
  dsimp only
  rw [hclip]
  unfold smooth
  refine ⟨⟨by nlinarith, by nlinarith, by nlinarith⟩, by nlinarith⟩

lemma capJ (k : ℕ) :
    0 ≤ (capAt k).1 ∧ (capAt k).1 ≤ 45 * (2000 - (capAt k).2)
    ∧ 2000 - (capAt k).2 ≤ 80 := by
  induction k with
  | zero =>
      refine ⟨V_nonneg 4771, ?_, ?_⟩
      · show V 4771 ≤ 45 * (2000 - A 4771)
        decide
      · show (2000:ℚ) - A 4771 ≤ 80
        have := A_4771_ge
        linarith
  | succ k ih =>
      obtain ⟨h1, h2, h3⟩ := ih
      rw [capAt_succ]
      exact (capStep_inv _ h1 h2 h3).1

lemma cap_e_anti : Antitone fun k => 2000 - (capAt k).2 := by
  apply antitone_nat_of_succ_le
  intro k
  obtain ⟨h1, h2, h3⟩ := capJ k
  show 2000 - (capAt (k + 1)).2 ≤ 2000 - (capAt k).2
  rw [capAt_succ]
  exact (capStep_inv _ h1 h2 h3).2

def cap120 : ℚ × ℚ :=
  ((5657353063941691784709745605620370271653896571626798214263388251477779220965954810910102157748325395599811147912501587702359592566902868856431745169655865438712476010468128124935328905126473545074487152126691551364889192669646324948121189428502002948114524908519173004017819566296745987591062497719314690315994406996575992995727937592731020360368353163591045055981710188306966860068488673797100674190517599712850743912388335330758436188627630255843027210287791291336325950885465388281999083869463494139586964208046483737840748525794982766846417437027518170832522558148542405622348390949502895637902594479750715990792251434602491260711302731898414299714762866966417658250889491579822725371557312130962075852164397172859550464476471881329144461848727473169641536492167097215841425264428973817940686729556916693333954794598474098251150381479200256244231348892074555516885854025683091916738467258215611311990168246758079659580947955857000454711515561536875928105436366533867603703498173324620432368891907593126472055851421873194997083667266784864485586326581751105774143910029015490440435939137635343347265577425770742914270050969295636330916444087152220036090611671530993905564775594011842492300770188335422621201776651245599201104126342464833913860913590226909476051661200930201980684881582664332851750480415838081367274562804953958126791820386360538458959591384143232260836358084042790549862407216891488155292660461633445391459441847503023476140731079750305797394925507955817871445713541479235680187783727092868766816483530492858072806567030523700305685244233892562063325329604842933742017160867255481131878230685951126709704050199154777383895248856006349634809932088996080190489867893999574060253047228255993511521528625507666222004290905298214150183273439538275518391851437929379399574172373462426693327566150377989776954390981117223416110866437314798134563827415424785866522216125070112329650797149095592347409409325008797484106745232701431982110767344136858817539803423717777747712117793526210437591842591606170522544651945256497289550979406553861885959052897362544518546867899202622632789225546769154968595652506468925179964661136393081614278707360037584775007372210624562867926676303736144383638372553885585725273386435223733041725669789482579815189663707232035105876087837967584527139004070414079684833933823314792236762567238361512458111123270468959198841352005869488190304227605118348048649637870588423876791776762520053062936620793946818771116144434242328230778202548354584321739450551463866584465638323067828054524213948645951378007521640419340710511289177636854601899681218171898223483093334440504014267869409402843184368564286397234620476433456638890775142049914000733813802355976344038166620889798698793282493489944207001881402448938738784385170796410197332155412501406581554929485701501810297856278771885305486909713064611686775077756293272521166397410780154233068703231933848481182644323433575541193563180408591144482262849314471259604786826438094594764174438891491261134271568691797845966373431884167444697868268605562664050800900286548154540469630135162079706173641121232912815224146791348620746704119053408131646135125539641315057500327195161233317480063297242402706143248214744950160239638052212362686179966114679555062270810540334312622685224517911116900783427012451495869330082788270476432821517262906055376753605093966473547608518521655501854855324320359203809942120032257374685493677555110614224449644479144813786119505049984745946884068898344432645326113421100802212042382093610943948138253093457625738574408913054784099631242983082992420208182510389559973130479892986776667348766137757149223477987515356481303429729735697725100832347794925389321557585717820252557029238476157696618420136849462622803831041236643816189565237361671017759157402026567661460777194450673503495807227081891336433933387329278370809928738272603863013336087499758656171321514766688261145068096538179478371855880569380635842373240776002534069648681083395235585385816315938523178813169927518885718477013379906045212803774625826768864215239497865877298565638812212677844604690808782368371344477112892495690658852451211421369680096461920074967423675293496789926269681400608483300091373578403452753173347704993683935015482602748032198846604912182310680939147646975006775909994937406699941458395567791845293439464150099137891978194683304143663759434816594816338128451789967740491869308198113276888332566820302025110130088467096608554556665634862052384282611696421296347871612016923879822049868754602905373469593094414059370327621727440063063359591559541397444088504881080275143839225951096147273950546808515483328067376475818945262577563378124693917304990807577236096339394383785100840959225181742042025187602240579659637488668262158072935751949880050522916248319330949386148895131159485182740580540183148553517151089693786486409727915381958441075631821738748085942725912552852605154401103421024736272647560947508631019167095719347214075090899820758246615503827165669617929234182198761152045573826322181742321886927890197552624902335329100616233049028833022470358825294028223325574445837599341141736925402009593367473996144860583829738673184176668644463082823844879020836768401299798110219875413473635908504302570305337774907285678920213722919822578989208127528434845428017729062363393423452580950397246585538061676856667924068757002562668395775927784865634068890028969586337931031900358930630704389115396389546128798007620352645689007351994921634019747790467016395336930108522758205556623158680933730072596856093607911115387103004141155801225458065572694583588847327331552518153144746680285103593062785049798270686021518371383757714278212763202946975815192231526883667581568290195943284386276461806261139515362153588938448416903482503082686753150792462543499181963867264393458298124392070975386169066649518983074830675413824850822876116568243243210392290274563749397396507810753551453240647580748410535001677621528249780093546324640084912852751782982495293896064223466642639556228085310000670621441974921519023594240666590911545049237194215545141403795016161632207552383669157073898393336901572931782475748246381074866859160944621153865363829556402591058968219380207084626934754716269266860188225984156188048017901261724591752368935320808190663519653178570353741669942093778687272570918204813806206915753347083397698470502803928339905606305955425046993377034039681383984128526252592284514618196833525960779738552053086142735584895965416555064496530934424549245584665110949600373339325822157359420286470015626633139392097946085481214916045423155818498016222844067058475231906735588397695088119258570966017922304223947845333668252392125152133576755174027847393520908336125746591380447013457268817465739423530576782187074066166075932596898922384378527381155137641845612564237085083709603788001223762004400080735994408490567045668117542685121265153307514082685410986418401434516730569599579915883737332387316889033248785785236894580643620422931043159768705372520767890269571763570442456104098020645780183111331895220423700620752968220001772106542371034064695115595334784463415361531531262862177180605856475011005624626585150655282988278387925501722150567918255020950263263912805096136441082121754853820546693533458385256483593202839907425593868140865810396301109164904634158270707790180485925606727482070083511801821569911414838846056003002181999089921637269394817206565367143883685678842083761074448499000164230012174158855349800891531833945461037488184970318940206385587245306007895207662271587482775023361765299931170102433429879966300110960119429142910039864887164795200985767682978135566226474215403784830004837421898011326594374710675067363418197559373222611250217243195076379597632659154165486074739392172527105252066478552452317416273539760644879239856335760661559310674127770884678066962425554711493132416273211355755639419896147358043694479016415809597514426437707751632112274155617716317094872036653825751892035685029192086913325711984707380998564657816961866502669921789144480165324044347328631223420371045138369754571131715500620870182477392414254336184452701163825760710513021562197431664256779513143606155275181187 : ℚ) / 20774520097567581018995941253334294926663888562706121921225115919172899894146046382400080025612893743108830895361165963249645675820627476749397415507809072132676276504352640506870800267480611755211048148523191780600293981736777552615684640377976621598183310037314370699022480652852982492444599602576558796849768491076216278297142689272200450126227991039686640312477417597558194322173011256193165289622011357913630007665551499747880686647394618532504065843821169775971823448968980824434550146187902413377707723698105182857648357666502913023096762632450785229670432931803456115662874961132055001896309472562046380652585852395467932345910385445042546762158951443748138378373300750180783608555557174007113769169367252683411397993563772897880804726096954851254100972791276262567240312526969713360632923121275571096228117083991480192821435638122298325934609922537432160075320296888777577817552908699525674219867259443567810823191635263131101179443251111981898768269488118179666646889485216248743462995762528011981757738811081530810313521950615708539889179136099902478817457303331294670483024872479223083987238039056308741778445576824292529550755717855458794847513621009908909388610108001270465794600208946770592801194507707680790422020333037955854262481803049304151296907423008867647437587939067480753516076552570634441323644764814327917499510651780875259397540978774201642702509843126550016357413169563168663941924186788140567565721414785032512139777066956235140836937774222051464783709963846161545973656316990491000763282517685943964840705963960602237176965642929574430071615645891093000261669071409226228624086927204860581702939527032100633709135483432956346915477730788099312916199431503346859682310520046031403636867129317352208802760619023178109458236062592101576786816993101047731109892142270081294534495225380852557284100178686946743648117259336053432256775422428207725975250133728081451077285918959802833510324658943102428654705872330362553770319358687601389875713372856983562446084582089612236133554325605807846909188413518742025740780678933647251277008422038172016795845611448998392831468332482894559369265362716533575484598927873519012502269228767393765056456891074251883071787687727293937405212192741157156869091960475090262962671746775504102637044889022908917162995692350284960395479764703300671215987532708130501646258014651499481533477839613615799573831401570609165802352385779228305941863159376005753227417488291786445850388175148454966987362993881775934502722455616078939559253882697240703958715655416329315698838669748515766112421096512485357083629589267117072386530511643367111845894193741133970383043736263123359463998412080212672578609563348934337001887311611789509482150979167454269997830696801883902008950681773676670213388364112442903107717715531547825834086097251510105264224689977847097098645889013562624826511180399889501366719618629620540974824372612062596820651083955674136963557048231382983406308793717303152063347716941306182679481648742963122579919881970342952960000000000000000000000000000000000000000000000000000000000000000000000000000000000000000000000000000000000000000000000000000000000000000000000000000000000000000000000000000000000000000000000000000000000000000000000000000000000000000000000000000000000000000000000000000000000000000000000000000000000000000000000000000000000000000000000000000000000000000000000000000000000000000000000000000000000000000000000000000000000000000000000000000000000000000000000000000000000000000000000000000000000000000000000000000000000000000000000000000000000000000000000000000000000000000000000000000000000000000000000000000000000000000000000000000000000000000000000000000000000000000000000000000000000000000000000000000000000000000000000000000000000000000000000000000000000000000000000000000000000000000000000000000000000000000000000000000000000000000000000000000000000000000000000000000000000000000000000000000000000000000000000000000000000000000000000000000000000000000000000000000000000000000000000000000000000000000000000000000000000000000000000000000000000000000000000000000000000000000000000000000000000000000000000000000000000000000000000000000000000000000000000000000000000000000000000000000000000000000000000000000000000000000000000000000000000000000000000000000000000000000000000000000000000000000000000000000000000000000000000000000000000000000000000000000000000000000000000000000000000000000000000000000000000000000000000000000000000000000000000000000000000000000000000000000000000000000000000000000000000000000000000000000000000000000000000000000000000000000000000000000000000000000000000000000000000000000000000000000000000000000000000000000000000000000000000000000000000000000000000000000000000000000000000000000000000000000000000000000000000000000000000000000000000000000000000000000000000000000000000000000000000000000000000000000000000000000000000000000000000000000000000000000000000000000000000000000000000000000000000000000000000000000000000000000000000000000000000000000000000000000000000000000000000000000000000000000000000000000000000000000000000000000000000000000000000000000000000000000000000000000000000000000000000000000000000000000000000000000000000000000000000000000000000000000000000000000000000000000000000000000000000000000000000000000000000000000000000000000000000000000000000000000000000000000000000000000000000000000000000000000000000000000000000000000000000000000000000000000000000000000000000000000000000000000000000000000000000000000000000000000000000000000000000000000000000000000000000000000000000000000000000000000000000000000000000000000000000000000000000000000000000000000000000000000000000000000000000000000000000000000000000000000000000000000000000000000000000000000000000000000000000000000000000000000000000000000000000000000000000000000000000000000000000000000000000000000000000000000000000000000000000000000000000000000000000000000000000000000000000000000000000000000000000000000000000000000000000000000000000000000000000000000000000000000000000000000000000000000000000000000000000000000000000000000000000000000000000000000000000000000000000000000000000000000000000000000000000000000000000000000000000000000000000000000000000000000000000000000000000000000000000000000000000000000000000000000000000000000000000000000000000000000000000000000000000000000000000000000000000000000000000000000000000000000000000000000000000000000000000000000000000000000000000000000000000000000000000000000000000000000000000000000000000000000000000000000000000000000000000000000000000000000000000000000000000000000000000000000000000000000000000000000000000000000000000000000000000000000000000000000000000000000000000000000000000000000000000000000000000000000000000000000000000000000000000000000000000000000000000000000000000000000000000000000000000000000000000000000000000000000000000000000000000000000000000000000000000000000000000000000000000000000000000000000000000000000000000000000000000000000000000000000000000000000000000000000000000000000000000000000000000000000000000000000000000000000000000000000000000000000000000000000000000000000000000000000000000000000000000000000000000000000000000000000000000000000000000000000000000000000000000000000000000000000000000000000000000000000000000000000000000000000000000000000000000000000000000000000000000000000000000000000000000000000000000000000000000000000000000000000000000000000000000000000000000000000000000000000000000000000000000000000000000000000000000000000000000000000000000000000000000000000000000000000000000000000000000000000000000000000000000000000000000000000000000000000000000000000000000000000000000000000000000000000000000000000000000000000000000000000000000000000000000000000000000000000000000000000000000000000000000000000000000000000000000000000000000000000000000000000000000000000000000000000000000000000000000000000000000000000000000000000000000000000000000000000000000000000000000000000000000000000000000000000000000000000000000000000000000000000000000000000000000000000000000000000000000000000000000000000000000000000000000000000000000000000000000000000000000000000000000000000000000000000000000000000000000000000000000000000000000000000000000000000,
   (60853926441309112366572628805515390823843436670447729965203748128251972032053068469548402163121465353783166974408056031211172877649099002866039480840918440272897912824074554390614719550349223984232851330961993704560146442240460983043118577388048306370008674730446567429299180826484370571244548839384355585738818257587479694785638395815520710825181464961616075679675989105415502612483110117706575027044973584724085488312461454149249169451063840362939527447265412743280232100235650117986965367096121437794813705152556866954249643723612267695013505319203592058415984752592278287796100515617443795804695094116207895730495423382708340618714076677735978495490976140424926075425480447286123684040192453928264294342796051849807099627991537693202616559641376398623860359438045739774610084222398513709683497935191978479474584308408203252432578194972690491852336849100820485181349964385549980079227738891034959690834070238980403245672481205333056150090446604491187168631948667835343663254684865781140544039781858529854461021652900687622966425664486577727379072154413595709936537926376514038109938080589178578998372426167542905895635246366785264428199174712415572941504401775460264729730137894678187331789198693786102307672396945042198554066126851384211757431477801285263558286670835100306368153555776350384105904288496131634796549991435749903926119787774706256816666494472524858677781419900595914462308256167380089961669402904137171420260260227985058572756455261147299907833851604926816319009056653097688018471379291813042575163351072051498966543056644558058858513349220449863618812461371011997829216858603292846479090339160111922768390334347643335634932048892408647968670497389915732239030649257305736193514017394022526404697328116930663135417371842978564277531840586595619936364125140531274111350413492940510117810242975687350622348071953198190097097593395401589903065183589721003718665791535526171659919312902283366692805075431357622643690910492189808557962583376398854609716693773597491167522429096615164822158180922510699994872841587150975134624323948660653939245146246033119309487791388464793141090511510845064718907603151234342361929199967350558429297512242917637047722831632062567211417813361847651349022058530231519390272815069301690688972618900165618030332674486875076528716533631615197438565826723502281081995955149013184566136536269919560229454041441778671908468853667494304942416922328647818112102420274604592473741627496814128206535435300509219680623175906524114322318538846549624653681212908534084133264906788655222616913517445269990556375122051398413343010044465501725319760337348919903118853225273449341248908043962395404399253407412409074020251126308633925860919798006567232022488793406008019299202379008618768673756645261153735517637389155962159817402502616199066212439714369068716336355342694952152265680299083236690770948678086351486300169527621746808346361140739086195540498376692660729389374971914302138230924631298199000339927698021138231854826221305770781360953428752239579707553883249679900801943171924939193891196135740565788206141789793465158893356256091497326112959298519828907143602143002901052224974480336781792486296651107914306554818204453418766011755781495468931219613575820484522331858005882132614158530329074049267624483148579276198499219745867872812549411397969245430276553646732305732977380765984409221662789004687036233095844391445781912074418841831018947932950849150154988831678646410576190918108322477668914842028287827595757727272847779078554504701017102386225670949998252890424469709694803648721962697893672328193297702997804803413688488763917515866816508352267423328428586770739920086926764584392267715813565390019594059892162670095220608505584164270177790644637636947959980568485106570139682794474001476108750518827025414289163520878581864680206444918770933217954711688633379762701789577842890020639406703544413696529403970325215464158517168738368561784228687286280684927186464498340544219561541702055696626378550668183684164356206632597622867398435300857826370578081804696062299039751697758498105401783457372045545830277202584770673323913094102733171452924283870624986800365180622156675582092104990150003568566364821589309768352065152496963265930334811486507036423385900521021488138385315138485033893914578501697938163582957445739355767673478797443756661625985412562818408212606454385513040573064560457141773243708268943429720630776737638364948740868442813272596683775965264557248861170856397057074815194151044219021515394098147122433908446483627392812426027878406314976539877421926659942683290230054720151692967743264955705465305234203689845929852666995111999602614862566024916499586535090112327301834259461380983079510281027886441398551088949832830503287363990044706274354278428062395301172980608609436530781766462848940905665092726120448737279779922589651353853225116225792472714904049280961453243655824949208383724468060853788412405094999329742771049295028094796139888910700591915739638238357532108075154259811602120930757538495011315927645155978282831432752487617844893644317058795709986403452685101805767113110292023728510022066035121234473553948138785343168385255377412349402174844346893896970711823678976105668504538605789491089010355580855061707004469717122219903269890220903449533749455797789612087960816876281837968314483754991796271754301850673941000242897170811331682479410613064883211944314809874129177790445760341271920711556689697211644264619244888088558517962942139532244185630740340353452176207527886634004364895992397327695825336528364266817388533071599515591481625601282857541418021332588146734100441982026451104656335187142176316066114141580401386811885589141970314329696493601292099218949300169734031327888284275513860745993630445394904055816592876378722621916383223375204785599637155551829476439126564413876865789654177477443191584368305610612685074922563909896436500239481217829661186914795053288554908757923558944287593386358815619077961038685743833751506642802443832674162425904201231474051007642634015319742651554540238080674439865734214911231056988797979663153099981611529092058324381450189210389213013573158550463601708037870858780860572939914442246861231048631953587264110259398295898365146304332258333869190808790911132868366989160070115537717758753909060205678502743446394481170710802607375069018930329569596789550911861132956389874254809247224630710176413907097334363292264022471807735724354868167649971083879448049547615330238683348290376436975901706452380353952633576634733290189840809229113111556364684007193646492972931204630965675170617335593077940751840409900167058812271958435226576485720869910243438829838844764279441997955891144381859311262185605219676799461384234821342165551807527838207914153282756306600382350692086697970857084620206301034882240153164485641498922613204368280342343276386724825621383629207993678705131441468731256426873546115009054985784802998117963125043971498052708472081444701879541999979884295911878939179574569904233234831267336048756294053867213640269242040027763801483277869257074609009666828974633423137250402454660444561720675728227698534586407065396664369773589970695162822771317657829850704442822407946970709317228264131678453266990058457318734610960847405908510694272170571217351234619015181832499881442376585930651147776374132498607338992151137827762069015187140795888980172417826235948622096241457987567590141244926149340853591009373258854532735555183129174979503385325885824960053690986084089181850036220391292820398903657287403021062783365114976340780133701420755065294600966584947019907387550675525453505742913995442486237887135018798923260844796063138828825295502663685969527478348285309655713214287652859710711569011867337851586600739868540478647900358581634477630832238650896800864924113828565124322102950060382322994485681686971632316714513570368100317778317101883725050058851924857126017926065237445476774270161440033200580238035048221203827606801685741575454891227903800104477733714289748306454473510350039906052694300942966345390913007293444442264428042819241802974772411672264250796506264967968728026275694399612382031067721500593590261062321412101668784627930050891966783057594193637356893877532398187 : ℚ) / 31161780146351371528493911880001442389995832844059182881837673878759349841219069573600120038419340614663246343041748944874468513730941215124096123261713608199014414756528960760306200401220917632816572222784787670900440972605166328923526960566964932397274965055971556048533720979279473738666899403864838195274652736614324417445714033908300675189341986559529960468716126396337291483259516884289747934433017036870445011498327249621821029971091927798756098765731754663957735173453471236651825219281853620066561585547157774286472536499754369534645143948676177844505649397705184173494312441698082502844464208843069570978878778593201898518865578167563820143238427165622207567559951125271175412833335761010670653754050879025117096990345659346821207089145432276881151459186914393850860468790454570040949384681913356644342175625987220289232153457183447488901914883806148240112980445333166366726329363049288511329800889165351716234787452894696651769164876667972848152404232177269499970334227824373115194493643792017972636608216622296215470282925923562809833768704149853718226185954996942005724537308718834625980857058584463112667668365236438794326133576783188192271270431514863364082915162001905698691900313420155889201791761561521185633030499556933781393722704573956226945361134513301471156381908601221130274114828855951661985467147221491876249265977671312889096311468161302464053764764689825024536119754344752995912886280182210851348582122177548768209665600434352711255406661333077197175564945769242318960484475485736501144923776528915947261058945940903355765448464394361645107423468836639500392503607113839342936130390807290872554409290548150950563703225149434520373216596182148969374299147255020289523465780069047105455300693976028313204140928534767164187354093888152365180225489651571596664838213405121941801742838071278835926150268030420115472175889004080148385163133642311588962875200592122176615928878439704250265486988414653642982058808495543830655479038031402084813570059285475343669126873134418354200331488408711770363782620278113038611171018400470876915512633057258025193768417173497589247202498724341839053898044074800363226898391810278518753403843151090647584685336611377824607681531590940906107818289111735735303637940712635394444007620163256153955567333534363375744493538525427440593219647054951006823981299062195752469387021977249222300216759420423699360747102355913748703528578668842458912794739064008629841126232437679668775582262722682450481044490822663901754083683424118409338880824045861055938073483124493973548258004622773649168631644768728035625444383900675608579795767465050667768841290611700955574565604394685039195997618120319008867914345023401505502830967417684264223226468751181404996746045202825853013426022660515005320082546168664354661576573297321738751129145877265157896337034966770645647968833520343937239766770599834252050079427944430811462236558918093895230976625933511205445335572347074475109463190575954728095021575411959274019222473114444683869879822955514429440000000000000000000000000000000000000000000000000000000000000000000000000000000000000000000000000000000000000000000000000000000000000000000000000000000000000000000000000000000000000000000000000000000000000000000000000000000000000000000000000000000000000000000000000000000000000000000000000000000000000000000000000000000000000000000000000000000000000000000000000000000000000000000000000000000000000000000000000000000000000000000000000000000000000000000000000000000000000000000000000000000000000000000000000000000000000000000000000000000000000000000000000000000000000000000000000000000000000000000000000000000000000000000000000000000000000000000000000000000000000000000000000000000000000000000000000000000000000000000000000000000000000000000000000000000000000000000000000000000000000000000000000000000000000000000000000000000000000000000000000000000000000000000000000000000000000000000000000000000000000000000000000000000000000000000000000000000000000000000000000000000000000000000000000000000000000000000000000000000000000000000000000000000000000000000000000000000000000000000000000000000000000000000000000000000000000000000000000000000000000000000000000000000000000000000000000000000000000000000000000000000000000000000000000000000000000000000000000000000000000000000000000000000000000000000000000000000000000000000000000000000000000000000000000000000000000000000000000000000000000000000000000000000000000000000000000000000000000000000000000000000000000000000000000000000000000000000000000000000000000000000000000000000000000000000000000000000000000000000000000000000000000000000000000000000000000000000000000000000000000000000000000000000000000000000000000000000000000000000000000000000000000000000000000000000000000000000000000000000000000000000000000000000000000000000000000000000000000000000000000000000000000000000000000000000000000000000000000000000000000000000000000000000000000000000000000000000000000000000000000000000000000000000000000000000000000000000000000000000000000000000000000000000000000000000000000000000000000000000000000000000000000000000000000000000000000000000000000000000000000000000000000000000000000000000000000000000000000000000000000000000000000000000000000000000000000000000000000000000000000000000000000000000000000000000000000000000000000000000000000000000000000000000000000000000000000000000000000000000000000000000000000000000000000000000000000000000000000000000000000000000000000000000000000000000000000000000000000000000000000000000000000000000000000000000000000000000000000000000000000000000000000000000000000000000000000000000000000000000000000000000000000000000000000000000000000000000000000000000000000000000000000000000000000000000000000000000000000000000000000000000000000000000000000000000000000000000000000000000000000000000000000000000000000000000000000000000000000000000000000000000000000000000000000000000000000000000000000000000000000000000000000000000000000000000000000000000000000000000000000000000000000000000000000000000000000000000000000000000000000000000000000000000000000000000000000000000000000000000000000000000000000000000000000000000000000000000000000000000000000000000000000000000000000000000000000000000000000000000000000000000000000000000000000000000000000000000000000000000000000000000000000000000000000000000000000000000000000000000000000000000000000000000000000000000000000000000000000000000000000000000000000000000000000000000000000000000000000000000000000000000000000000000000000000000000000000000000000000000000000000000000000000000000000000000000000000000000000000000000000000000000000000000000000000000000000000000000000000000000000000000000000000000000000000000000000000000000000000000000000000000000000000000000000000000000000000000000000000000000000000000000000000000000000000000000000000000000000000000000000000000000000000000000000000000000000000000000000000000000000000000000000000000000000000000000000000000000000000000000000000000000000000000000000000000000000000000000000000000000000000000000000000000000000000000000000000000000000000000000000000000000000000000000000000000000000000000000000000000000000000000000000000000000000000000000000000000000000000000000000000000000000000000000000000000000000000000000000000000000000000000000000000000000000000000000000000000000000000000000000000000000000000000000000000000000000000000000000000000000000000000000000000000000000000000000000000000000000000000000000000000000000000000000000000000000000000000000000000000000000000000000000000000000000000000000000000000000000000000000000000000000000000000000000000000000000000000000000000000000000000000000000000000000000000000000000000000000000000000000000000000000000000000000000000000000000000000000000000000000000000000000000000000000000000000000000000000000000000000000000000000000000000000000000000000000000000000000000000000000000000000000000000000000000000000000000000000000000000000000000000000000000000000000000000000000000000000000000000000000000000000000000000000000000000000000000000000000000000000000000000000000000000000000000000000000000000000000000000000000000000000000000000000000000000000000000000000000000000000000000000000000000000000000000000000)

def cap240 : ℚ × ℚ :=
  ((11338734616791245455039427476262850252103231217361382033694922043905553632268416851675064708685195715612319188769535395052190098542283075552784199822287764878173185287227627808995886275439379619491835250336379426696803694662128626404024438669731240113408861558690872595402951240818668589912909504961163140477991874365127581885563118672660798832501538685229753160875130020182152944136128030787478154704428416158677120163768390995121300144845789217185106388433959783183702836406187208410103131248580941526165764720844689520551536468617640611421981173448855540984862114699318105908157411988099377288223987242760172165239543972694038827700734532627937260433308998217909401058996697378163323725487843410629014535941587872058100208287186766095911950395401737179382678605194012136292988387922570172989610252018155742085981546496431281323214613107290311826107724014742702040527083684642882119058173975756888931439049829971469387911935865304111267842571478416275679117547832630631951623377140568621662170385445002144404166246840140009411146745206704607462674156740859114742560800520645426628032051775143890828119900029083688365117941834496001567752543705255160928608601236351664110588000529156023317304807325289082973588761923899835845182191323627685201588051561575539292817885209601123845595232500608629088915000392257843001458980325230651217115471976125348431066734282905771180595656762969886363917152706900505105315391045399535175209589322419904117769807113990482890700398370606800441144706101196690244789948430179343153576367553160929241758909820781482089504209305437797104752760491798254839314325140157838723229082155794441821870249715844655629174876640576293845026456893259755033295395391942040779354225841725645450004772988375877727238854186100778956218691057926694003144393138881441726048371954963578097992821986077761305697394517958713971882692330868055943624009615191679504480695681444798115080493684928600271925352622121387510366915240868788099060511857812963989780754243218918405875058786340296923377631172959828573202961211160992777937839860357981383846685815208621599970551611784092594889845763212103563088505541794394882116430173079853211042574329813758264149251467250090469015887301772385819104041694120165984277167742342275304229741379089579400033552486093405493147617856771550977048459826288070177061206293305934894278209885645170815980407069464721766845557994274615426059328609183202034262921622888227741498694794595883741902709518465153064055756693884822759110895017345040706884937500834467514168357985688417863560839969983701050999123550734411948414452113906539940772293072818224143419939678368360056704031403970618395610881164000877080949175677576807153339340201074365413889569953057752345223489262873520611794106735925356981653281831914828286566531723787076863729650814996791590618287775607116269268730342963646336797514949231523546251524596552082324074908290301687073770488892329911324199377025734693753020831554904230771347701130882977627401736867434871820181289161145940109441575563501724503449897940457851918561684041424730614498398849736672358391868712619675621255789863491617358812332752917133334701645351660569427908672136529048998180198833445690717904146177356100829776848456102106239444261876399235725837910773566690750444645260171102703372894676062364868727898094867920795368824505717346071101322254999865259158063785704846543212778622621284784265043639887959809344769429763963069190430288434874278210230939438028062881179441680894865345091672596790366602250551473624200822655167329093715782646344423406647568947192634207670684780626534206437193521877135963585108216616524190449171697615086613849574984750614758191038628926502384488879809326035255063375524804595409857310816093322047410383944238195635814592817624097234495254926272827093866045602193076134731412999566896332179022582286799519727199179600381536972139639911450472020218961075349490848039550016809170219248768795249035336615080616860120505496175889459750596196739146660680394279702240405742199972575058702331656560241854212327868773923854931183889381942822433684531232249693871246550507795298823862875791521721938109020579343586156921500790208242467075984038291909253888079257784530609616521229210047358855474117123930898793032465845139844433709844324775139276481179486319968938413252686306601090759113997636966585045917948396654650609656212613906172523013058068468358179170004990461989415840170740945124124435883970561560668750389661366249422164215183530852104871249994077506640142671720164873347674385757871525795479618353338646496866656508610222802616981781879616845456245788826036800775297914101990628560679922992158756704901440566273966261398507631585705034411250672016442149969605937488679727289246069745404423485254143953826392712981053566860512151096529019416055519397411125272608179331982257423137628642808974742790403722555166040408083145645639774152798291937418357971958799132576144591109133077142993524514999934295650175233116739741561548955490553797687208918733535862664554655199474550425514575037324980267413350394228391039609637855245084874482511596851975757837329619489378802164682274952429159147937795585023603509031132287385226502693448749138775406661872746294626568467867680057751912205469428161396122046023885174467709893471274163698948951844203600436877160756271750630919771894000019942296148573279546788179416892583091850433423745183878308368284301345662291351994700634404408495891466276093689700351313128743417748939340710529761260936321227161540037963869557919118663378085217519758184118044126884548453069739798741890758410567660191857674622577266649448758636991713686852964992606047113584752405975029944279995523325097656055146943334640452245521403925908624739277823244654763291766042480173395994269518261816829405878336467616279538172883443491769998986458108875419500097400196718405801887279888083303335531674450475643950337258139637857800638952554746288939414704196758505005063236038677700392092684855965545160539080876717377447715921463001544131781797199746233443686629216714864104338774197815321268375535494971595860536987764188939163567050013262871519747676548854212568420553013249732927243850779190321943090050309482042588453335076429897450700616924182874231757383503316760727833741537497178397847361389869228529856559682161060648015982165890684441855108935726030404289908456907478312858328306168262986070638469187766927929212869596892881099362329602357596279575771062196833295752211480848477863364169605510991219631038816741537474970033989759587497272800314836055049677938111622462129511648042929180823722455877137981544282263518360502745102485957878097687271015081584945965218109343614864661550827299621847406092686701755232191988385132165390693461154345865083788287564318084305896957430817030641812801612230360520644489667597987839753635894127048457625765344802777222866835403139141156687544193530358610922770584304828510601205472882264498588685074239427553654398644947161767019154458484643354257459319656356251266169146693969863616305518307273584198378917206453570022836246980747995708357058746704264650978566802450216248695405398433694345424478036349096794797415403175072922092893873890675843663555412040553412045416446511191214425250959042708527212987961153270344243617670301177134065968858911865508044732626879820940944360222512959640533268940317786891903659937183337066021128281144600094491653426231886163510403686457630574787905439351157727559290242289668901605969877961159726619992170280108269580049452407026968322262808807041068309139002744419539616147445813285023198271366636178222466734116143236284442663688038410451927463839836417873097801126682558196672639848307562021446526163382874342540799315983091598282450519747926264235811121111481571239713008730634565208139056008294133664340649973669171578518030319284705345319199806624358916481267280480729691700981214620388335107681089678612474675225632435623432541743766217544745292945582628767805295595128012394810798642873201005748134043645403419244228134797166423547090760286880175415236518959784670551799607088953486695176419372400072706210361732191137020889220847845134575479948670553154348940827488916223578146465019549104982197130533213146371356870977277530142358853870295332239862658437044937228834480179876029678596118958512504988928529275359967143588264905081540789857874456889763158409126792718918056315497586740683457418211930179142610285982159388021252560313291584970607964883309651958544028503179811347503663452155274503685559203559813631815940286042214946468173212533699449791084690378495442036777810449155223255698629460563957330678241189916876341163168780907722474929384074978873811263338561084193187 : ℚ) / 67086036300901042691549132332224108460425351486894127027285978197992023981235423955612435795883756255763723813574664156737319341444054633095285981513065823024382735819972357846271367690363665988809239358236306545730722650176424636108326601128731340028748676088543182015810601605017897364496666066322793628367078423187414591090198738985959269235552618498224531262365715013759053264328833678755373249223036692160829317060084373135236975918540725235282003728758383852973761085056537314957410316186812904572732049944048870568774201229728022321811936691150849580648206841762148311087339883675963371847972616409888766928102250499483894167994600035773147068848599933042711747523975298151578209064962404469698564064143602238317073076669048996445156333693642426632774700722393849287202728948478837509065209547735567067471485044558983584269982893755680477992483892582324098893777975311376345368222631965416561528581005455698657002928817600988328376794126389979118313663254520579165763208546092260143081602150143120786577276519942099998347744461325254340855476669948249178279710268394424145949487224572138884367549377960672556707296263955570158777855258882783024720597233791470441693768925396439441367291072128134570230988459471371537218260131783899782319434065564375068230659716871168534223706696704712115655174442641768130053970183191194140265308940886329807085759730184377539013343997087928642641182897253635664688654291586543210079164601283671006824020314388557507085746553196137523431651555032073833948482538581060332132760369239621922076173285021229217771242995777931886842615771577123515640302036061979819009127692689338129252775247800592485126721413532903492466849880862366138339467783345734270803267540327853473928743588395572487622150885928149854138618334372061170525238542066421628903099371015959519387264160854568867304198798645332844197660817706733903313405584672961552066227998882869640566398931794024996154843078192283571296019256488460364921646736577011953047141988317271862329198526851167644530854352405031623586829786324266029114419857897620469125670323598455703084638193358726038477868490179533734489800420356701044730050255922491511460841381370656415639937017697143445941712112018269543502467112829600451259091030092661314801933693854180607096629527291500210101468980512329525729275619520854305754368121286603465852511494294691331242677230250161208940449246867257577968019274638375174776209776693593700844428634763404230272727480657390927180652639759598361661565995484012963145134304057764457277820491546439599592252639263740233085787794093090175125701593299907517166437870778828823851498265777206942881885773450395801625763976201984495368008900881448137887474387626150898056256551240570025338926563040921954911551001986279618718142799416354136444659195762774714724893351719756172865513252844433243457126637463299466268613002633089512071370558066134916658112796860211377943584560668906406031604904406573329753028836510824984431744652823029759550138983704965875511868317299539574300418755481299637157974237276552320760680209784392890210964099522170751039512980937864106873108949726563358694440960000000000000000000000000000000000000000000000000000000000000000000000000000000000000000000000000000000000000000000000000000000000000000000000000000000000000000000000000000000000000000000000000000000000000000000000000000000000000000000000000000000000000000000000000000000000000000000000000000000000000000000000000000000000000000000000000000000000000000000000000000000000000000000000000000000000000000000000000000000000000000000000000000000000000000000000000000000000000000000000000000000000000000000000000000000000000000000000000000000000000000000000000000000000000000000000000000000000000000000000000000000000000000000000000000000000000000000000000000000000000000000000000000000000000000000000000000000000000000000000000000000000000000000000000000000000000000000000000000000000000000000000000000000000000000000000000000000000000000000000000000000000000000000000000000000000000000000000000000000000000000000000000000000000000000000000000000000000000000000000000000000000000000000000000000000000000000000000000000000000000000000000000000000000000000000000000000000000000000000000000000000000000000000000000000000000000000000000000000000000000000000000000000000000000000000000000000000000000000000000000000000000000000000000000000000000000000000000000000000000000000000000000000000000000000000000000000000000000000000000000000000000000000000000000000000000000000000000000000000000000000000000000000000000000000000000000000000000000000000000000000000000000000000000000000000000000000000000000000000000000000000000000000000000000000000000000000000000000000000000000000000000000000000000000000000000000000000000000000000000000000000000000000000000000000000000000000000000000000000000000000000000000000000000000000000000000000000000000000000000000000000000000000000000000000000000000000000000000000000000000000000000000000000000000000000000000000000000000000000000000000000000000000000000000000000000000000000000000000000000000000000000000000000000000000000000000000000000000000000000000000000000000000000000000000000000000000000000000000000000000000000000000000000000000000000000000000000000000000000000000000000000000000000000000000000000000000000000000000000000000000000000000000000000000000000000000000000000000000000000000000000000000000000000000000000000000000000000000000000000000000000000000000000000000000000000000000000000000000000000000000000000000000000000000000000000000000000000000000000000000000000000000000000000000000000000000000000000000000000000000000000000000000000000000000000000000000000000000000000000000000000000000000000000000000000000000000000000000000000000000000000000000000000000000000000000000000000000000000000000000000000000000000000000000000000000000000000000000000000000000000000000000000000000000000000000000000000000000000000000000000000000000000000000000000000000000000000000000000000000000000000000000000000000000000000000000000000000000000000000000000000000000000000000000000000000000000000000000000000000000000000000000000000000000000000000000000000000000000000000000000000000000000000000000000000000000000000000000000000000000000000000000000000000000000000000000000000000000000000000000000000000000000000000000000000000000000000000000000000000000000000000000000000000000000000000000000000000000000000000000000000000000000000000000000000000000000000000000000000000000000000000000000000000000000000000000000000000000000000000000000000000000000000000000000000000000000000000000000000000000000000000000000000000000000000000000000000000000000000000000000000000000000000000000000000000000000000000000000000000000000000000000000000000000000000000000000000000000000000000000000000000000000000000000000000000000000000000000000000000000000000000000000000000000000000000000000000000000000000000000000000000000000000000000000000000000000000000000000000000000000000000000000000000000000000000000000000000000000000000000000000000000000000000000000000000000000000000000000000000000000000000000000000000000000000000000000000000000000000000000000000000000000000000000000000000000000000000000000000000000000000000000000000000000000000000000000000000000000000000000000000000000000000000000000000000000000000000000000000000000000000000000000000000000000000000000000000000000000000000000000000000000000000000000000000000000000000000000000000000000000000000000000000000000000000000000000000000000000000000000000000000000000000000000000000000000000000000000000000000000000000000000000000000000000000000000000000000000000000000000000000000000000000000000000000000000000000000000000000000000000000000000000000000000000000000000000000000000000000000000000000000000000000000000000000000000000000000000000000000000000000000000000000000000000000000000000000000000000000000000000000000000000000000000000000000000000000000000000000000000000000000000000000000000000000000000000000000000000000000000000000000000000000000000000000000000000000000000000000000000000000000000000000000000000000000000000000000000000000000000000000000000000000000000000000000000000000000000000000000000000000000000000000000000000000000000000000000000000000000000000000000000000000000000000000000000000000000000000000000000000000000000000000000000000000000000000000000000000000000000000000000000000000000000000000000000000000000000000000000000000000000000000000000000000000000000000000000000000000000000000000000000000000000000000000000000000000000000000000000000000000000000000000000000000000000000000000000000000000000000000000000000000000000000000000000000000000000000000000000000000000000000000000000000000,
   (198241429896569973151440014236057846531426221152773942016420379527727820823775497731565614840489045852155184210897574914062464456438618111828909641554249453995130313692729769554095912334078336938821781075919850442739027099560360587452494447476697948602811905426601521593338911304656692178468857914699519276383898846845565208576070892276407363275050290097613656097947102902417120305628715895340369343514777630099800481537208593902376434977488031757441910514439100680048376443183269498502509622811655913140960494817245271769125821671339045975041993244001968482244297991515566163145837892622680494569969474051337480646490736428907497648886127664692245783026022530919474997469798176174706487713054342727027193271761112418467708956717597950779745277108276485759384224126207728669274765010915368475810701382659863267818654045904564030711636301164991234891739248380402644789911687534055711047157965652295144118384324294741926541566249896679378457373332253044777308446165622013343655119347045165603865422926667116954706353674651294172859941829492746003113796412994416944768640981609891659886158019403970434282586381922599978687175677682757869091348488510151936770688275796847872487643553832014151299623195820090641433980700007800953645480021068432811278098983916950384025887406345219752142014033911601389983521196261976936476343480765030306663329460417697041745407165557664034088623963489755153993641783946014013331666212086669745759332225080110988443695083587386783523327460890798943013808620568733241987717341179816136585789703373939772788315538416588352975817139630471054933674358078948613717541398088517411431789762126338590029978764710563934672194186096220451600708768328321540694399372715983812411631983041736157729386836349235890793668615655154888990275153983269353643570918624769536507660349257098228282440823756939656017667133787294567598779964949800780989474246213338680555367557463193257755665951216908954482640864447091005767696264509123272218662107029458225514996448240476784598909931123422866276457834935868781950341562145498554784823915378572121183785506592281102756106720449853072642455968810648343042890980026057365078855599466513541495170115239874716884311436999352070177114423978817050914581255577151319832728272563215001344592155042477297956174781817952543889581481074584890826293986727885914495348333703303754352004013998695488982256954649898014777588772293325938877693606676160357221120918358276952845475903120477666431922323052258291590352631613915022781210694181253877048131042486567768580894419869188870650081483557785215304471546257784276075523934066350297094264282300733594145433290161624462586888479115558649131135501928175017066286258953947205302128013752126870090396874944624358344653792026280326327737218499724690469742971430222658371013601608582816699238184034263321028686657324339861454558627442380473139856796219924788034762193923828456961655471592649193480607085052986077646641073541481002350368035914781346764548616672396747093004565619933881369310611669782521422488464260690463813617212464432962438518130982509187647748393271075034134092765840772345163831060086444701181415927173753228508024011986951769835846253533224399221564419365719376793170596797880830062250415176982412458534908477769601182978362251918489443565371963886090018283239025690569982774720515549942239772861625175637479697190132909641169080465958153942275181229005327671503540427333867192266637543971770626719332911776099533892214832681256542894475441537961098534016167562696806320481415353968092858581672596684992408501318353194376449063443550253140879348008633347467403493972161050979956745633323515532106979448043562708170476153939351913114274509174482188715918256219471560368515133786705296012831976057741705262955429324373762292907544159989723061305526373613910157711556179002909070189991616491383219110136498472124805779742121243011299302962391270234122846738529167231136426550024551963729363023443478835143133949558730698041059537040739884850265309911499137779014008322471295004145286700252505428702916749064430859349403843339516555920146728216302512819051184455573425151054507612728664975799726246336412862029640317136019256484941669769215005162146174432744772583327091534145775486202682947179284168571270523039850156786762726170529069371023709035923258078974184883202589182517365010284179083683176547820675957049885904186963879533840871810170324087393077606401704088741127484575673658221411975143155852644283647032235483882687527336497832597159423432822031477508139007273020476002249278707271258890175752495338716618814895030648463493445579422367667606570415516336445131408283029000072826841724247010616318259568837436279132499565895656745676091997567814466909620945128567570695219699742578677805637218505866650854448157521540970982428045182359262054667945693823684126374337690026758203527373246835456614051491352963898058588151027536100369182064480362466146099606245506392202918036271200785458310058640168368776488771485265582821656197204780057910348182509402503731347053169743952566010543462225868083481105145898137028122275666366728481433343834804719782725273319785244502576720356871446527676715873894958495218992537809120756550119638180445835376329217441904910236513527361568986972927424781068758084898079276454798731046142208540931819138051172886763269919543750952623788622582994953880618641488947180258080994581270340456561793525899573487945596178392958569429356420560613404136115000414242564468301506897474959822919196013492925530972735706544252637962992271221863025694340947378981347551549943288499519251020206006095978969707881458859311737376878590808339294507295190580510031034630079451574929734101521604991735916693122539240949339157191905125604334122149209495205291607639001415092524382230635113404931604172747798041865977289548641727350165955712473796981898100949330995544792320980529893164932969711703840443610098937288378834160909673252746233336978747966550385337350448311524910901471970760043480774375821883628676991467145668230266489486854846225698391302757797172208381118633670458985363462834528774068669134267673299556637832062830690575640427721370249962897780140353104993797975716251567492233140802781689918880910118917560942672739532664450461479606193683566418680026469985474926187860616779558716972372761288564052718552641728594509232424179115393276253182021415191710979781823125743914096347803698412399141100965924722637607465467991395462361262191265447431986748443566713805140259479047540975523967298442873996845877748487038604350388591842583628791918634371065059436059077463512194084273443616625241857048479110373506391734444307345141339662451021878588085172773137585110517976906109086650568134653548605318656940405990757570685863474693530210483583106217056432387721959151355845526385451959908446388036517553538573823510097999014048911286109536188210106489496407285052441512746823699719111936922372414751680248109455678466360678226832824380769461060291857814670934674831786830808267763894895657510361724996266361426688880694097343831197598475150569418269400643252440748810595031286741615559498145149631903643543866747652874905834824751209777311364198885745413288219173642368731191404514175386922438068616531770497101362589883543900294151068924571647007882330339969342072859705672972710287184841058871998006907540886486129392211695771498526408759698934222698158988249548177097546465948446612832900385906843146218483780854018175550482809868401966795583779724352062294337169379084228640284765684982214488527726723116098178079549270703817816150777961316865085323984393701955631098489048018598421160004889042058475680079186830870357827272633843874239739098335696169597894262177834689565015297964299032516916494815353323637687693278072043769741451247662394760329653880348712260281364288265119267949817489692111995402422978000751929221435079074150616179014578222727328413743535144143900122236729278493464417216596074999831776699236625732547627027769994563562490995528035145617003857639808787907545229408952849816548825701548824622972164605043875171909502284324605519079383711166245530131195529047839096494033811507566053184061219783410520611587241251470064618002386807372540780725959838006467033256263512238040840295245845739381279618404885930435852102195852248092584865425128904840746839803738986957805327625362143881929301547019388778070641407558234762208936885202160325048800371075564210861015794344523396152987064071147170547332396316941103453228708143077170470527531812385012950034114490921522773210261193306397304643052607622889308084449939934441910473877591448531027678284177992992178028289379572139038183917991854219981705392635622169091508319265164036543442633410187 : ℚ) / 100629054451351564037323698498336162690638027230341190540928967296988035971853135933418653693825634383645585720361996235105979012166081949642928972269598734536574103729958536769407051535545498983213859037354459818596083975264636954162489901693097010043123014132814773023715902407526846046744999099484190442550617634781121886635298108478938903853328927747336796893548572520638579896493250518133059873834555038241243975590126559702855463877811087852923005593137575779460641627584805972436115474280219356859098074916073305853161301844592033482717905036726274370972310262643222466631009825513945057771958924614833150392153375749225841251991900053659720603272899899564067621285962947227367313597443606704547846096215403357475609615003573494667734500540463639949162051083590773930804093422718256263597814321603350601207227566838475376404974340633520716988725838873486148340666962967064518052333947948124842292871508183547985504393226401482492565191189584968677470494881780868748644812819138390214622403225214681179865914779913149997521616691987881511283215004922373767419565402591636218924230836858208326551324066941008835060944395933355238166782888324174537080895850687205662540653388094659162050936608192201855346482689207057305827390197675849673479151098346562602345989575306752801335560045057068173482761663962652195080955274786791210397963411329494710628639595276566308520015995631892963961774345880453497032981437379814815118746901925506510236030471582836260628619829794206285147477332548110750922723807871590498199140553859432883114259927531843826656864493666897830263923657365685273460453054092969728513691539034007193879162871700888727690082120299355238700274821293549207509201675018601406204901310491780210893115382593358731433226328892224781207927501558091755787857813099632443354649056523939279080896241281853300956298197967999266296491226560100854970108377009442328099341998324304460849598397691037494232264617288425356944028884732690547382470104865517929570712982475907793493797790276751466796281528607547435380244679486399043671629786846430703688505485397683554626957290038089057716802735269300601734700630535051567095075383883737267191262072055984623459905526545715168912568168027404315253700669244400676888636545138991972202900540781270910644944290937250315152203470768494288593913429281281458631552181929905198778767241442036996864015845375241813410673870300886366952028911957562762164314665040390551266642952145106345409091220986086390770978959639397542492348993226019444717701456086646685916730737319659399388378958895610349628681691139635262688552389949861275749656806168243235777247398665810414322828660175593702438645964302976743052013351322172206831211581439226347084384826860855038008389844561382932367326502979419428077214199124531204666988793644162072087340027579634259298269879266649865185689956194949199402919503949634268107055837099202374987169195290317066915376841003359609047407356609859994629543254766237476647616979234544639325208475557448813267802475949309361450628133221949455736961355914828481141020314676589335316446149283256126559269471406796160309663424589845038041661440000000000000000000000000000000000000000000000000000000000000000000000000000000000000000000000000000000000000000000000000000000000000000000000000000000000000000000000000000000000000000000000000000000000000000000000000000000000000000000000000000000000000000000000000000000000000000000000000000000000000000000000000000000000000000000000000000000000000000000000000000000000000000000000000000000000000000000000000000000000000000000000000000000000000000000000000000000000000000000000000000000000000000000000000000000000000000000000000000000000000000000000000000000000000000000000000000000000000000000000000000000000000000000000000000000000000000000000000000000000000000000000000000000000000000000000000000000000000000000000000000000000000000000000000000000000000000000000000000000000000000000000000000000000000000000000000000000000000000000000000000000000000000000000000000000000000000000000000000000000000000000000000000000000000000000000000000000000000000000000000000000000000000000000000000000000000000000000000000000000000000000000000000000000000000000000000000000000000000000000000000000000000000000000000000000000000000000000000000000000000000000000000000000000000000000000000000000000000000000000000000000000000000000000000000000000000000000000000000000000000000000000000000000000000000000000000000000000000000000000000000000000000000000000000000000000000000000000000000000000000000000000000000000000000000000000000000000000000000000000000000000000000000000000000000000000000000000000000000000000000000000000000000000000000000000000000000000000000000000000000000000000000000000000000000000000000000000000000000000000000000000000000000000000000000000000000000000000000000000000000000000000000000000000000000000000000000000000000000000000000000000000000000000000000000000000000000000000000000000000000000000000000000000000000000000000000000000000000000000000000000000000000000000000000000000000000000000000000000000000000000000000000000000000000000000000000000000000000000000000000000000000000000000000000000000000000000000000000000000000000000000000000000000000000000000000000000000000000000000000000000000000000000000000000000000000000000000000000000000000000000000000000000000000000000000000000000000000000000000000000000000000000000000000000000000000000000000000000000000000000000000000000000000000000000000000000000000000000000000000000000000000000000000000000000000000000000000000000000000000000000000000000000000000000000000000000000000000000000000000000000000000000000000000000000000000000000000000000000000000000000000000000000000000000000000000000000000000000000000000000000000000000000000000000000000000000000000000000000000000000000000000000000000000000000000000000000000000000000000000000000000000000000000000000000000000000000000000000000000000000000000000000000000000000000000000000000000000000000000000000000000000000000000000000000000000000000000000000000000000000000000000000000000000000000000000000000000000000000000000000000000000000000000000000000000000000000000000000000000000000000000000000000000000000000000000000000000000000000000000000000000000000000000000000000000000000000000000000000000000000000000000000000000000000000000000000000000000000000000000000000000000000000000000000000000000000000000000000000000000000000000000000000000000000000000000000000000000000000000000000000000000000000000000000000000000000000000000000000000000000000000000000000000000000000000000000000000000000000000000000000000000000000000000000000000000000000000000000000000000000000000000000000000000000000000000000000000000000000000000000000000000000000000000000000000000000000000000000000000000000000000000000000000000000000000000000000000000000000000000000000000000000000000000000000000000000000000000000000000000000000000000000000000000000000000000000000000000000000000000000000000000000000000000000000000000000000000000000000000000000000000000000000000000000000000000000000000000000000000000000000000000000000000000000000000000000000000000000000000000000000000000000000000000000000000000000000000000000000000000000000000000000000000000000000000000000000000000000000000000000000000000000000000000000000000000000000000000000000000000000000000000000000000000000000000000000000000000000000000000000000000000000000000000000000000000000000000000000000000000000000000000000000000000000000000000000000000000000000000000000000000000000000000000000000000000000000000000000000000000000000000000000000000000000000000000000000000000000000000000000000000000000000000000000000000000000000000000000000000000000000000000000000000000000000000000000000000000000000000000000000000000000000000000000000000000000000000000000000000000000000000000000000000000000000000000000000000000000000000000000000000000000000000000000000000000000000000000000000000000000000000000000000000000000000000000000000000000000000000000000000000000000000000000000000000000000000000000000000000000000000000000000000000000000000000000000000000000000000000000000000000000000000000000000000000000000000000000000000000000000000000000000000000000000000000000000000000000000000000000000000000000000000000000000000000000000000000000000000000000000000000000000000000000000000000000000000000000000000000000000000000000000000000000000000000000000000000000000000000000000000000000000000000000000000000000000000000000000000000000000000000000000000000000000000000000000000000000000000000000000000000000000000000000000000000000000000000000000000000000000000000000000000000000000000000000000000000000000000000000000000000000000000000000000000000)

def cap360 : ℚ × ℚ :=
  ((23326558100577495940184634810806151747875259044039706788088770187918523068329921664404211158437061739051468423502355591781774352993269932661176372214475817403664849668013358718909128941955064569291090622107319145228363268073986178253609955828346278611930715176287987415694198322024564111502855433323531322048610976162401355162301218406928030729334647569109369966928404389113721704540512613613545750941869280056830042344249929164344332820500294266975900875951040454365738826681176232231551691459554413407374776953824281263763010393401258740686697059801309724467784479292242235293410782945687176404432275375960887084011076675701555447055597283633703431884348776534260617488268909448457623832820551153667687492778277143936463693656234069142603414927395830690454698777499482371702832869158986182694718564509737024505638755508896770581717562220215177663524195562783845987991637275052991632417148660204869885556713223860814113854680196564680851305151874069098604931811144042215437031890909098408384639387944422134302195131258126393383042381393782513663277528018688359434690348623198680122417769798485667136460035709875189093626745762098969376296152083738192288898676889548445979605715544347814736785971096360969192839615844505734289114277882544851117653633102792562192144565897102184168856829173300895976992001482693296395876139381600905213908961084172216450840696954504027350987983812141493071885120591882122803996228864618108229483721308085878617143024067277830119391349233972334199088317303111617316663837138517409076144695644782871698778686518968852363476728690859983857546012373142329158499014060141484910602197124960814712911557650575686263186237436366864760110899498281274408034613681583140138054141162856769565266676783468823665573089439442112163149867913131610377332768555789036235817148738419710441796331513194346322514692066575104663835432876579866239033355794245660292657592172915096135004999745355502479593990784597697028491881173398041748422750854402974537655835693386397221849243693062085079058872502292348861371248005610992863279921576954502004818759640498293189739448567688846214096647043421201621965339286185536948177531607330319804049014094357225748883316367653386775533934861215823197927343175647102083922604449022763089839219231297268003848801899188246661500405042543260675568390762612455194779030599756183010508884789477296751314394994383463345402024479715741149006807304354468632059714903249803445872637270992660360570081579261654128293767244163067211647860494798052844429713876244587353509059409842751773799990632458135579507652632571451980536104801053802354180738190294129165302363266259797619004885823598881927570349057410122820778730967032496946414891598998685861563604402194234910913433285179734032552323450681750488983306926792093710359790991483551553997443732092938068040391492283568867315503908180965775786327360770780098977543951462467012379481459972334414830373197108141186437915011201167239856630024094339197442914923756941705780673430446056478532019876750396891981939211348418035541192570441983149409219525951776789805652951338456645973786807231695230785648764738759959586439103039757169157639820664040980357018513060389576954035528390201394872596561737030553505509765920395155127984017927774639258348690427572729299531153474470839408637379282803978838500406675575753332191309670544237211150621601434558164186266135968276516203178132579265331372404699574727831843268284315762026376447252578019944490770631340538877275042049569668109561817662003104294830213987575509819968904470658922130759747746631364792089291545838105495324621438705740949635482701446118343793135154666192637992296073164542715415066656221124505443203776211927884603225442063574692422579889407201667370383192080276012910754948935623926417022870599838319442249457393751142382076049118675337050679089982467358903090536531659608017104514805233583191552425112434861600293722763451649651190665541886270843883332010879835704071571626236939226654091873429139824605901767118612378594098922931553042114854088172927710194488361492717025959853600098783166424785210557768983104531079242499326379631375451448420355939175005369953117059343049350176773642394342079206439844544788386597537166866044515964661621802891623347277501591768789261417163144438729170122921742567393788724272987618320634722644187674757275651569728060535616272421816894751090304741606869865572906922305131260837870789336139350357524084622142368585297543686873733585465472501103407214205934944636412121008242549386420198860751261245390006230052033708136663252291360496460814259466545021399267461176420884392031283278748413755022419628222191395458971595476908199246825546899616467255587795036554814685019276798756112305211019675064101401460312818196709239772499209881233797412306530892884575459002105948853764408485436199495018280488880362194509585008321980735114713079151739707318348501784682580081196848535060819535084065930222632921363776586951351987983578106271655747867094146602370860753265249518144411914209248514927349185755597732755596634018364735217934557008011193008935428180294800130059512182686162244511310416290748163079262289085506879880490320848325486628018433811498055302585297969763559783445387851720735944680311417336767929719141659162802197493310251919735116859660979331811862986317506820979235082772885082030010107884981810621709321322923218042786618325594020320717916660147765016716590199195956146483246800458586458764988711211424977994634940595517736334604739919046049915934849121911447383251201071126717060424318966628466253258179474932639606383880562751659826087025720801396713844688403350023339278235328763257401376542963778252250930235195986155632678875812815677483614136010033885778086011598929093114972013329390163486524041708533961757004998821370455819226684131853651912127201784751721776128929426529824759256990780081848031991687470047887177232738392284361692710363063243277272144161271810643607137850969821587592928175217244406155383788993180966032024271129559895606439839261528208766961679333285176251882966841999640867107789404407943190710737567405034552690359099214026825515613276271128406863351435725005867025372409261734617813317599304102063632386061545622625654819191948306804881156558588953976102202195083625461602189725620645159227587809298268484669118536775294308725299073713222246760184033293014500111331163369532352338285790494482194407099915741126607640192566147954836601569577229547259786477518208130669475487924021204928326199864128672831232551370612341588344636115925654227475373824786558095978996201780456584890804132546327967444786946349238502964446828244344454060610119490356288288518557062865316223110191337293481869993944198306658636548031358161905116694782737246855921692380434114978445582547206612659781053649347418182293465820326933399797590655606302082257766393053194081485273792959716434751124939444812835176389660372322235231386096156129571598820315341919905969693490868133723959339326042974316179514228717251528683378985632514039166884246865003037459071672291458080119246286282583173462072351895420566205036677326817472837073943318705064813171777910868910517609828771385106018564512505948294642560419776035643624185550840846287139557749868925206924202931564246720584844663931262884561739688921533051194781593583340961162708601792900775983385688408301307315468907891911462478333734223554048018478282794467517898594534894359444876914048404365972450262125165358808873223699413171291304543767561434783254302978164922418777345583555682690430131591443293024498877286524142221816636261638915160489734445301503675881104196216653108698043008893463420863434589052344701270509721578531188376675940521868544800019655085383471007240069244433972708302733229234633012635372698458044874210870771006473420567968802704959985812362566389539313195633795966814019921577930704449105291840848796863111959521411923170417577795098852354375996521709019048112234199009637656145195905793866170273945555425704485005630974448517347276063859645211991417181748731217888167730507196112070529632130358032013129410016010882437685512886660932880898763395914311812407520694421634452430297078595264232544641275184917860845189932665839165701671949142950234383272698588348589895144848636813677654529854960478485178406019137261921818603097313373689731911099004324152543741769204090937133326268737922652042628595984050893966165918557290248480088114726490619161502625864158088778899263536166837554941715101462588853060429172041125309636841826104600856642705741750418049744538570369591019091929206181641401556569829147229690819637241401322906208895015402194648318733538229390709079878124203005410324805228110891953556817681033381168137072816748142932775921039088776671233372695706511725196125216890041276963909807505738309188687746469340635336005471962033110639888915055083784856369090767958277036669113531371180949230667008342471036490993294166932829634786039792905330235951297991668735488879808958174206990829508567793531674144767917332931051963124867219017859669317404882630254548947164820285164360437218908969339096674181996661554115496943889260253520693572561369446884298950976171777756520605205187 : ℚ) / 216637315587991136019408581119226276543126070697644872785957961398861665818988075932538721388791365562566146127385942129098621805872518627346367778092677941272946918725827063607369382084670411508541002630776747745554198009195645123434854434622831078423823617637633801608676845521142459049190307886297068138948522363987881667146831435025136168968551436491902411771458277768644264685694698369881867490716872514224152547723172429894134331525459478410112601640122217428076466481831874421505772568915620377404007851893475032417849125915154267643272206685263615227095676869667912442145198854120064019260552489574107395180324005741818807310241201207074922556412191914426960822806618918731300682141392583924003724853600695059958991346315982367044539015023648856403576162936634777447860112698930341235823032248127765262974709271988530398754194601842837631775266856284641956827271787311131120912840121367284034442627895507289908564541460008582070645761571690792265058849921021119091299038793186399814772874126132368330084015860807778781018234393079650770062847204464040929731209315383726876272114558668889887190589293567536793933455153835438145525031000194381214198470101529514012651639910041674571939260996434133992849086615934383489635521029888486393555196509604442408378867029832890004855194652473628685641040077482694759664414116696392460165950741758751225374777486812822077422843857536549087107424622340755277856350319825519905425257412928506473618575245890792430056485165493964267671451924580656994725414601659102549592062450545213439745887215983454962652240092959188123757499872712211177258988367090924885690334122567992354227140412331955259130761490919046670804788922970033410491075866887282806949345825259843430562443012917502997754602513806168201616307390383255985379146283059079533189740925056133679713884875742893543847688934435291510622055312656278531138356956174815689489020151532168327082812180304123427685940750036315855647846561009177726709359558287055474893689794965429445408310513247047910986324567409048708232426171487861350726875007165226414197692982919327945168708582787250974172854289280785449519309898305326851782527371678256170200011122173121548363908876051974476215566312192989334747919929361956889134580594190714173366240793441593609298126106398961167876142398924793093033222651098161510477434222182111981844097362442029793414896062854764409367624755286015854595337308682753276695730932052880872777636883360080818437901878046947623787307853879149282754155129507900113758482653716892255897651569738560083563891591379975860018646956809492506945714221478569072552340996229704204792025010826151639277398000914640589113718477089015106585420165504082837664575615656423706809639472654267006210005122315119031251149607264252720023418850050400358534112502368190418599235035369503089010597864032939879885910636808601823824885065212912880410110465483864172281908555063064575401012338440603231628286686442460403991365760270397136341667550942326224225817640445892443150001687524665860097165455759296919210498173474201074729055513370663922518205489582283069342117501962459499885835668593643786203731345398212490589803908610810307418226395370937239841959942922496964017723522607784645997113158020713379578508172328960000000000000000000000000000000000000000000000000000000000000000000000000000000000000000000000000000000000000000000000000000000000000000000000000000000000000000000000000000000000000000000000000000000000000000000000000000000000000000000000000000000000000000000000000000000000000000000000000000000000000000000000000000000000000000000000000000000000000000000000000000000000000000000000000000000000000000000000000000000000000000000000000000000000000000000000000000000000000000000000000000000000000000000000000000000000000000000000000000000000000000000000000000000000000000000000000000000000000000000000000000000000000000000000000000000000000000000000000000000000000000000000000000000000000000000000000000000000000000000000000000000000000000000000000000000000000000000000000000000000000000000000000000000000000000000000000000000000000000000000000000000000000000000000000000000000000000000000000000000000000000000000000000000000000000000000000000000000000000000000000000000000000000000000000000000000000000000000000000000000000000000000000000000000000000000000000000000000000000000000000000000000000000000000000000000000000000000000000000000000000000000000000000000000000000000000000000000000000000000000000000000000000000000000000000000000000000000000000000000000000000000000000000000000000000000000000000000000000000000000000000000000000000000000000000000000000000000000000000000000000000000000000000000000000000000000000000000000000000000000000000000000000000000000000000000000000000000000000000000000000000000000000000000000000000000000000000000000000000000000000000000000000000000000000000000000000000000000000000000000000000000000000000000000000000000000000000000000000000000000000000000000000000000000000000000000000000000000000000000000000000000000000000000000000000000000000000000000000000000000000000000000000000000000000000000000000000000000000000000000000000000000000000000000000000000000000000000000000000000000000000000000000000000000000000000000000000000000000000000000000000000000000000000000000000000000000000000000000000000000000000000000000000000000000000000000000000000000000000000000000000000000000000000000000000000000000000000000000000000000000000000000000000000000000000000000000000000000000000000000000000000000000000000000000000000000000000000000000000000000000000000000000000000000000000000000000000000000000000000000000000000000000000000000000000000000000000000000000000000000000000000000000000000000000000000000000000000000000000000000000000000000000000000000000000000000000000000000000000000000000000000000000000000000000000000000000000000000000000000000000000000000000000000000000000000000000000000000000000000000000000000000000000000000000000000000000000000000000000000000000000000000000000000000000000000000000000000000000000000000000000000000000000000000000000000000000000000000000000000000000000000000000000000000000000000000000000000000000000000000000000000000000000000000000000000000000000000000000000000000000000000000000000000000000000000000000000000000000000000000000000000000000000000000000000000000000000000000000000000000000000000000000000000000000000000000000000000000000000000000000000000000000000000000000000000000000000000000000000000000000000000000000000000000000000000000000000000000000000000000000000000000000000000000000000000000000000000000000000000000000000000000000000000000000000000000000000000000000000000000000000000000000000000000000000000000000000000000000000000000000000000000000000000000000000000000000000000000000000000000000000000000000000000000000000000000000000000000000000000000000000000000000000000000000000000000000000000000000000000000000000000000000000000000000000000000000000000000000000000000000000000000000000000000000000000000000000000000000000000000000000000000000000000000000000000000000000000000000000000000000000000000000000000000000000000000000000000000000000000000000000000000000000000000000000000000000000000000000000000000000000000000000000000000000000000000000000000000000000000000000000000000000000000000000000000000000000000000000000000000000000000000000000000000000000000000000000000000000000000000000000000000000000000000000000000000000000000000000000000000000000000000000000000000000000000000000000000000000000000000000000000000000000000000000000000000000000000000000000000000000000000000000000000000000000000000000000000000000000000000000000000000000000000000000000000000000000000000000000000000000000000000000000000000000000000000000000000000000000000000000000000000000000000000000000000000000000000000000000000000000000000000000000000000000000000000000000000000000000000000000000000000000000000000000000000000000000000000000000000000000000000000000000000000000000000000000000000000000000000000000000000000000000000000000000000000000000000000000000000000000000000000000000000000000000000000000000000000000000000000000000000000000000000000000000000000000000000000000000000000000000000000000000000000000000000000000000000000000000000000000000000000000000000000000000000000000000000000000000000000000000000000000000000000000000000000000000000000000000000000000000000000000000000000000000000000000000000000000000000000000000000000000000000000000000000000000000000000000000000000000000000000000000000000000000000000000000000000000000000000000000000000000000000000000000000000000000000000000000000000000000000000000000000000000000000000000000000000000000000000000000000000000000000000000000000000000000000000000000000000000000000000000000000000000000000000000000000000000000000000000000000000000000000000000000000000000000000000000000000000000000000000000000000000000000000000000000000000000000000000000000000000000000000000000000000000000000000000000000000000000000000000000000000000000000000000000000000000000000000000000000000000000000000000000000000000000000000000000000000000000000000000000000000000000000000000000000000000000000000000000000000000000000000000000000,
   (643699563070034428023008642658098089474261216353572941275492493172800882604703875121164434034086208430595538516191948914878794859379717802595362219326056267662137293739122506112513241474000916370906774401841466631688587348893429156103834134561397551260714781774658104536908450675408322546490366350984742150654417183815039070940422488479073984709249170876430173943142569434166840055533860708071322852578314368947130962576645314138945878414093856618690134568405794866758257701260056074708378641559303755580851460761239468262120510058288505442056269163005297612665530755091988942260249959554804860620079103354019124269033909997076678814593914684663444173602292117708341268630650150516990933432422215689521674459203710968857941637353578848574214278886671766375838885940020034051498415226349013917457543155560652957843168108438518139037210752493277660534020737350019591770217148761966169597225141060014002397766190468659031041656119377192101299875782986183837555365233270512933627025915415272373220544124762400414383225703947847983991083587692038744057688166268003252769679967652045162419860662918260828736775654335091892267707285119508698313626740881616415881504156075353748611494274632950898216420302866279508136111325276252494258680187584926392924355522111774922817635359711041018804492133238607138780666743956308396214037762968322156391227008031150657078507402804144226848801261636617727769335885695095153865153171298592328032778273389141886704382209391187970929336091430041854075304312189371627545007267395703960019962691451724904837408767283032702835551847030215672600991125618916801022023939200645039053087136373115595206049829616297325810392227769967543532622451415572991487205705165888482597837534208949080506036140579829211428149983405700400801357344043192719553076790083734240338767930042129933995846490139749413057054320008136824274369245273947142286733993099968276659118865720486807904546147279354897706620494443232940771608878671889262084400655823369607335487504400109697033643299919215593947190198373763643127287507183116136446047987786262592760134815651935675424324082457267280473530341275114531378404740787670383803577369277897877705469843494143715659050673892306243950300843056892283484545973264348365468314493861100772474206910504006697475826407095061000941139972519219310249459315924140492490599601954641757234737924722585522965380557075547064658843715013414725100609627770758038770394791662003120697201523810984448295177707170435502006084089204645527618158519070925639368527425906743790634405063615342368329263299052194598720314411347780941986693936572906040577897145376477907561536547658322743204683708167796226273550267714775187249117037480194330818032469927866569061982127662086000289797304891394533006251153151373552712471401854261775217928725028327798824380636679215022983619350191026045143248594517420408347023513704359557615414174697674038829277590440358560217711020365630570968935242305982074738150058365983741486690799855857577754677245778213142972626114943702198074500827382486195064725998765089245257248637520664972112488864511315427270786635339111102355453977002347789608430011818351113260959160617476370535393804593130767050779438617851895118958055573475338069350381464119355482011118212031352455916378174030750314651259434874028224893642379302561829159360377180579595405470411367113674398908005978222390350529795608933636191818236692851549255253632560532012544820248525554160890322211671329474251913116950368580176368172663349684997850889783990917406313775505448205661450048448430548725776988201969827248471481562102162204891321959433846137728868586725318195395961294801877332041176112329409986368303925965483803180105538907306240185078113441720487699214566632527244556670551105391395100808692513453056845962061283942868183771144940441278316985592582556556860435647448176766565031840768874964844592740545310263439215078386140829169459546643622932914937185008493539684058178794864823869701470388627715011374133407314190964319696863501868158315184361004497281832007527147138313727652680991153842494730474580307684891485297848657590268432481671805094672328220736020994064485636841603960524647295397908543415431532200375700132875290609659487189477452292487306525201936693604631207346241821551464181581768218783378813578138509929084134251307779133985987057268926102199576621721594746184007351078925582403309925823905383824661221729609653785701608008944401225045428741652919270395431998264511814159979739631801157105416757252418319494752657071302630075463456982145446694253100797634887497226663941776511234786362691863009549283441878506168765337412977466236883032145894369104529630736133706239735167562477917744517566451087631600910640178884280968553055604445386457347178606891453709291959957909467868875170023531400005523072135638581325382705300048983803873208829341928270832319256366899937069704912813096345173363336173250001456661116813629343132559705245707790598386164877070926666934959972204753930634568751730451695146510880641533002209445113334923992499008941098806846586926553837992525934681349471939870135966105586773902111728007619234081601796531887584410527157583232184032345077222809976615450795321260864404661063196905603592243966056525010825554712233978148611631637391876720397177347498036956107428387782583047343975046752407773086077497636191913082111619103659806244237513539527008220883725900925559293406876455417929442772217038055647493470194029310798634419202701317628861242423006712889194789331254564497541947785855988752450825301263197669412099443110737404570770682475713749201977318234551827449981520256166115580302149497372055180141829395110659416169596253261027100120642703266630904168685323389228848541014792750232054931268420570573896730606037490104004594514413078078059863884003242889203298330713394028839790046550327082423066331387862642501687800475853315999184430074632917019484800132399280708735379909117147214383215240274484070841128841639758296601432539694984602764252127924502236346916394989109827978184541068713764766786310165834790784597255099498257795958030920985594287811236651576414382013569429948174021846770594956788162631947525762676444694705378342770259561169045357861670753095737244532810242735238206259320362536542171325690002855367014227408297191364786867527850785224389738247985557507139755469460224030184555118889623312871257679536557855234446110648811111395212321670711454844318955947615188093123820946330863294803527388056842447642771182447472695019555610269080961327391449120757075755284424372875062720704407656872828151880834613840821576516611753168103726748882660173216131190862881675989012328203347835423969852832733207603071704340152457414380878877028770138888467205953251073788080459899185810889313843254418085374681695825883665533147347950077840371889078361804885748643762054247047278523399902109326896985525846312834465871957487872365943679177009734854790834560171661061548654343689335368634314630781070919153257316583561148917223482649787973121482552722758231525571046677397774536154619411825958583613902323489264873125486661057613023928971228205753459217224608096151120758980147515346750191618546544435255085887021058815670818945036169031432317629593396083321584924183012834732381760286056831879385138675980217713573483370116318451790830695260757122677720433585601549826319402151517936295770341375901604975521237028524982183976032662133690459809942376635804250313081804827560227057299110748898961340801679446276796358081843017325457584333013180892096499106879973342535769963791702671288534007055093647936845082241362046739340060177724021825693241318786389751414797803836620677688502498502238442828809887088678324158038310964486770750709128691468861186918587330789632045105780279243052257307369852889880268167988041526445537471606777013161809167642198969774794021233855676143693673314992770826808196881027817972888907950347708495789630649232843424835698227254343249441160264673110314672155188896320974434619593560529124906036778205276635173938437225746624415905580678192711571254750164836343562437715316412674732506196637838226713394770886783006872722360226784593435338173459385569661656855001149677886096291461444773490496537875919507246309327246566637046457842431830584767040565100385944187601005105060231838957168033775164683938729334014742561210814879145551549363834633589758403954374924126593779857767686172864912599061600399034189217110289929753174901288011421581461128275701065101564165048442051469053364201430411790269055232182146499471928325927986666721940634307260165653826329270730374011972464651767507529568094504355092822611287375627013281389749450291179574300221375918193476455241276798990039574928565696086956655971258462673754978923401070182061112772263797452520471869500926302893595142493361323751532186084389007068454128167043046830182339630564451192182524482360141570528019704676667247993945262204954401450092162165682959198089221135553987063414482206454580997968892386124665548680998016019011278989642890676332434538891220956039967735593542152684417649108767616698308844921305538831428522814426038041915083467412913321439012749735081149382751922340411425423325553446422187 : ℚ) / 324955973381986704029112871678839414814689106046467309178936942098292498728482113898808082083187048343849219191078913193647932708808777941019551667139016911909420378088740595411054073127005617262811503946165121618331297013793467685152281651934246617635735426456450702413015268281713688573785461829445602208422783545981822500720247152537704253452827154737853617657187416652966397028542047554822801236075308771336228821584758644841201497288189217615168902460183326142114699722747811632258658853373430566106011777840212548626773688872731401464908310027895422840643515304501868663217798281180096028890828734361161092770486008612728210965361801810612383834618287871640441234209928378096951023212088875886005587280401042589938487019473973550566808522535473284605364244404952166171790169048395511853734548372191647894462063907982795598131291902764256447662900284426962935240907680966696681369260182050926051663941843260934862846812190012873105968642357536188397588274881531678636948558189779599722159311189198552495126023791211668171527351589619476155094270806696061394596813973075590314408171838003334830785883940351305190900182730753157218287546500291571821297705152294271018977459865062511857908891494651200989273629923901575234453281544832729590332794764406663612568300544749335007282791978710443028461560116224042139496621175044588690248926112638126838062166230219233116134265786304823630661136933511132916784525479738279858137886119392759710427862868836188645084727748240946401507177886870985492088121902488653824388093675817820159618830823975182443978360139438782185636249809068316765888482550636387328535501183851988531340710618497932888696142236378570006207183384455050115736613800330924210424018737889765145843664519376254496631903770709252302424461085574883978068719424588619299784611387584200519570827313614340315771533401652937265933082968984417796707535434262223534233530227298252490624218270456185141528911125054473783471769841513766590064039337430583212340534692448144168112465769870571866479486851113573062348639257231792026090312510747839621296539474378991917753062874180876461259281433921178174278964847457990277673791057517384255300016683259682322545863314077961714323349468289484002121879894042935333701870891286071260049361190162390413947189159598441751814213598387189639549833976647242265716151333273167972766146043663044690122344094282146614051437132929023781893005963024129915043596398079321309166455325040121227656852817070421435680961780818723924131232694261850170637723980575338383846477354607840125345837387069963790027970435214238760418571332217853608828511494344556307188037516239227458916097001371960883670577715633522659878130248256124256496863423484635560214459208981400509315007683472678546876724410896379080035128275075600537801168753552285627898852553054254633515896796049409819828865955212902735737327597819369320615165698225796258422862832594596863101518507660904847442430029663690605987048640405595704512501326413489336338726460668838664725002531286998790145748183638945378815747260211301612093583270055995883777308234373424604013176252943689249828753502890465679305597018097318735884705862916215461127339593056405859762939914383745446026585283911676968995669737031070069367762258493440000000000000000000000000000000000000000000000000000000000000000000000000000000000000000000000000000000000000000000000000000000000000000000000000000000000000000000000000000000000000000000000000000000000000000000000000000000000000000000000000000000000000000000000000000000000000000000000000000000000000000000000000000000000000000000000000000000000000000000000000000000000000000000000000000000000000000000000000000000000000000000000000000000000000000000000000000000000000000000000000000000000000000000000000000000000000000000000000000000000000000000000000000000000000000000000000000000000000000000000000000000000000000000000000000000000000000000000000000000000000000000000000000000000000000000000000000000000000000000000000000000000000000000000000000000000000000000000000000000000000000000000000000000000000000000000000000000000000000000000000000000000000000000000000000000000000000000000000000000000000000000000000000000000000000000000000000000000000000000000000000000000000000000000000000000000000000000000000000000000000000000000000000000000000000000000000000000000000000000000000000000000000000000000000000000000000000000000000000000000000000000000000000000000000000000000000000000000000000000000000000000000000000000000000000000000000000000000000000000000000000000000000000000000000000000000000000000000000000000000000000000000000000000000000000000000000000000000000000000000000000000000000000000000000000000000000000000000000000000000000000000000000000000000000000000000000000000000000000000000000000000000000000000000000000000000000000000000000000000000000000000000000000000000000000000000000000000000000000000000000000000000000000000000000000000000000000000000000000000000000000000000000000000000000000000000000000000000000000000000000000000000000000000000000000000000000000000000000000000000000000000000000000000000000000000000000000000000000000000000000000000000000000000000000000000000000000000000000000000000000000000000000000000000000000000000000000000000000000000000000000000000000000000000000000000000000000000000000000000000000000000000000000000000000000000000000000000000000000000000000000000000000000000000000000000000000000000000000000000000000000000000000000000000000000000000000000000000000000000000000000000000000000000000000000000000000000000000000000000000000000000000000000000000000000000000000000000000000000000000000000000000000000000000000000000000000000000000000000000000000000000000000000000000000000000000000000000000000000000000000000000000000000000000000000000000000000000000000000000000000000000000000000000000000000000000000000000000000000000000000000000000000000000000000000000000000000000000000000000000000000000000000000000000000000000000000000000000000000000000000000000000000000000000000000000000000000000000000000000000000000000000000000000000000000000000000000000000000000000000000000000000000000000000000000000000000000000000000000000000000000000000000000000000000000000000000000000000000000000000000000000000000000000000000000000000000000000000000000000000000000000000000000000000000000000000000000000000000000000000000000000000000000000000000000000000000000000000000000000000000000000000000000000000000000000000000000000000000000000000000000000000000000000000000000000000000000000000000000000000000000000000000000000000000000000000000000000000000000000000000000000000000000000000000000000000000000000000000000000000000000000000000000000000000000000000000000000000000000000000000000000000000000000000000000000000000000000000000000000000000000000000000000000000000000000000000000000000000000000000000000000000000000000000000000000000000000000000000000000000000000000000000000000000000000000000000000000000000000000000000000000000000000000000000000000000000000000000000000000000000000000000000000000000000000000000000000000000000000000000000000000000000000000000000000000000000000000000000000000000000000000000000000000000000000000000000000000000000000000000000000000000000000000000000000000000000000000000000000000000000000000000000000000000000000000000000000000000000000000000000000000000000000000000000000000000000000000000000000000000000000000000000000000000000000000000000000000000000000000000000000000000000000000000000000000000000000000000000000000000000000000000000000000000000000000000000000000000000000000000000000000000000000000000000000000000000000000000000000000000000000000000000000000000000000000000000000000000000000000000000000000000000000000000000000000000000000000000000000000000000000000000000000000000000000000000000000000000000000000000000000000000000000000000000000000000000000000000000000000000000000000000000000000000000000000000000000000000000000000000000000000000000000000000000000000000000000000000000000000000000000000000000000000000000000000000000000000000000000000000000000000000000000000000000000000000000000000000000000000000000000000000000000000000000000000000000000000000000000000000000000000000000000000000000000000000000000000000000000000000000000000000000000000000000000000000000000000000000000000000000000000000000000000000000000000000000000000000000000000000000000000000000000000000000000000000000000000000000000000000000000000000000000000000000000000000000000000000000000000000000000000000000000000000000000000000000000000000000000000000000000000000000000000000000000000000000000000000000000000000000000000000000000000000000000000000000000000000000000000000000000000000000000000000000000000000000000000000000000000000000000000000000000000000000000000000000000000000000000000000000000000000000000000000000000000000000000000000000000000000000000000000000000000000000000000000000000000000000000000000000000000000000000000000000000000000000000000000000000000000000000000000000000000000000000000000000000000000000000000000000000000000000000000000000000000000000000000000000000000000000000000000000000000000000000000000000000000000000000000000000000000000000000000000000000000)

def cap480 : ℚ × ℚ :=
  ((48041942591849638106021398386744300572206616586257679152211415521469913427270361698483807858136110877211340310173707711572786929568966254966711999478052487815518618915528532620189912802556429616249566345622701939643069760185514450551012674628718539568311222738969116530561093397139500406590704848515810677279703730213519257983147628536650274639148226241785919301260686109251401862428108956124927613881237259623124285936890892066894489094690705144393789222989320178941588715819977983225817545967411772540224851367840423959085898352083865858599874208854816076296872207627103748275340560497170749416392396682389997683305358066273075020394870277510223793147592776210045466264196350739598862179583185990982061229064723001254375604466001036895523846102143112339258287057685957839700138080962341306039565940263034506403668354683585925207689087637114655015463073877517343119699008501510488532460882598454175509705839473881525167969456820016282646129588171697738435921151681943063879199150114762514299362190379719541856060196268088257012987593985743165023732250463501419952827380753466335323761602037830413521919269364557526978706911863996358872695741602889866060324906014028004651242812207891801988665852528526416822676905507599758065945988649924097650802412449556631822498016404775464469037186714987776064311534667762092554670017504017821603468311400208140082542866162335032219301664263443910708992968392645329941903468562677549828629535729788549353037643662577504532748051441290461105387340065823498009754395223251549776384908553626976168431158152058919254917313843437353154845970644146431098515123731890638733857804868673997940827364906908501392563497047188298545564974913281760539531470993450290150414181044894913189556025598750271149353508895568028581152352841872482232506572443089970419703761906916343607472533815875105159815052908339980001181506053426232880755520978576441777285546799417376729392046562997452402524691892292763980670085499761357801070997901089306891822763642048158496777468699249554920432873887211289015201505361010096431339461140740917752274001898162696388764302969929276308722201113414176587036655760759074630576927049155880745538462378426112632759916209470166696626953155208471081816342596668375461549846898922032676159280719292658287357762886493682787688816304920300931352805931622477414235520644331665748694857729502342567345158915079711359192788320085535521608329999406058765808088365120632328624044000048730745390853333175379576996228712683364459622546105965306662530072720200574653101607322382805063175334695692557549322772097527026696844220395210287846551312405300882236752877210361748765500320465846692116947780582416041939792521210073883528799426295087255111496718836364172579237405295816217052568974088702884230997788989903402274241426583540038706662241261391363407511710917303065494917573976824335221268190382769609068238533674220468636067972014223059588857430970656868075124087154806209417543721911746386394815713296085121321644209008746751503660315716115218995420116601644871823580441768363173040191981117473362155676265247947545071269741451584260549046922645861902910016441548330334227116383554887647532036510214223214252958562871032067121723684013860783410993422426551940399927695201021803174464175617376965157215622715455778224029843022412191200002351128332280890050326629604360358028142945785231531357581786309400701729243969201385000294699830389250714791524727742844506077826631189048745042315694873655068508244212899530058311672385327121513780344130003644215999510899897408642005376423789151681492215276648550208570763502351310271092750045674400010134236228117041699407441685413265023930786875266997432114053888468647451945134013882427749820011579786581624476046335060032374625949467860922294855514002432019546867077784596951845122267070710163405808424001073771769483838538724719334027556525550689177951500619072305753610552507954759316927165059296682179370068705367777813950557763321813928084665697104008817151643110601840907026657792343011835969499399889683944393289714214767080644873894097125587742142413697318939740500666579363942140195505049618025269195195191892572525663972016519670979961619024242283335427089282304180568934818875191450266000936785927311855866672828019758742283517263864510571508776242717283405190019425410325056353475771099406473354635447211199152485033911373240549021535001999326221883534027965941840766089014863448481907885780187495635082305328148809726732194305362974105280366793394160744588155516795129082483840272124447791115226720714218525268874611277720946036084853836041534794092004872219738255972997626584622086925761479922726412029527399856709961371715338437121048740294151415323280515894041940129475631718489798533952532846574397081352003026423171231043127285658164137834734958157133845243690797478070488806050608051147305494770291279634712526014585895494745972369147991577979306359805815074772348647455289339610169831784256653169254644764348543336291806266304040814885537020973746443602968793549336006330775066088106742765823523750720566020015333882863150638696687328521155247937856002583131437976042418083232212390693220752933941459829350527283687188136096202830451206603682021520277178911971014287468356628535787067765931597189928817158270003194831881749429504974036317725852558654976206783286149716851437405763972112927509827387087468808106035686810814250621820984693035726975903534193965434590856437283929594669780164524802676556210605826104442957221082513964660734463872965723114218863239665053073590039911826296383944482592115355829295206379361768788774180795621226700102684816160293876260143802914109978771941076547590813090485246017919716000353849442942031635688577863240951051462937321712906005081543433294834515603290875813219150122280341505198563665856002823173848850166474716340422979798616816282581019086952519941294983860643761875133320328564901734050855878136856843840596103378939230202677191762769494780985246125219309577113326566302263151560325287312478922633193649323681035562237912289799130167728674853880592740568771434246363208377319886998580062504372930297763551632148680263422258808286621126127552082990431133589382555136633621680668541976682115559928051522343058694151480508071671244488638695756337682874588120234075852336860529286392060008600685522047372225134474808820158668127799509556918632726296944806826564660253248887539717313848291493675455588838207428085770923515942376395974134076720065442279089707233977443016294976122039851313830855624299834916967857123255328940459390905928942846644553367586489838210632142306782876033837447081863277048081477733747709400648544531667439474218340631023698390666721055385560432000123337768825616462825659952959522033340762116445769041330337764540924013459735317249224827645041642262289613547702572331862237754064160795150794999006147441781904292646458917464928596605664246455643817142816189774028495739190209503532953843957584353850486428771019037422780650038579763943696731457659074322445370235342950319569719870517400872355384237289093098975554631963470106525917044466264106776200354298100984847804214126376047375700024938125237382151005125502299326489839709710904421835588991042615978710819385721619852302762621907426420692301047640855638346943279901332507218159162677062994883469505919514756648435988156885861559763103721019880827895637458544769586867940527469982066288781377222278292471224941632428236186293904524511463544112317467003145239082343201910617899990877111578095562811080345991926082334885251911174326512243836657770186471425583598378261068384799656898366075509694944347873583515525720586437067174572312120228143474614687659578605430904719078896338140400145770299517039191959322476908225705663877433695695181358783251674866467449006905918595822757664482576445277894333193306021923978821561243144341806023486950632730977093755316019521675565789395713265403233963274122057460152498257259866348555738284030498215701108023260322289101315133811247173362535129646055930149903245146762560242043172521253639684255004776738309306494029282316861772208409733960484702329953503967037062773309078377317411176273287195201465810332749334818276917085205317477441142351728805052439173291954059195900229250141049853934509435892877077306001784885221242192675368564324469934702660185119511497079951048148385335082998247815501507083497640999437788399629395433529230963884204525327748717760877218680823951805173691352403233892271725203294867950495456999911537553380470374423136728127727008386796477950393061278246584314022759231779196674138259543928018757315517654395661165244643597194630279765244728538197724628800671110696909403065576263879928663458789435299014223318826990427328722723812416222386424396900021637147966685808022527547515705897364426394371641260330724570776888031996050665695744883164509369908550092255856874849347250400207184503228794951848279253328543740239522489644665416917967465692374849405004724795621013545316751621122595143004393542284287187216922951240141129408730521084517379971531105393737449453380948899150079958492290639991652980304881892506331277540033271860818661909246222668239923020667231795683592391614185300859603345498011964288817742456693856492208148848726146488711027864116754367634860480242297317701592233216182860308564397226516073893878291606582395917710767694295310000339914428242320825401756079700419005385663061947635400290032053382872105346121835554974919120806470630482457846888426512344710458127563764873002269221813906681293675199994710897029863885173286809233631695018295353127040735347347424068643196270728940896772715264826778196288597665359290945838217187 : ℚ) / 699575188712416448679709430734061647846705192269658529929806318584460188774894021670710545596738049806671171272982806359961481956310255604718707570577735212189299986706474658347850654361348600641576540902064544693567926113685359396264444094166072923272441590429748154584976768451015413173323708307201139409833613494851552736627842013310705548231915582178372474998191168609866890897485747791399823777380173784858993255045972532483624357402509340670264834408437699590698201287815114260859258419354496361275628570669231071924891783539248425978509170767221843946893187857161868055208287814515211803571185775437170123637242250187300432467367382842331790532563861411046765767950085825289464171586116511612325503630138297358897235932239462609027130050302316742983583221289507456811562778063254341908748860695756490255050664441992561760828146013969417074545021452320446943736089281167301288453538057731218009600049413280839787833411021955892798678837843900928233716775080599037826929296512633086828446082163669296803317159011688453267907206164362075572855170942991768084681295612439382265678642052175247431876970158576452974199007152911406962220992695742362621350064363855457551006767601586214503695679000436564361555889453713069820181128879411830663680363794925573123083143316128379057996206580779749592103845644001118510979294382386931619102004537307145100412144567310282069741209553872331945875692755591332952216820146017584158391148971213887146372288222000494080725012817139458374706336005967836657047388733089130459225448756412878661997708225634410735407797389110357126211527068939578634222912750411748905324725191459037882827755892286504386181174857148652156697464643590468299748790703556700518882664734316414213197187733384444853003986591669703961554694769302248647039782916155970916949907057153994935198929469843514812981075797664265907320479000401852389022067423416861711820560745152839897528575288772275309716771100716206351856482377659898167486975884638737512407906367845082299232874469329759131467066255789911031883171960208714996736144591524148258149507725061162426033185915428608968623701568693198138217803245727367737232454501434857185122011252001384173293222912838377440174801020186333763270874069812982366356499270789871508278214697294840491885658989876242946962272642797008297498804270178283221054262277277620252355091561808775249405733498346368658325839846045829967576756130494722209383126680195131615972171940678776398338882330120924652065740966063795188202739436073568737996134051761291385363747905646783575422549376845245880511618897651443017977329243505873319561157955761935902617233658727342240249611031395889173309490096601043217540979012606379177077997239674651328435382762849652544322695664080220263892810636103447176157744960835194216501745384346199387094338011557474771169423699893832069313023248470748835215415622251311258295783730117381478890171127008710498905159140227470674650100486867647015969056649590238108512006411227929151320380072556966588244480258675079654029644309333059888940658609497227919192885125149977994614332755801730582442400593215029912724630519800881582614303623048472886164759466276324432453506357328004025850550165216027583428317936247689046264320136988379622346476565744394158391904987213622953532264353566317273458753832830515901095821265340014435030405540357356111184225477260696616960000000000000000000000000000000000000000000000000000000000000000000000000000000000000000000000000000000000000000000000000000000000000000000000000000000000000000000000000000000000000000000000000000000000000000000000000000000000000000000000000000000000000000000000000000000000000000000000000000000000000000000000000000000000000000000000000000000000000000000000000000000000000000000000000000000000000000000000000000000000000000000000000000000000000000000000000000000000000000000000000000000000000000000000000000000000000000000000000000000000000000000000000000000000000000000000000000000000000000000000000000000000000000000000000000000000000000000000000000000000000000000000000000000000000000000000000000000000000000000000000000000000000000000000000000000000000000000000000000000000000000000000000000000000000000000000000000000000000000000000000000000000000000000000000000000000000000000000000000000000000000000000000000000000000000000000000000000000000000000000000000000000000000000000000000000000000000000000000000000000000000000000000000000000000000000000000000000000000000000000000000000000000000000000000000000000000000000000000000000000000000000000000000000000000000000000000000000000000000000000000000000000000000000000000000000000000000000000000000000000000000000000000000000000000000000000000000000000000000000000000000000000000000000000000000000000000000000000000000000000000000000000000000000000000000000000000000000000000000000000000000000000000000000000000000000000000000000000000000000000000000000000000000000000000000000000000000000000000000000000000000000000000000000000000000000000000000000000000000000000000000000000000000000000000000000000000000000000000000000000000000000000000000000000000000000000000000000000000000000000000000000000000000000000000000000000000000000000000000000000000000000000000000000000000000000000000000000000000000000000000000000000000000000000000000000000000000000000000000000000000000000000000000000000000000000000000000000000000000000000000000000000000000000000000000000000000000000000000000000000000000000000000000000000000000000000000000000000000000000000000000000000000000000000000000000000000000000000000000000000000000000000000000000000000000000000000000000000000000000000000000000000000000000000000000000000000000000000000000000000000000000000000000000000000000000000000000000000000000000000000000000000000000000000000000000000000000000000000000000000000000000000000000000000000000000000000000000000000000000000000000000000000000000000000000000000000000000000000000000000000000000000000000000000000000000000000000000000000000000000000000000000000000000000000000000000000000000000000000000000000000000000000000000000000000000000000000000000000000000000000000000000000000000000000000000000000000000000000000000000000000000000000000000000000000000000000000000000000000000000000000000000000000000000000000000000000000000000000000000000000000000000000000000000000000000000000000000000000000000000000000000000000000000000000000000000000000000000000000000000000000000000000000000000000000000000000000000000000000000000000000000000000000000000000000000000000000000000000000000000000000000000000000000000000000000000000000000000000000000000000000000000000000000000000000000000000000000000000000000000000000000000000000000000000000000000000000000000000000000000000000000000000000000000000000000000000000000000000000000000000000000000000000000000000000000000000000000000000000000000000000000000000000000000000000000000000000000000000000000000000000000000000000000000000000000000000000000000000000000000000000000000000000000000000000000000000000000000000000000000000000000000000000000000000000000000000000000000000000000000000000000000000000000000000000000000000000000000000000000000000000000000000000000000000000000000000000000000000000000000000000000000000000000000000000000000000000000000000000000000000000000000000000000000000000000000000000000000000000000000000000000000000000000000000000000000000000000000000000000000000000000000000000000000000000000000000000000000000000000000000000000000000000000000000000000000000000000000000000000000000000000000000000000000000000000000000000000000000000000000000000000000000000000000000000000000000000000000000000000000000000000000000000000000000000000000000000000000000000000000000000000000000000000000000000000000000000000000000000000000000000000000000000000000000000000000000000000000000000000000000000000000000000000000000000000000000000000000000000000000000000000000000000000000000000000000000000000000000000000000000000000000000000000000000000000000000000000000000000000000000000000000000000000000000000000000000000000000000000000000000000000000000000000000000000000000000000000000000000000000000000000000000000000000000000000000000000000000000000000000000000000000000000000000000000000000000000000000000000000000000000000000000000000000000000000000000000000000000000000000000000000000000000000000000000000000000000000000000000000000000000000000000000000000000000000000000000000000000000000000000000000000000000000000000000000000000000000000000000000000000000000000000000000000000000000000000000000000000000000000000000000000000000000000000000000000000000000000000000000000000000000000000000000000000000000000000000000000000000000000000000000000000000000000000000000000000000000000000000000000000000000000000000000000000000000000000000000000000000000000000000000000000000000000000000000000000000000000000000000000000000000000000000000000000000000000000000000000000000000000000000000000000000000000000000000000000000000000000000000000000000000000000000000000000000000000000000000000000000000000000000000000000000000000000000000000000000000000000000000000000000000000000000000000000000000000000000000000000000000000000000000000000000000000000000000000000000000000000000000000000000000000000000000000000000000000000000000000000000000000000000000000000000000000000000000000000000000000000000000000000000000000000000000000000000000000000000000000000000000000000000000000000000000000000000000000000000000000000000000000000000000000000000000000000000000000000000000000000000000000000000000000000000000000000000000000000000000000000000000000000000000000000000000000000000000000000000000000000000000000000000000000000000000000000000,
   (2085930373858862068113350378198767401034764288405555197706604357543539084829702348131010263949732923353920421947071411175605866845312653796332113133884644588065172729677338024028454334782522692266802339254826842754500947109489532367318157546512314053949492752590969838688900738746645908186565216464795651413400778735842093667392065891648447994099787135734569396458136515354852834575251016736028249032873354539265099879282028444652405899489671277495445870740728228929633017103389990304995810968818688998430912870999097246704640174755707563066758214561301948449797741230082557909568124819150646617090656771914799321901617205109239582115730856846449685605557748826415928622512584884481912960478086930035408539309711512211747457713714203547685516551857838357070822276407526832588787877395540712909724790511328887002856499965481347580328639495183387247696738901582416099695765166544497190677675069999486980560444445120293886552665982470781283981079047235068972140341725253865767181468223359227395559501767467602378511990081677155940044660668336545378103885237550174212150615341213178632363176393080487825920889977390679856392699723346793957564794254051023234555314077711184371350449852361396145773211092453718509799770275115318851222601858650670575922582915712430109267436949585071323684964349353006781143729481367246048054693522422510222657683367925970938584105155334379595239077106634883697858969469473051090064056984209842416665277062687637061622012607369105104584310685458714388253263434629854362877240650456856907542770784135922461900190445409680280345469171875210739529893521986193183647561727016898927026797915625821038579282795835021823885740494941544410082565372786303135193260560121161798724382178707676990857989055335581008426000179247522505361979450043153801720057072113209828409956817977697762771915526487397496564655786327305263415761915637589916771740391397041341541022600605872371204917959986416094813214325384401660787576581784954529095552354034077207777063087693783156922228663426798497285830319021479345406269693416915503995410451281309635529145104292559400096347944906216500871520644328434929125904423279471180560309791891664585197149554896506127848533027478843401098335493519423016165874890465236624920032714181258307794204418140475130066749114283334653210983063383084072300651769832956644388449370960402770865181111807425781318887158921813248269028638633943386844661857565765421837728145485501365164227782809301765162710140381910364538623231162963694669178708031588616437820116081154719898506712515892787182852645669621275740758870045438943228358356023217510269270890782758005038691893565454867397330334242856291964655705047816579811477720742964302031642072716021910995642982084689008570903191233332282121182721464781613857966997740071229410147913450208557238644806081482476719219367049018299580051798839486073715174682826800983122688492581315099970416158509846244518561649087894862916927808740042597849105124904408182479503569201411043185956180625639755275267530633968261160548144714730428005252913478782685138599750706376394411618763097420347000962185051131410569811832224478824485337215217728661436785171502731139528776701162684994637172274482785831400849349248459290557149328400118578965305849114228305547556138524026521587939204692292078709713205157015947655791823987253065936287679437893965595685313680612406606305035745106777025256685243993231776685331122612265557665516726752481437945591054702202975751559574680030785359363895741464641630981392983122560688386246670124744339498077885170099062295887981676622570854704639576461331774411183301636860076165325452183900732978533343520048062327579827945211113371158239869958600450610316369160284413250563228567020844488032658642075587757395831432353322022133272974445496612496663609463575312231556058188945973354111905477495404816871323345580089654168454103874281538981567832006581128546391731755305973905209738701284310446639154330145558285413944400898798654378680531217183040962363223860539190549779519475314117960259832079633380993488459525685197615000813506580628228344661385501942325702511400000915788468980077947563360824880241042319527843661202590220429029464502669528603042455967860163389746509567779652048535367380677993013666740006443526444699809483586613546926199285343700488159737753613093371006861436626631269595101570776076144057344263684654589955200246705093029780476612201869667229292990932100191832715295347824036251177572691083250904649959540192383885978282582455630834653989995753796834125860698623601320999287639643144338548180888379680291935929026035634788617686669884212419710231437759883518164220769805481547548539960840325230325996742194740399126722320760378645351994369607728310980874315073426857010165922267720920435628325850323107531961938822850684216065130669006979330657739408498906277075923743726614778933462974229825758463338226056484719438617059047715811241539295088685509765759546668275638761679532610775242901765502909819796743545237418132072375430366698404791222435493299980782617242903847218103125984636871148577947120977735315325230755088277490233807950032525612018679114025712247289810216160960272366195627354501869648609569311591007747184869283012806630464404701000795496605107538958428483937421726213032060161894372839530233353211347681656171287363972887027630598511118705522269234719019581758101251175552896791526360325349017379150307277275216082193525590291691376317565290168230222489988946305590831955988222847955098563822723197551690671137636034875971845027464210422982525773240253382958758196633761712215780969690367053628138472016183653077344760083991316910859276563375313010681441703971444703240186982379570077434876080836880873806849454088396817501972746813498013317829719780083243452337129191240492331477352411765044756288045724769777710644653027391556119869812021075834530063566686322085639473060218270318771219444083033680570906715110944914556843928668774066962197778210992841940208407839576333147997400340742758732028248393383883212792541901427836928434150232531375434975093921318274833803756077531956223962698671904178033145142183369428945492375230250152660110379271476039840508603740562711481078230335395754552971093562614827722977446746891330258876351193119234453829051814388653084297274664114540310533930438067008581792965273067169332532990061683362321605184502124227405800004811748439059289178226173857256637524605596824885709329817787350142572026319473479305390027818918908785617552625494129327801551928857106818406274678841315225547789709085300067853065336721069242965557938576322303577735244308716223572437771251129682919457034371580460942862285267027094162842280521792080657193885682236974993964379882473287223927524634166785651222449025234336936379410828243789589450603745161062336594971890280213695828723388173671236186930813154350030645737487713847822797676430049933987963535449509463722507146164786001317569117137243831457071659022997839259120220727839820855470137407364598900313882321524333438703915855815862170838308062995389070851440333825771019940493685949761732156927952647867556161960068333612920107539300744538475210302612336043656527028556997634758574252727894615476803860019172058558605312985979195603908238282797247124931115325837322586561490908114939951301914100790852957760063773491421425202730599533305861848858276222392085756030107017887763984788136199448520769275118379884722865746350374935447063002224391616306478654019226811094169866681803460569023156198050784172210490756222950411080165208607169524034138791616511989369517085232982608062785666109769893202427725090099998533437983817979508964845672908867355932219350966590116012841326591770952824995860009358097529939052909822072404803750335679513450662072781434703782772858695245462050503650368758494522162501912249068791342779921893563428138257384466982369226061302174372204331334857677903754468486767578986118209326113040280507244940346461745964380824275596883827886294581619866823994255928827531461480165173187124924275598505345997115651739655846674884219797261450301228171445157882590181159995223744494400339830454479816151418692927533531601183737180865930793021852117607751105396947003810829537996282177411279128306233087100501276905652654802249136179318674879380283081112815734343418078548948907774374835903784541622725034607615188115402804729112741405546951844673951696619716501862387788819839336665004334960033868371405094459928100231385812590221085337288902932804092314434154441617006904630133377494800178726724175225325497567102455491641005702752021223839363294680630720697703880787004442380230218124240123124393539029861049904304866623522091224039990294980168042001503418457508626730497604058611131403889728849134885605758597778923743133660204059835116568017854209157367094924089117435162510281707220865089354905275767589687593122448514678684894953666528417825398645200256310242570426252275345175772132178780939236457398543196802114565217382835004823113735775723946854589855322065780923933444635743850467918109481742546637262044942353211309348448486883664096265687638387199452893268243174090458060028550472844745782909502891019169772131803031723705224312172111746355038192672726853460444601955548718852162124015460761646225502670665404884093460037669771271119353602090070818673835656240200244156405405150527061782339500405762317224089362445826574519340739445118149831761873805981005008794052489447490869416603032142311531193355243037653759538078649049164220379466802736631060832404672423647074782350215128681019008754270909312808388790658390097044512410607960129665831532142308095273918712174288625448175958211930785981863121971434187 : ℚ) / 1049362783068624673019564146101092471770057788404487794894709477876690283162341032506065818395107074710006756909474209539942222934465383407078061355866602818283949980059711987521775981542022900962364811353096817040351889170528039094396666141249109384908662385644622231877465152676523119759985562460801709114750420242277329104941763019966058322347873373267558712497286752914800336346228621687099735666070260677288489882568958798725436536103764011005397251612656549386047301931722671391288887629031744541913442856003846607887337675308872638967763756150832765920339781785742802082812431721772817705356778663155755185455863375280950648701051074263497685798845792116570148651925128737934196257379174767418488255445207446038345853898359193913540695075453475114475374831934261185217344167094881512863123291043634735382575996662988842641242219020954125611817532178480670415604133921750951932680307086596827014400074119921259681750116532933839198018256765851392350575162620898556740393944768949630242669123245503945204975738517532679901860809246543113359282756414487652127021943418659073398517963078262871147815455237864679461298510729367110443331489043613543932025096545783186326510151402379321755543518500654846542333834180569604730271693319117745995520545692388359684624714974192568586994309871169624388155768466001677766468941573580397428653006805960717650618216850965423104611814330808497918813539133386999428325230219026376237586723456820830719558432333000741121087519225709187562059504008951754985571083099633695688838173134619317992996562338451616103111696083665535689317290603409367951334369125617623357987087787188556824241633838429756579271762285722978235046196965385702449623186055335050778323997101474621319795781600076667279505979887504555942332042153953372970559674374233956375424860585730992402798394204765272219471613696496398860980718500602778583533101135125292567730841117729259846292862933158412964575156651074309527784723566489847251230463826958106268611859551767623448849311703994638697200599383684866547824757940313072495104216887286222387224261587591743639049778873142913452935552353039797207326704868591051605848681752152285777683016878002076259939834369257566160262201530279500644906311104719473549534748906184807262417322045942260737828488484814364420443408964195512446248206405267424831581393415916430378532637342713162874108600247519552987488759769068744951365134195742083314074690020292697423958257911018164597508323495181386978098611449095692782304109154110353106994201077641937078045621858470175363133824065267868820767428346477164526965993865258809979341736933642903853925850488091013360374416547093833759964235144901564826311468518909568765616995859511976992653074144274478816484043496120330395839215954155170764236617441252791324752618076519299080641507017336212156754135549840748103969534872706123252823123433376966887443675595176072218335256690513065748357738710341206011975150730301470523953584974385357162768009616841893726980570108835449882366720388012619481044466463999589833410987914245841878789327687724966991921499133702595873663600889822544869086945779701322373921455434572709329247139199414486648680259535992006038775825247824041375142476904371533569396480205482569433519714848616591237587857480820434430298396530349475910188130749245773851643731898010021652545608310536034166776338215891044925440000000000000000000000000000000000000000000000000000000000000000000000000000000000000000000000000000000000000000000000000000000000000000000000000000000000000000000000000000000000000000000000000000000000000000000000000000000000000000000000000000000000000000000000000000000000000000000000000000000000000000000000000000000000000000000000000000000000000000000000000000000000000000000000000000000000000000000000000000000000000000000000000000000000000000000000000000000000000000000000000000000000000000000000000000000000000000000000000000000000000000000000000000000000000000000000000000000000000000000000000000000000000000000000000000000000000000000000000000000000000000000000000000000000000000000000000000000000000000000000000000000000000000000000000000000000000000000000000000000000000000000000000000000000000000000000000000000000000000000000000000000000000000000000000000000000000000000000000000000000000000000000000000000000000000000000000000000000000000000000000000000000000000000000000000000000000000000000000000000000000000000000000000000000000000000000000000000000000000000000000000000000000000000000000000000000000000000000000000000000000000000000000000000000000000000000000000000000000000000000000000000000000000000000000000000000000000000000000000000000000000000000000000000000000000000000000000000000000000000000000000000000000000000000000000000000000000000000000000000000000000000000000000000000000000000000000000000000000000000000000000000000000000000000000000000000000000000000000000000000000000000000000000000000000000000000000000000000000000000000000000000000000000000000000000000000000000000000000000000000000000000000000000000000000000000000000000000000000000000000000000000000000000000000000000000000000000000000000000000000000000000000000000000000000000000000000000000000000000000000000000000000000000000000000000000000000000000000000000000000000000000000000000000000000000000000000000000000000000000000000000000000000000000000000000000000000000000000000000000000000000000000000000000000000000000000000000000000000000000000000000000000000000000000000000000000000000000000000000000000000000000000000000000000000000000000000000000000000000000000000000000000000000000000000000000000000000000000000000000000000000000000000000000000000000000000000000000000000000000000000000000000000000000000000000000000000000000000000000000000000000000000000000000000000000000000000000000000000000000000000000000000000000000000000000000000000000000000000000000000000000000000000000000000000000000000000000000000000000000000000000000000000000000000000000000000000000000000000000000000000000000000000000000000000000000000000000000000000000000000000000000000000000000000000000000000000000000000000000000000000000000000000000000000000000000000000000000000000000000000000000000000000000000000000000000000000000000000000000000000000000000000000000000000000000000000000000000000000000000000000000000000000000000000000000000000000000000000000000000000000000000000000000000000000000000000000000000000000000000000000000000000000000000000000000000000000000000000000000000000000000000000000000000000000000000000000000000000000000000000000000000000000000000000000000000000000000000000000000000000000000000000000000000000000000000000000000000000000000000000000000000000000000000000000000000000000000000000000000000000000000000000000000000000000000000000000000000000000000000000000000000000000000000000000000000000000000000000000000000000000000000000000000000000000000000000000000000000000000000000000000000000000000000000000000000000000000000000000000000000000000000000000000000000000000000000000000000000000000000000000000000000000000000000000000000000000000000000000000000000000000000000000000000000000000000000000000000000000000000000000000000000000000000000000000000000000000000000000000000000000000000000000000000000000000000000000000000000000000000000000000000000000000000000000000000000000000000000000000000000000000000000000000000000000000000000000000000000000000000000000000000000000000000000000000000000000000000000000000000000000000000000000000000000000000000000000000000000000000000000000000000000000000000000000000000000000000000000000000000000000000000000000000000000000000000000000000000000000000000000000000000000000000000000000000000000000000000000000000000000000000000000000000000000000000000000000000000000000000000000000000000000000000000000000000000000000000000000000000000000000000000000000000000000000000000000000000000000000000000000000000000000000000000000000000000000000000000000000000000000000000000000000000000000000000000000000000000000000000000000000000000000000000000000000000000000000000000000000000000000000000000000000000000000000000000000000000000000000000000000000000000000000000000000000000000000000000000000000000000000000000000000000000000000000000000000000000000000000000000000000000000000000000000000000000000000000000000000000000000000000000000000000000000000000000000000000000000000000000000000000000000000000000000000000000000000000000000000000000000000000000000000000000000000000000000000000000000000000000000000000000000000000000000000000000000000000000000000000000000000000000000000000000000000000000000000000000000000000000000000000000000000000000000000000000000000000000000000000000000000000000000000000000000000000000000000000000000000000000000000000000000000000000000000000000000000000000000000000000000000000000000000000000000000000000000000000000000000000000000000000000000000000000000000000000000000000000000000000000000000000000000000000000000000000000000000000000000000000000000000000000000000000000000000000000000000000000000000000000000000000000000000000000000000000000000000000000000000000000000000000000000000000000000000000000000000000000000000000000000000000000000000000000000000000000000000000000000000000000000000000000000000000000000000000000000000000000000000000000000000000000000000000000000000000000000000000000000000000000000000000000000000000000000000000000000000000000000000000000000000000000000000000000000000000000000000000000000000000000000000000000000000000000000000000000000000000000000000000000000000000000000000000000000000000000000000000000000000000000000000000000000000000000000000000000000000000000000000000000000000000000000000000000000000000000000)

def cap600 : ℚ × ℚ :=
  ((98948865331482239348763078314765158539955348877209229020924359177477358912571685435961301805331740020081084907037648037075728437529028555273981316242403397212680555635448148930137205715781903460925977053103940007239024612464056163543147103827563917578893396098786622626266479420752460822907136016455773353836698410962615831755929650515832351186573742824671245075689168206691933752285707320023143138715446815056750849828138759392053913571634027775013646927014454815912036688675005763791552596791265836465358523619952979395347036644836675508608217264308129768510157319790417660803430113461693759400793568711002151374497800696426320996189448912159568197502966789883988163195050143373706783499415675108387727199230497167944547288236630119217231377844637452368009952168588714582632355067529235390901075021143613261043494804443473808189389186960051085384735229675665310846747802732101868215596056964366214708408112888090798616388516519736590993482929385614337215617804959289133514935015151903066210282990458531298751888172070697485259790498685549278384567074654439661789340631998169235848922913955149606284370539549247355118002649796083484054034731829680600830174360388840159042570462914177808867372829494328910127874476852780485969345114539056983538175130117411654519344698986138276852692744878507206801705249381045848154406764952294565116709494727339966475218699912907855522903180397522841570908696745930810727705470621945612890869595899971627669780914072762746631865383732751732570861264045580552174633532154711559731180469094078750679487468019801611613788674526245481289640621535089001587708173162109235836952080976128263544288431247228167958393982979187804978387526888120768401344870142442537083535214841246815270775748912221132948944701065408494613461044602409577813897015084851085719169410988224365261207987812114083991212134846620168797887116732770679953094799903616438931836872683689012625286965390399740180905553806908695338272296665374761903473022585903596716901524449787351953589238448028311957003628924695579401960151478532491115114661655882975443160575043376214557274130588144784632007899079787741896919238101684263206527362175216759519071165913625887426993506756531821622104462595043784942699624113014182829761776254099485439278921162723273212470181867783634317728328168667823818341372515799882172299997881559915550061211232408634424720739347283001518153937573723420141588404401593817834584109342658246196203218859890903581945806248761181280636153916104336114413638189655216240397141142288685104777325952317482029072864609932345227149525376509486401441826437847478405870941775025341356868072767758914228132154936828348748655102466010078155652913192471680827730211206875319534106429919182234313124631995887846261684872285177985660624972031618580993100035770069923358071162842526222320449207461653991336159135744762138492776152254390609268376473094843593671606747062170225087499649406273503097653883248259885149441153099431869316231153376832100254671216868709279321485030900320993655617722889556944428512522919161162568959091998914028790248814373098770092672379443884780815355972538644047315015507740918479781683160135348431046568972531275508701867705830784449299976914521930003797888290210211980728596269770618995674192582358673010429339622848261806052431791456145648233456568322708604762668382753404273036012784049141296889982232178977235122617942614334213340572949060592224668805022112534474976933372876197163305969364501214535789384423541895233285205217167432725590218181533436273774548678261647351338608504551732644933811854339070332892031211163835785324399832849592760651328671831516495239789258466602707970397472743669935374590345778291180862611034108102955134587588405770222580110978783957899426773887409007086798064325417120211925650097168298742380102889312193370129180289685614504133101881478588041698140732159590787884032040311139925703201374750837284010027882710805942060670015755289886081322522285134777221001924512308945245958860537668703682822844631024793368771206793225231930035114790663025034384164100841645730976803007019994355356110711778075676858425988899467264558464093394622626318224341825179379042990139962893166846719159095935577580843424905939561783802544278068647475176416202155499851262930121233813687852389255119727712663191974431822619398392968919604623711730241077505254340656054334114504881953463011456840131267303085555593848359236350954244304408864494805578748868218367370919745442082127049306964590726898368476052338537846269083768089587347130236960914955109717611061470807807890632528644059891118225376857034184467358944224104646994701973444400260540331343706331898828541754341627279162177669051030832169043263353784801579726000497312319841348953756876881676509786621151081324517467792134510146689719189319446734557685113032484753703555094787635626532286338154452537724239069580567664081564767698709732838798769297631189171356295304645849956613369207867605265492798586292256081865662109402014579195722094227827084605466732846225642967773189607411073552676490759180077819845741874951294724847764350853008685690417157128856382598745427812592659891499455573476612868547183308086552212475704313674213026470916999366179817549800041660245793292315800069683199297113634906450622598189477480951349211264494855569557174546833596104945537147104347872503788751234562207396743840338499904498777633282166124868927830436265398133663725087637483082504009255960391394058771050342976698950332596993937513082098256336762154384266811833236456370706372332409435920881995743584330146381621412274165914523498401230089638985074155360042525349141995023211041807959494412151270002468477425090853625364472927509457575169866545735167558054619620814138916070657164850265474643548317980936669845656702843326660557893599908054221351805599964797643193377896824805697251701846596139043706290283915380891441755428871889365450896151689025811939095150658609866055207961251043297882826982289967639124524796327461757228148076246790154046937727050285970473069266919600401663595888104965233419666897284575630388404447774999476657846574775294387349331917476145933882514854110841065709425704563583486133763241435534809866374761420945874399186516103359511043450778997734108524786111161027208739135198588127706899486523566892893645738116047211289439102162471535488662619853411662303154352099836886160193950587740531340728040375204986523360972904811039331055644678067641105113786904325344080362771857013128982620978056640391439784231988653726568418709449214315574109896532143030844588745026470530904889935734823967658489474967644752865368787065184938911585261388028984497109263723894205271814330897819543644455220153945911907239674687429671801522851666728068304511349107168969834843198452931916699750919223252354087432700722448550037506551225359771194585050862957365497759564105689841393631250763546072462502272043843153125148686161555436864742194572869925829970272445104433754126089132363548563744362629758820469761140545253077952886899848175257298513695221881206918483566177615315936389807406542620192492945441150314729214774451283550953359630196220890947340100131187659720431081195636261592824692358661893493084438387539906084720286434089966924027591274568819887193754177053200550143724937489736169137730790057579710453470084911382132625857964607702782962767353547899264108064747360930210843021855902448211899461329846381572372385247141440434796497427557840448877407773646392212629171108609784270432654398398092762342418141310426089837144961367164171851395675124511787272381148070536762374365072451706389489935322686687558547092473485309444380048921472031280418227466298814105960387795967846639720170720691643389877298686499788733391342718112571183171251938729706384492689349808113206477638236574945278913860028668113052409425730458078287255531144042857140937718137442548621606504806883843257887377870332811302718444262716705618560913151132572454301365779991524121884335316749899914537845352653927748907117349696112315443924935952804351262399971570818957276948951258038342766388446311340182721477572824378078593270352448970370352970262032322074762422659693406409692328813428949772030885433203922456062278679291285938196995549842938392115372561417641314575041262128830355544673678049672906734858014302791087793639725238402066772683203671316203525983758240284624673967596067753593104660797622910411452696739965025260812415653073744203964108180209602222968751555837691733227126292675448966889495900986242018472050467305740036329193610415888835200458996020981717401149052731913334865601300392782105043539316172203428763789954369761335932021902921164173567995010106985535794556226085944482067550241644455793637388660628862658625441054039949317276596539793550245824179746591873476117747980543398604263453136801136738045236098188640617339558040705038996925108221116089409250277954239527325964862901133030339397127387740758068542431184711144474114356650956302072983258815742928900030491143762362096613405838571353693942747178941202110572887177076410972253817564616847117158270321065271456190007287448036593550759972245826219337617165016251409368745703100711534397563742889239139655716691876605135624917885074913650367725335136304909818632220328984503344730267776240433819139258394585457107951036570754931317074437559343400636581840977615519150460971434525288525718141968823736574461977534321998738405993339407294929060802862689646809903847070226643421165823472141557717032609153085336955071943626274383408465611986832641332355031746349221377993822320993804212947873991996976509828021572213084161853138806370632693552244937809436328264260406490444141546049783567509113176141849357963726578647171228333879751981099675522134538147050808607781688108075627848137501271566054469117020918045291579887886814288377588607046977071127386102278659293756642381258837803843045281853004983113564134863860999259116692477438222554508779189206170067561207091498381073103257799834363132740502295360442453892154188049700046925402815811999737332412367735561364623833635474413891440546902761935459101826655639041701050654928907058484748783229187 : ℚ) / 2259100392440157783591239715630298748487001350607648744359531009015245088074530486414844451471309074682462511685217400979835166781378268974020928722867797819342147911462444782162500312568908953961118000926157094902208059344092966082625256337282193674061741974440808141026974157869851947265760931327595835344390596617950042333782206405629250810986117623334320583420120889540793415502826216116944000326334394206542616693384824039031742142160242501104737055058047190267148760071370522170423113571541099032210795800637020090116966512640135250093062494624002160407438509749704530070805308504285464771251655982365424308607324416673053033196931790776070809601594386754318456529353561224638124503777437694173860245805878696975134044031945660312072051473683190705128512824402179710799807673972825077208582899646433090290482512484081240748805401672612533404468217003740967002914280191902405634182784732455911882302029285950688740513857156002223425934879327000025078903232775916605466810024377592334316056900447135754942442794469557255303848839562023344916571042445440954224583617246509380352332419051847914065413764258244341664213086713851182823301624234423272861913982999733908442357901679453963652741715141812283573586828018176431591717272314447383817126607263369826275379607432081062169615652607748889864649003898905744571548907520963187886975623062441316079776072843929952856928370668847671712123109218456183441688174048328905137928637179676060085798500969751738919426514022414652633791196586601103029313183810298983096251671998676658732727333120078495696196230323021840642012206250107039526121593636964137465186339707992134488988827604722979656448446423609089377894312147020312002543700391152232793378880772778266662722051943897375422925414974783433333854857052727797625591396965302471830337730057301730642992411125858881981801972556973024728499466568835876184522190342087009322844172917152473159474808040733958116398909317059371069235626971727468693167363239515935076021298592800870172909648651009397559829239659644666478582510694045956149194304660352132116926925875661697845202460338730299871524496854363642637421791215147738667345058249286197979490977685135739536958842143604348468279833740402634030070025589746293213558519121894333754964318774220524216061842191574449381676315184938348653338746325343660113144582638963128419142064265807606008413877067373720130627076157248893822561040562739801836232426631605438893801229074543213142127359412728659821098685942868147225726175849557746722992111100429569948344209584578706015454751605221790707913264962166651916791676234750337942158979828711230552280596461880622130195599191526623798152930615452433644309643079535688542638567457312940471638368246319652107514279799897201486470744772086015249363347217830871359461547169824097518183060732826297634805647534284601875379334736927221538003718051823626657196754042159640289047295137489703115865372417566446314012369846342737129177457893798095102868980697869071479367113507045660166822864762691288493868667427440666978866863888460817180886766725071203352890124324956790880052087067087633925543796668239546673346246717006316983750118465134052158966403425101905433927437608687577019019203527766264084022177375224759963303345246766576848366351783563372111587716318746530658936837542612787815534042330086714855115823156671975107065590949065187281749160374849470888596609978699737426757752281429775827641957366828643282865700829981259914446976535003653234187304960000000000000000000000000000000000000000000000000000000000000000000000000000000000000000000000000000000000000000000000000000000000000000000000000000000000000000000000000000000000000000000000000000000000000000000000000000000000000000000000000000000000000000000000000000000000000000000000000000000000000000000000000000000000000000000000000000000000000000000000000000000000000000000000000000000000000000000000000000000000000000000000000000000000000000000000000000000000000000000000000000000000000000000000000000000000000000000000000000000000000000000000000000000000000000000000000000000000000000000000000000000000000000000000000000000000000000000000000000000000000000000000000000000000000000000000000000000000000000000000000000000000000000000000000000000000000000000000000000000000000000000000000000000000000000000000000000000000000000000000000000000000000000000000000000000000000000000000000000000000000000000000000000000000000000000000000000000000000000000000000000000000000000000000000000000000000000000000000000000000000000000000000000000000000000000000000000000000000000000000000000000000000000000000000000000000000000000000000000000000000000000000000000000000000000000000000000000000000000000000000000000000000000000000000000000000000000000000000000000000000000000000000000000000000000000000000000000000000000000000000000000000000000000000000000000000000000000000000000000000000000000000000000000000000000000000000000000000000000000000000000000000000000000000000000000000000000000000000000000000000000000000000000000000000000000000000000000000000000000000000000000000000000000000000000000000000000000000000000000000000000000000000000000000000000000000000000000000000000000000000000000000000000000000000000000000000000000000000000000000000000000000000000000000000000000000000000000000000000000000000000000000000000000000000000000000000000000000000000000000000000000000000000000000000000000000000000000000000000000000000000000000000000000000000000000000000000000000000000000000000000000000000000000000000000000000000000000000000000000000000000000000000000000000000000000000000000000000000000000000000000000000000000000000000000000000000000000000000000000000000000000000000000000000000000000000000000000000000000000000000000000000000000000000000000000000000000000000000000000000000000000000000000000000000000000000000000000000000000000000000000000000000000000000000000000000000000000000000000000000000000000000000000000000000000000000000000000000000000000000000000000000000000000000000000000000000000000000000000000000000000000000000000000000000000000000000000000000000000000000000000000000000000000000000000000000000000000000000000000000000000000000000000000000000000000000000000000000000000000000000000000000000000000000000000000000000000000000000000000000000000000000000000000000000000000000000000000000000000000000000000000000000000000000000000000000000000000000000000000000000000000000000000000000000000000000000000000000000000000000000000000000000000000000000000000000000000000000000000000000000000000000000000000000000000000000000000000000000000000000000000000000000000000000000000000000000000000000000000000000000000000000000000000000000000000000000000000000000000000000000000000000000000000000000000000000000000000000000000000000000000000000000000000000000000000000000000000000000000000000000000000000000000000000000000000000000000000000000000000000000000000000000000000000000000000000000000000000000000000000000000000000000000000000000000000000000000000000000000000000000000000000000000000000000000000000000000000000000000000000000000000000000000000000000000000000000000000000000000000000000000000000000000000000000000000000000000000000000000000000000000000000000000000000000000000000000000000000000000000000000000000000000000000000000000000000000000000000000000000000000000000000000000000000000000000000000000000000000000000000000000000000000000000000000000000000000000000000000000000000000000000000000000000000000000000000000000000000000000000000000000000000000000000000000000000000000000000000000000000000000000000000000000000000000000000000000000000000000000000000000000000000000000000000000000000000000000000000000000000000000000000000000000000000000000000000000000000000000000000000000000000000000000000000000000000000000000000000000000000000000000000000000000000000000000000000000000000000000000000000000000000000000000000000000000000000000000000000000000000000000000000000000000000000000000000000000000000000000000000000000000000000000000000000000000000000000000000000000000000000000000000000000000000000000000000000000000000000000000000000000000000000000000000000000000000000000000000000000000000000000000000000000000000000000000000000000000000000000000000000000000000000000000000000000000000000000000000000000000000000000000000000000000000000000000000000000000000000000000000000000000000000000000000000000000000000000000000000000000000000000000000000000000000000000000000000000000000000000000000000000000000000000000000000000000000000000000000000000000000000000000000000000000000000000000000000000000000000000000000000000000000000000000000000000000000000000000000000000000000000000000000000000000000000000000000000000000000000000000000000000000000000000000000000000000000000000000000000000000000000000000000000000000000000000000000000000000000000000000000000000000000000000000000000000000000000000000000000000000000000000000000000000000000000000000000000000000000000000000000000000000000000000000000000000000000000000000000000000000000000000000000000000000000000000000000000000000000000000000000000000000000000000000000000000000000000000000000000000000000000000000000000000000000000000000000000000000000000000000000000000000000000000000000000000000000000000000000000000000000000000000000000000000000000000000000000000000000000000000000000000000000000000000000000000000000000000000000000000000000000000000000000000000000000000000000000000000000000000000000000000000000000000000000000000000000000000000000000000000000000000000000000000000000000000000000000000000000000000000000000000000000000000000000000000000000000000000000000000000000000000000000000000000000000000000000000000000000000000000000000000000000000000000000000000000000000000000000000000000000000000000000000000000000000000000000000000000000000000000000000000000000000000000000000000000000000000000000000000000000000000000000000000000000000000000000000000000000000000000000000000000000000000000000000000000000000000000000000000000000000000000000000000000000000000000000000000000000000000000000000000000000000000000000000000000000000000000000000000000000000000000000000000000000000000000,
   (6750947704174333042245255445216604715269972906890820293507081647098260817305687852949138629994422542042073947248692049699367974529073228431957617664654007593378911893254764723511230693139324154646990105166888313136014752952327165325334129875694040420407167387892715401721209227333714477783773041100282682385067128777689939489220259031457528188838361838370883316920628947418306762661151331657449121948947326678450338034673901562275151465701223230882151669545063258049122551780391147868253980698457963230018167998524765870498741674601784459214289549509078246288596884316226626539567058853131670370917539928142534523869559833950503400548719373286107401042775458844947398986903323578526559182585394440267558830728071792831959585843981491585933442833776765267170677493537797520942668598863583645978413102226641189015310613839878704212734933574977599586875389251502100210323926101911456696965686645440923427975822698735770297675067410326519830131912325115185879098358897468337659237129853487849633550556287688308084958514281989683712631787350095443274300814946236948921446423198957386324237840531877313507658394320081535235663686230116223669126260265224672004467936344591481501472357945376132148580689902669838370490404029150977561071796308766894777579740689805343583011737815453912461626432865143041249718273700267498320250196205072213753999042632157124435523621009898687149757816340576283567491280177689536284805432729485040026825543300266501176241968868642242347408055747025980308521206842281793813786208339981662406629476632269333121607061377459006450442331774048866502174123932934025029763333155891202479143618791751324668427715811516603140498109194322808829707826262968502001940578308618918160298489216103652167485620125118598294024460528145351226153594401381697374464315519834272154566642566446161203172419267018280876734685991584288675031202104779933260788572643167034376294423303782944090789551750053558825992794769985170089489635640513409734576422389316896655229971994076588832400776258512685149394663055023535740694318243007290546644344801144760516751411726504801539647422415063196914164320653949404974288937081498530201427759298129328121159997374483836080624023273329751612620555365474840380891107004970693270661652098038150298507871417114305925008887443981839414389586890077172321529542377888571978542613648685894386849767383582576529821339580352144796664183656628041847848652201708465867904503000139830273355755136142242936000616302130578311021787133808426844658061685908614619296345731720537575785472710520420319814817579086804722926375226771149780322867290324593056678768803900749039382186071434281620530048206865472805427264990853848091245277780432284047297967278999308850962952072917238280995903633969421483097435641002447832843036301442361558505444398362067685232049617068727703583272233710615442827701445196382554676422153343857739077225541105478174912292285265213501326259226057401427142863684584542265111579325186890221683076859864128008671537995650252605221204571211119559787809975660956523223001655043769380593904566104928458531328552220517122024561898513521639775973534483731182399604780866464324391492453458717096017218443681864980355312555412309545585381613774159973724889392252487892318324935694309841584864636599471548937985452703309423762183289141318206555010712466196478866042570156499453734921093215415596276537848675320281943045558101467757452740381723011774970342711261100049559716249952601054238273692085545348063522777315844458483700303795400482600438918773839441233771185304464426671438652219596560324226315073915527073935132253675215844117663535599213197937413965365064683223110481378546533555299850247480601287036782461071931551996362173232760654294826366637377095896762633307234009354874003082495012733406030466051271739613564982007143958079840544649866908970929772882560033430850411841983186279749395387482576768294234476118189042503580041181549387442744099989168027238235697218125540076593601067545950723361364855815788359148157780070734380817896031750272022908964583049881926335044910285826946224267058543791280789534969925846252847418191423631938330551491785748490692296621666538002328123292495723472955703563199709421596987584733521573635237560762648182395490043479107383864591574451187454116728916854119571480256599963253458482102267286309332324751792926857828452903467150119723596283699409153477483766844517848587182720489521017790894822240411123596559254552795907587135639656812525333373365828159439092208121574600791802312532660757491559695518113070689061472075635798467926650556463750209270170822705308375248973247413778645476128114829671045299334095919905909841659659260283137922195247647209856232299063273138146756849573368092262204041471823057000506326968244336430443660106126897103884966313904389351821562312999765094300421812470340315246968879113161176160864529560841505197017035618158874322466374284323505852623881073828461755872845115155547345964613752021206908226346025361968489485622594911617337612567677220578629412807102497836448890361871883951435457923911760013005487553519746443696469569849405570595875482703124218683351837874573056335599647438140273770928865864119468836946503400374206364596729272859903198519283595480187366288231012080871065362113142097003067799069785074440745006662856098246606799520630403316830746967698974513392982937892400518013773077159833750008704924459571842217396828846179691588199323696446735296978322171696660516486694265570527663476624904835838859405166633740208628826757571634075154656272157277835229875273450893152995841463497512272403182143320511440220105631356476567970044976255414121619497103150793045083905650342946582039203251187408351344294304276835047689756365775977325180873465694308295110227130683816275834769664452125915198719564892375465818571111798721532926337282655694335564048568921705215738222716908303288308467976647779089364287656301779819363056723497610869658044489239008591484102907939095237465325374639616323931068113497867822286069541444958108338301521445249388871836701181787850093389063444041956064146727026765857190239954029390020971751651979492495280540094614625492027206236464208487630582769224043311656283641121445957246013926680296571209471830508984885111801381209940427903327479066975977002687467700757005538742074246612940702345027068270833465385458918266576542155110619908442754269163635547174898118264091703977281447956769861345133498953619707676715936694968129414437245137014094093120706455027930907500888503764214987216697402325955369768272571870998025958274083186337595626857477682770289813654794000352686446411299990278100501050852362904710140089782148565347419091473209504159210444261770780044244267299911684904879872908110053261832894617084226164530850792239559945297103971030273223715869192539739450726626012318366515921325904783725923151695059110811184586551930135815263125976088776257506011579681917035625571452487054685961181105537853576263505735548391068608289352966911331504746076060662868256036940751590605502171636777571589491644317054777678371744794319065908642246883837970324600007698397171741477496105500766607434148181233714191616292308300154608216822947171255735654536013979942804819992286095721144430055289766562572519835631567710527574135411696040902790889255166923305638517466422440557024366175250424123184010186547454717330217241428533439772130727116752490715378063569261752828529076794733284240096054581001735911766558277302054024708890031839196899456683316967218587068630483786796168366677820012474049712616065133244817913058188584068116813892429439101788941840637509273014839591816321026909278738645254087544553718029910968277104232935422738964241726717381882632238171432677478228591607837746222604629959563010077581573904250336308305070359489828621401719552588727671850260549507401031030969596042687967739722201729402803751218858279591029082274512205892428809084681455549139335854100291906946100946606567817744666745442446730877461554686844442415341697035913701288757375773178626883802089799811558186362986540785465881061003427270840124051364574300740852973889438499745003816583024880500903098774860320861772965777216112617383236015955967486063463959163993849880197834691216564597034612314283227100321001410388063883347588774425943771699361601138324772031644623953766957589180738692474374843034127943435646551517629839022263503958187997121890674194960164561435749043269365107659869636270771481994844209225472811827788688636532188523845809363913369919724129759931344908357069691389023954344575962703922976885657112721780858568184506191561442583445202059096634495866121201877247060004461989493202221655122112490321018196181637345946328953692742133549353359684699721706777254252216799939850084705274244621804008249431056665995307796910436518203722104289520197121028586633778544877154860413261585636582365639788142243225513695168174440526760976738211865917203135077988873731998793181985385626402501174396016210811640303293773639886236869974144512208178238270002636554103426016819709304003051419432003843226914293750400550774312005967509501869865600122793444001042968953983238932597495014203089229967632306184220831690889335027323436367355671466254322676053320419253682685527309045428994817119889861126603365630275692891472511405247241414632177062817053720186892736024638224134609690303736919738625215245024248353338171222589309276353666373076488725746443923842485685561971845231780863863044943382803050818985113936713611451220302634350309890535127065525946788707673547619829719799691694334175512292519412428360754621431150206141934412379439740905252218125581396771158295158376956657588286435434824499913766189015574606147896476776626635133422852348568075539653239050583530403600093993383204432469993581846995887818626930495681338348089609530344017724572939506742127381299797787158299311659343498510055756263194537512722211131822398602774781940112841202906033501894920349140301774629032985998904953612039330126618730068807154747095410022533491825224169665545290545397888619354588201287356599434330868414816685554438787916687297876843235533608588734372487429661946891060208446187 : ℚ) / 3388650588660236675386859573445448122730502025911473116539296513522867632111795729622266677206963612023693767527826101469752750172067403461031393084301696729013221867193667173243750468853363430941677001389235642353312089016139449123937884505923290511092612961661212211540461236804777920898641396991393753016585894926925063500673309608443876216479176435001480875130181334311190123254239324175416000489501591309813925040077236058547613213240363751657105582587070785400723140107055783255634670357311648548316193700955530135175449768960202875139593741936003240611157764624556795106207962756428197156877483973548136462910986625009579549795397686164106214402391580131477684794030341836957186755666156541260790368708818045462701066047918490468108077210524786057692769236603269566199711510959237615812874349469649635435723768726121861123208102508918800106702325505611450504371420287853608451274177098683867823453043928926033110770785734003335138902318990500037618354849163874908200215036566388501474085350670703632413664191704335882955773259343035017374856563668161431336875425869764070528498628577771871098120646387366512496319630070776774234952436351634909292870974499600862663536852519180945479112572712718425360380242027264647387575908471671075725689910895054739413069411148121593254423478911623334796973505848358616857323361281444781830463434593661974119664109265894929285392556003271507568184663827684275162532261072493357706892955769514090128697751454627608379139771033621978950686794879901654543969775715448474644377507998014988099090999680117743544294345484532760963018309375160559289182390455446206197779509561988201733483241407084469484672669635413634066841468220530468003815550586728349190068321159167399994083077915846063134388122462175150000782285579091696438387095447953707745506595085952595964488616688788322972702958835459537092749199853253814276783285513130513984266259375728709739212212061100937174598363975589056603853440457591203039751044859273902614031947889201305259364472976514096339743859489466999717873766041068934223791456990528198175390388813492546767803690508095449807286745281545463956132686822721608001017587373929296969236466527703609305438263215406522702419750610603951045105038384619439820337778682841500632446478161330786324092763287361674072514472777407522980008119488015490169716873958444692628713096398711409012620815601060580195940614235873340733841560844109702754348639947408158340701843611814819713191039119092989731648028914302220838589263774336620084488166650644354922516314376868059023182127407832686061869897443249977875187514352125506913238469743066845828420894692820933195293398787289935697229395923178650466464464619303532813957851185969410707457552369479478161271419699845802229706117158129022874045020826746307039192320754736146277274591099239446452208471301426902813069002105390832307005577077735439985795131063239460433570942706234554673798058626349669471018554769514105693766186840697142654303471046803607219050670260568490250234297144036932740803001141161000468300295832691225771330150087606805029335186487435186320078130600631450888315695002359320010019370075509475475625177697701078238449605137652858150891156413031365528528805291649396126033266062837139944955017870149865272549527675345058167381574478119795988405256313919181723301063495130072282673734735007962660598386423597780922623740562274206332894914968049606140136628422144663741462936050242964924298551244971889871670464802505479851280957440000000000000000000000000000000000000000000000000000000000000000000000000000000000000000000000000000000000000000000000000000000000000000000000000000000000000000000000000000000000000000000000000000000000000000000000000000000000000000000000000000000000000000000000000000000000000000000000000000000000000000000000000000000000000000000000000000000000000000000000000000000000000000000000000000000000000000000000000000000000000000000000000000000000000000000000000000000000000000000000000000000000000000000000000000000000000000000000000000000000000000000000000000000000000000000000000000000000000000000000000000000000000000000000000000000000000000000000000000000000000000000000000000000000000000000000000000000000000000000000000000000000000000000000000000000000000000000000000000000000000000000000000000000000000000000000000000000000000000000000000000000000000000000000000000000000000000000000000000000000000000000000000000000000000000000000000000000000000000000000000000000000000000000000000000000000000000000000000000000000000000000000000000000000000000000000000000000000000000000000000000000000000000000000000000000000000000000000000000000000000000000000000000000000000000000000000000000000000000000000000000000000000000000000000000000000000000000000000000000000000000000000000000000000000000000000000000000000000000000000000000000000000000000000000000000000000000000000000000000000000000000000000000000000000000000000000000000000000000000000000000000000000000000000000000000000000000000000000000000000000000000000000000000000000000000000000000000000000000000000000000000000000000000000000000000000000000000000000000000000000000000000000000000000000000000000000000000000000000000000000000000000000000000000000000000000000000000000000000000000000000000000000000000000000000000000000000000000000000000000000000000000000000000000000000000000000000000000000000000000000000000000000000000000000000000000000000000000000000000000000000000000000000000000000000000000000000000000000000000000000000000000000000000000000000000000000000000000000000000000000000000000000000000000000000000000000000000000000000000000000000000000000000000000000000000000000000000000000000000000000000000000000000000000000000000000000000000000000000000000000000000000000000000000000000000000000000000000000000000000000000000000000000000000000000000000000000000000000000000000000000000000000000000000000000000000000000000000000000000000000000000000000000000000000000000000000000000000000000000000000000000000000000000000000000000000000000000000000000000000000000000000000000000000000000000000000000000000000000000000000000000000000000000000000000000000000000000000000000000000000000000000000000000000000000000000000000000000000000000000000000000000000000000000000000000000000000000000000000000000000000000000000000000000000000000000000000000000000000000000000000000000000000000000000000000000000000000000000000000000000000000000000000000000000000000000000000000000000000000000000000000000000000000000000000000000000000000000000000000000000000000000000000000000000000000000000000000000000000000000000000000000000000000000000000000000000000000000000000000000000000000000000000000000000000000000000000000000000000000000000000000000000000000000000000000000000000000000000000000000000000000000000000000000000000000000000000000000000000000000000000000000000000000000000000000000000000000000000000000000000000000000000000000000000000000000000000000000000000000000000000000000000000000000000000000000000000000000000000000000000000000000000000000000000000000000000000000000000000000000000000000000000000000000000000000000000000000000000000000000000000000000000000000000000000000000000000000000000000000000000000000000000000000000000000000000000000000000000000000000000000000000000000000000000000000000000000000000000000000000000000000000000000000000000000000000000000000000000000000000000000000000000000000000000000000000000000000000000000000000000000000000000000000000000000000000000000000000000000000000000000000000000000000000000000000000000000000000000000000000000000000000000000000000000000000000000000000000000000000000000000000000000000000000000000000000000000000000000000000000000000000000000000000000000000000000000000000000000000000000000000000000000000000000000000000000000000000000000000000000000000000000000000000000000000000000000000000000000000000000000000000000000000000000000000000000000000000000000000000000000000000000000000000000000000000000000000000000000000000000000000000000000000000000000000000000000000000000000000000000000000000000000000000000000000000000000000000000000000000000000000000000000000000000000000000000000000000000000000000000000000000000000000000000000000000000000000000000000000000000000000000000000000000000000000000000000000000000000000000000000000000000000000000000000000000000000000000000000000000000000000000000000000000000000000000000000000000000000000000000000000000000000000000000000000000000000000000000000000000000000000000000000000000000000000000000000000000000000000000000000000000000000000000000000000000000000000000000000000000000000000000000000000000000000000000000000000000000000000000000000000000000000000000000000000000000000000000000000000000000000000000000000000000000000000000000000000000000000000000000000000000000000000000000000000000000000000000000000000000000000000000000000000000000000000000000000000000000000000000000000000000000000000000000000000000000000000000000000000000000000000000000000000000000000000000000000000000000000000000000000000000000000000000000000000000000000000000000000000000000000000000000000000000000000000000000000000000000000000000000000000000000000000000000000000000000000000000000000000000000000000000000000000000000000000000000000000000000000000000000000000000000000000000000000000000000000000000000000000000000000000000000000000000000000000000000000000000000000000000000000000000000000000000000000000000000000000000000000000000000000000000000000000000000000000000000000000000000000000000000000000000000000000000000000000000000000000000000000000000000000000000000000000000000000000000000000000000000000000000000000000000000000000000000000000000000000000000000000000000000000000000000000000000000000000000000000000000000000000000000000000000000000000000000000000000000000000000000000000000000000000000000000000000000000000000000000000000000000000000000000000000000000000000000000000000000000000000000000000000000000000000000000000000000000000000000000000000000000000000000000000000000000000000000000000000000000000000000000000000000000000000000000000000000000000000000000000000000000000000000000000000000000000000000000000000)

def cap717 : ℚ × ℚ :=
  ((282720405169090672682170908852223877649680449699273586332843484280187288383539162594873717082294801074128430377478484461233430991464735560779147599509902867631277922017741623716116341977043336396524447394004328402469270348864132071569478572116678802195479644489700906781188649372192081584789346266426755450938931988145103807865772904729534201262325096176632333953854523609239294822555144849005455489707155723007556874234669028242744155329172214312811232630929020415509522274086570813193846782076565366363114475991475067977099322703057293351594525403061363550464290201747828808936503881192130998226178829006380952452206712517049665351435419443133369191094007028641677843869350413392924338081685007742651386721036779249998171638161403091282212748318330820273835845714439083810203453811105287042552328720018978669247059955957152658805545417786003111425560437057851514905884666183776827040903421942846021170175732137159078276867508745954943332404693024606133949822702802211246677756550719221286939918616343042428215497606664810287712896332285433572983357919766486286261364313322297743297095241995999275189623894002062057495932970477387671761375559965974976181154655486472104073718176121825430101647072335559832322875330432786266698518811653372926386058793411020858778078897337300648583302866759142869891191347505274114193140374995011974587175791394089022017879688167727041725249587854532032293859072935439503261388384059504718447614479371772704532011941576676212562331976650023091873772338401680518238957947472110740313744305026711461214536496080930008725470015898513339303147603173929697192232224260718243695347822441957091249506056519922458674606128872520477618156788812618083348172122509080189510981536025817966465431301756531635627607983467880852719224662582843435106390473034839779656086595349185942531107712649286878397067053137171421346050569403234144437201541555020327955911025495048284823763861725225204063221621212947239354258465079290908858274787064310674825277436418991371188021213740517081736278443128042600159720950014192452586800875225716212290397578718202229980275698437729932456310656816332770301218592783431384983998850553109790781248092394206308572734410099866854529625126780403189005738277753815010480621897855058267261083919472300611603552310363417938829890806225468250845081833899359548762082346849961067168251022034169188269785821704617655696014157338976777665379345038152166850495701973102878362033054641357449755841738182676705209132227794681475647735821358037770432704636200093020659050035878148417829371290418260164412429833865258667698058760657689080268037134810377201684462910459905153538690012608196939836978701880157459316900349498901187959359226852294514617410945528330090602842681747002994400106003651035287358784009480925595662432606360378991365861430203280507934100394656064788025240556643507879659492369621438628847112188752514251720446450348475342645605446047662861178619565501345278394714559808315826615801532067151730609264496704646079765197208336233716825802361281917270908809702489911915317461466267637983575093510520048847871332416551164577278715019755211619771374836307397995745203576902042097522946741017275502737627278031887944949478237943210340845340257592133694134761954153942713695491282395091943280761265031492147308439750650630468158129181344043921619127966608251562506553660946850981531218105551946714788303005379648633288834672905802568691385806880777208239901337733435944937880729036079208159231535914546983534048766366448170045325383580967389896392098231838389356201280094771411706801882592380184692265544155755674163001730395358077277590923466117707449048641471698913664624506834089629197141296191353180714928691470862874269552504947596627346232018652387279611396452410405866938139730265593649892079689851837773387816204868437689441206518633014919836783861986695631041112610446359542825727033582056502525696879506865169577263685822328972466132423491774976198015464194715084425024352332740662192020675077611481606978165822918060830622749814828772573775496150404942183141222466022825262660590239641077889654429265469491253919344338724648437429308559036886074185702250754347375302183486404967177812763887026922862346064913520196707792924610829056171312808483064363008295372314927480774286404302087919049180658126297893905567454394473949939171163856186623592114581363704929591992442298451477727813381549605601384088528859167884022429747817785510712777661050712207121577428262460124392913848805059356214188050735712228253559258797749525603058078737795824311894931314654184967775271868366119962144364723908107951152393342976239541497407290341561912320072698967317856697228512882321705437188990886040364451371496125710113413485725700247872245087459638566693554975710077980619894434116998246543342763802439583875800799459922087036809465412740309993200664572535707844296314330240620795414161369857626441964880939976264541473520625459047790540248767988355800814437853698607787609517796659492312718852727862786331774315817867719864682085762235980195094731429545809747193763023378290621244580611208418849569327833492076494769439892014964658978430474798613690223115989690195748836744252417201447371241746402550456892159587553199297961193551018673876433364035452041935003713283495035784010229018966202127352675240224900105029767231003259295487926140800385936478566811635430529456035002657552783788153687926352501758866760502066597854744812164314037816429160718825845224264558201335832598917543012006087891743733384822118099944936531841786244510691560826965838376656272736965486262758813422805187002104200431216192995041976836758995328639096258789523100835464132603037213638962772380456449178089096855436998251644922283955260701617569367198087884155839841091030155735642960627483593858755431699127512237057633947737632414454708446192974900873038795569333401718336448663383409058164476793127180356210279599673162555799305583224817891569137059325709709164896832912029954525624652134318323779080747311336477430681189598500213912964398088355000983058369574149067447871378227878148658719221586684854744083291428557105984918351988261153710583943950444768738484220272916903057321118948988587312873098900917255723045063031054434647612583151460756883874010002941253732265395212201940981891041834385625446500085328491550178835210919234503962979899642831220985155439540035249737505746122393182437220753979342251228582028378990332333291985494461698431539592649290419749172399330837296367133052941098956779716470311567983230295024117506078526661011775174618026358135173656467367499680803783631895124970272999905479928261874646231966547058992478598185732456898108879717730091929716897939409747831977825343308574941933901224091632321505136032833424134371701801729542569436191659596593601049608974129902969505821144903348047839398493604627389098775692715441950019705100055826008935940617971213003592591870295024991069694749327186473488310614917460464650169093882614217733651648456626112277859790546121045008862926256771714138242541893083175830674999393601568525517170023460041250621762907059733055329845267986126187578171814183923905579490196198336999969905351377648957063981935533926065809084633458077830846173889041866846287032151567255786617157279442533272496163573172483016654506459957872269922713535222288385787289188950541169516459254580918030633257571081964693436630665624341289674554149534894835558165406820652080825542512352777136994585611628725386929794840219735587090364641139073639644129032767450338404527164321446529556118079655022093554879032129738978720414773429177864136525434293417973644458441412967753303166643021162858360421401747445506627656494666796393426972061365540450694615064782263110298447060485310569531151478185011924267501036594627361993774425620402185151784066757819989074775539513478705439429398777545187651659546666288059607249631001889055190707488371761742773613921680755062237616038101265088763200858359178738196162074127791124030057266090184383613758127226816205970312805094853201346638011548986138041496155890730207254810750642037299827063502562566981299314290456704199376028389354959018591873978573654053399871800903978659405905754653951582441168192102489767138444605271319221569018578920890459858289099093425899829464124855778958007686832060775114740865674958623449223036604982778727225320788293497809819323102854938646430235001683355927283469629987693994094090098116926820286406741800461241650147682100074114782149035146484092616915794577032343307135697449704754202629539269502959772419380196472067990657642838858359955615794608568696657102702453201924335317347100170863267340725625040482212379623175711841310275036249337753640637409931906632189741246784693817814698898004109151821995845668474188210747010708393073746453612486527498678262462061307236197428192754422783789797354561031856396673313937588754271972216444078222337864760343843772353929663645844552421266802688502423141700679959932586622432970849548719551167827906285176021556412719873314253957387591752604303258622337804092358263540342529986253597801150045316766743835188509741260889944188357805005446933075810271701186174516935331095453297749940438941121483478268229771915761766196262339896441226034796839521556616426153671468095762818928368886495949936806039637838765861931018338322923147512963623973455108514494302339094622638715741924812824793907696899040929382474087222736973000733335661228699098022007218570330860714275826501997722560894215084857026894931822597139429298837288371427347308032434990398549649850476294266307223494821196177217793868184483084365690940598951889875503266124851021985967449209071133602501294793355262610273491403159764885874088605905641139597641247288171796676381525490683419529362580067721563890132046156785656729945109011814958401062095132764143225166312899752758596412139130728955781287486540295883346536465944785417280877441054651986100487533831330925406665380839632135528941408538997398054158457557499304818662779248105814464668255009322585900600044473086967156029192496008772572830145030385034682896941973944835786200351459256379945775407154612583833437092045677223359762265029141451775070376073390085339120708181710061155096176139003537103819675461654287851958820521176040559241722589896272152992577177568974027345748161832504506009051265024980868814001595130436960613540627028444391657908709710727560714796399638805059818383093372281788019388957395089058439830282015334966533102329114686320937365633725013938150189524185355375521685105502141774659012772291674011264748372744045370161494870157005674497594085049315049113 : ℚ) / 10007120639981275972241283265666499565219192009430276691390382429064696975656502662795284899159956498267039008197243740056220820991833688448260722170440195404496702289420485438466488604467764496768285942355578586862082547207192346945674157000991666013031752718237245766171322481736370683393602559337425350869530462189034435546008017551166478967077262142614284930090147819105897171294158953244775029034719643537682721076934801027649252192771714576208415111808054172816111249165294158025155292616483736078140709516362812381316557131448073505643390384806632360167019667202727267421563379461085737681721835655017286436267273739296814407014037128495184411276764831473342310485051906968302254064591774852224514882540170003187908842712931713479989897909473426073424046138697148146257853249581755312585393477571056407854192943543405553102931162826092148518981032911262751739017823443974684173568580185021238771503418767274097317579168820200847373821905583776123161259886633557630452111445989933863023788956774639904568902394034769029745672952739698813405649622282625550539250796804287155586347934318989425224149683515842817739871230518248876409685085763530571444100832871861464244803412745984962535262051867814066187701051434703762020390128234761705606145982663814334885321124556831171116828918869258197317358445073235535167179554082837871517548342453244014193670506906182840954247468422102757512381462014365202190119010039113179980210015575705090511429312164846475858900466817511319060944956428368854542412524601456094373011494392539920255458909479055273120869705493723714404219222605999631052790203176851482558650942496089190265288525775189575997324825789658673583223338379856667648630103177683521088915087688057200979721738096262891595075886061014982661358698092136140824320885649237389437574115371654234158568026266900350379020314029454664273137645637714845431077972498180499469147713381970898439093474431007282495932887466856513289106300156997085822255272447436260019389458939088843064246254750861236907115954586969290619076136674845237007992330884509626724303356791993990168949671716296794571341169840337295507258134791593524189668988719055680443815141411967897866744964769632244215277096192889255203909994648324251261419523924316599600969450839211214382629117124054637400630137182559145017270942851789770736519658208361138905412970946710966238891626267905946481576002726308084084787151469028095163704176289372366565230833604995048656374250381798999876121242263137779238199398655921099368331476867571876279740197135158611093057139889222965610148455391796353878150882677777555513075067591960571210303405153774525206823994893675116979964497905504511212496835329196466665643667029768921165510748501673630801911294853244904798719232181104031901269554378681746018007670728791159549403823732500411319867471450638544703312130873934069074644100236488966136851948674023373134559594141680811739450022711769183599831772657659016058937063891597433163856523953968487130935269863262811015015317839186250138200816195303772570116443806255446849472507253639558421716509803948755949276719654777025375687794649107647948703940341987475918680317179027793244022529794615196870702053733366008052523292466482879285562184201661774184793194501531542500005297764171115764581272352931155654470216479929962906607299950222090975724276316049524690056765751320264972197509783691092333096301704989891890183391229340542913127975805325748404684772580837683063248313582738798293299947852787296079340495376920603165242970070664000752987974107055229024640238726410373286585090799767918928445298442240000000000000000000000000000000000000000000000000000000000000000000000000000000000000000000000000000000000000000000000000000000000000000000000000000000000000000000000000000000000000000000000000000000000000000000000000000000000000000000000000000000000000000000000000000000000000000000000000000000000000000000000000000000000000000000000000000000000000000000000000000000000000000000000000000000000000000000000000000000000000000000000000000000000000000000000000000000000000000000000000000000000000000000000000000000000000000000000000000000000000000000000000000000000000000000000000000000000000000000000000000000000000000000000000000000000000000000000000000000000000000000000000000000000000000000000000000000000000000000000000000000000000000000000000000000000000000000000000000000000000000000000000000000000000000000000000000000000000000000000000000000000000000000000000000000000000000000000000000000000000000000000000000000000000000000000000000000000000000000000000000000000000000000000000000000000000000000000000000000000000000000000000000000000000000000000000000000000000000000000000000000000000000000000000000000000000000000000000000000000000000000000000000000000000000000000000000000000000000000000000000000000000000000000000000000000000000000000000000000000000000000000000000000000000000000000000000000000000000000000000000000000000000000000000000000000000000000000000000000000000000000000000000000000000000000000000000000000000000000000000000000000000000000000000000000000000000000000000000000000000000000000000000000000000000000000000000000000000000000000000000000000000000000000000000000000000000000000000000000000000000000000000000000000000000000000000000000000000000000000000000000000000000000000000000000000000000000000000000000000000000000000000000000000000000000000000000000000000000000000000000000000000000000000000000000000000000000000000000000000000000000000000000000000000000000000000000000000000000000000000000000000000000000000000000000000000000000000000000000000000000000000000000000000000000000000000000000000000000000000000000000000000000000000000000000000000000000000000000000000000000000000000000000000000000000000000000000000000000000000000000000000000000000000000000000000000000000000000000000000000000000000000000000000000000000000000000000000000000000000000000000000000000000000000000000000000000000000000000000000000000000000000000000000000000000000000000000000000000000000000000000000000000000000000000000000000000000000000000000000000000000000000000000000000000000000000000000000000000000000000000000000000000000000000000000000000000000000000000000000000000000000000000000000000000000000000000000000000000000000000000000000000000000000000000000000000000000000000000000000000000000000000000000000000000000000000000000000000000000000000000000000000000000000000000000000000000000000000000000000000000000000000000000000000000000000000000000000000000000000000000000000000000000000000000000000000000000000000000000000000000000000000000000000000000000000000000000000000000000000000000000000000000000000000000000000000000000000000000000000000000000000000000000000000000000000000000000000000000000000000000000000000000000000000000000000000000000000000000000000000000000000000000000000000000000000000000000000000000000000000000000000000000000000000000000000000000000000000000000000000000000000000000000000000000000000000000000000000000000000000000000000000000000000000000000000000000000000000000000000000000000000000000000000000000000000000000000000000000000000000000000000000000000000000000000000000000000000000000000000000000000000000000000000000000000000000000000000000000000000000000000000000000000000000000000000000000000000000000000000000000000000000000000000000000000000000000000000000000000000000000000000000000000000000000000000000000000000000000000000000000000000000000000000000000000000000000000000000000000000000000000000000000000000000000000000000000000000000000000000000000000000000000000000000000000000000000000000000000000000000000000000000000000000000000000000000000000000000000000000000000000000000000000000000000000000000000000000000000000000000000000000000000000000000000000000000000000000000000000000000000000000000000000000000000000000000000000000000000000000000000000000000000000000000000000000000000000000000000000000000000000000000000000000000000000000000000000000000000000000000000000000000000000000000000000000000000000000000000000000000000000000000000000000000000000000000000000000000000000000000000000000000000000000000000000000000000000000000000000000000000000000000000000000000000000000000000000000000000000000000000000000000000000000000000000000000000000000000000000000000000000000000000000000000000000000000000000000000000000000000000000000000000000000000000000000000000000000000000000000000000000000000000000000000000000000000000000000000000000000000000000000000000000000000000000000000000000000000000000000000000000000000000000000000000000000000000000000000000000000000000000000000000000000000000000000000000000000000000000000000000000000000000000000000000000000000000000000000000000000000000000000000000000000000000000000000000000000000000000000000000000000000000000000000000000000000000000000000000000000000000000000000000000000000000000000000000000000000000000000000000000000000000000000000000000000000000000000000000000000000000000000000000000000000000000000000000000000000000000000000000000000000000000000000000000000000000000000000000000000000000000000000000000000000000000000000000000000000000000000000000000000000000000000000000000000000000000000000000000000000000000000000000000000000000000000000000000000000000000000000000000000000000000000000000000000000000000000000000000000000000000000000000000000000000000000000000000000000000000000000000000000000000000000000000000000000000000000000000000000000000000000000000000000000000000000000000000000000000000000000000000000000000000000000000000000000000000000000000000000000000000000000000000000000000000000000000000000000000000000000000000000000000000000000000000000000000000000000000000000000000000000000000000000000000000000000000000000000000000000000000000000000000000000000000000000000000000000000000000000000000000000000000000000000000000000000000000000000000000000000000000000000000000000000000000000000000000000000000000000000000000000000000000000000000000000000000000000000000000000000000000000000000000000000000000000000000000000000000000000000000000000000000000000000000000000000000000000000000000000000000000000000000000000000000000000000000000000000000000000000000000000000000000000000000000000000000000000000000000000000000000000000000000000000000000000000000000000000000000000000000000000000000000000000000000000000000000000000000000000000000000000000000000000000000000000000000000000000000000000000000000000000000000000000000000000000000000000000000000000000000000000000000000000000000000000000000000000000000000000000000000000000000000000000000000000000000000000000000000000000000000000000000000,
   (29946063783433226503224154356310669932300420262781896129468290978702187669073492556387499162780661971995583163971970479575242481498772594148667499124820121747207628155492978248890823209859773452366128913214401116305045728040965044949994953765053713983873674156577498452093201207768604232300660129042758397593304706174688120272684018435892429700547796969633834895898432180764899818268931587237107370576535076787010082025247949592319764875439654095978183368882837168217540973326918653158823238645591585466900456202869819087012220091683239308713178910685654913753856887673148747466155461522024429679621605687429673340944838210303837486740045497648079238921348366177232372133944302353320590213444404170578375049729135583448249705537777984106104609024839968804463556269157496287475265002908034149675500071803350723938122422354982512556893513492720320247030995248706622171359194183419252369481441066444091195355909135807274022209893095915912480518051985213835646408526474391008954140354638146926220960696975309026139280721743099697930735982216565102447870294272092199686448157953677442157470279907379935956574852696155862456910622518492726522416711579164414340105314993888006268728503936883510693130333896387884364185801273143300043701908655578611930920427827447980187777035315346617588457831586412678455521847457721261650364446308503836808476152241049715016560034109684799525528950671966366498342749258751762868912614223350187922076108762033220618567699495310653191435641419806467344505182819937128401007226541897557941465589564537985370478686361888716440327921757992115259807398608275142445222337377296717253468419787297866464655511415779002099020403231879759250132923645006584395761322944681907048725488147480642520605231388515005160952544213792894391887725110061966945764202231497598265651143883477197543769032152032190880830880162923718697526684639965427045134662693116068498931206103532213772288796381986654893826754943318850729700418143666297235257901288621994247332027119833501782030593254484756991872019315090344603353082948959055125573812606622805096928575813137763426996308745802870263541332117758780416352235567107953392734899071405328284749725614372626435639204711322029534274288859622807864754705196770037653998434826174956841941453522443606609791278071901265015619358312835326542248343241666050186670959612189154642993702322885603902655675843933214067124995498427286584683508181098760669216009777908469704638429954756544427977840863180418012041115850107135349701822233530570930626114382522960155203733604156061960266280540588109154097275047133907080734370800262321855952129229608945882493020869229022269245555433922716595062216864812651044197293635935367833135750948020226557857412489897276731284283466920537252395949618906904423771506850025486815926846376279277070649105815181630322930259433624347520572431102236308894687300167793676214554992638815261912736942123404207298458991983326975539687616291230584220378385924485644412302929764425959851410392764455821628074318369937035405607498498504468138190903166550654511986536458476788742458416959140681419260501794584397699195316928241953429102297487000623340195672772616990983693527635333986802258027333605247019086811350492089755777476989201249678548094856430944013230651968193283071646672971434006697357642785721538856112555067417194355570237057190786075667723819230650528094920182984751788353444944086663632478048199851850516597622712863154064240388573848204837578529644759945570917207704697822807262623766133402999377890150470893960410639522287392902911664853253807831658859228529371459924268845019263480996049595320863070598935944279806973588434619033912080977811045240563374121655887699582403826137127489907958271892957395291490362566166968351389919639727019801442344063039093705152621831242292668363195567096266959459835246556682744278501404078771685123213486422823090249138572998394715227811878325399466769131425236673321347936033145810695207861307459212856487812664501966752889984342899161107601895342967580838971799788964979659588745843026275384417479998649546951045732419397292118976882235747771562569781495786098624763323844765131812255137722862842816960929612638346797402128168684388409477230390903349436332012541102118116249783238472222504103062787409564284069305244117578509825309177314052021042751908367573080751756382758052955013095817791566205292967473911384028689473006168124687231629719449585356064964358481028037340111202650240419532293762429580794227181557615219777380656469761853085620955504863798552260490744825291409972896628973275247296098625675898272596803036769262906445665436609041818342251859829102691114777053817394892515519576661945607715376532888364483420171788041985721092778166791345681931915855090000105935808230025130337672177744770794299273865038689477828787936705614810328042758549299506904773400124385857909019753847087795947852676030853230560980507838397719196124888008477621074511481067892937833274574921784475477985880426435431096937157856933929860570556199772400723836304897300241214745233568276559978372720046660669953345755848508988596612323199414957611685946126938417009711665377390617174711169419704302017543095626557014487000978082949132380376418395891729670043030206587202618418772697177915574701206673549414324071124198676521179602701308233290932196374714935769147071722170263878726659932151398609513980493564195688202126695809993350929579531855886554743029377258143116074507245909827561293885631054638823014912443560348698375081957395157675317353951585531591446882213622354100422867686210222295171582329277756926601313104974433130149638679289488423424790045239157418989974055673739264781559904590402492583558403094856019318010078332895600215578321549093396244895810728730564035804491595497151806811270254818092864515437658080860134313212700816319918483785916652741558402854246123514630569594948068002491374435669835977477493817642174165285576004363105135246815589301091201133310851366824035226253665531194524409715525981160418594452571174469687050301718048308323350855800937688717041346051432873271173000275320647821520858198382802459778069016230914033874108698258606273403185721660081402469452381996463544031900782402950901804481954003688236203410709311265545808296586017755873760098054241655576462543328351391287485939368413052657798844604552963487717394677811151512890115855680452857929886785809998605056835511843901483327460683754870860994320557306260645469683600258434697713039513813380093458218871802730854026678291236330675729710163969965127216817824988484506077241417929972188608270277918275552873069017775762310549075715228139617045009955816859844189754966610848003917331601446947697026303353239001406713355608878178283967730105917354351790018105108444806661429519035713589421475309708398273259893214447977291890264804152244850840755301450125195762719599241075243229103307178321134078271256134976879091985053075825359655330402503729140841399277861766333973651211167463437413417146490400241513117082532174654487035062899283976266212808640479838959982995525553996826867401486660496540897911841699736512702608825955568488395087510858205298818527900842559323666092574772310194368110698359175555944552613455265931363561120948575631140026350117711118802941616412990579272086841435854075609428336672814084242032617140112134685587238412114819723418960304363139884104401567460526003927533977217290132179770487541463798525878589639997188401386919977549072176434013198822530652860481900372807793917289892910524865682467020243475001444847835900290430397534253713726963238975282927272210603858341388217771008991117532315855708045098289744794142164674624892520007780866224767678410247762739371008765631887396904193534976890688636768668379268666005736240801884806551334006059209716586962436122400750184119292084767243688148726201563870845777855836288746179844151613085011625499777696128712116987984096953172430662343359061955180697181864636212292230791765188559709957172073219967143300699350759378307691632608980607129583621144028064832698669960705632064952971954162463510297285341654151417388846049667497283686255726155003107596859074794236314141003382615587426446792185675748786204131095201701810169539909467921303757444793606040391127308238217442935109203209757003305145363459842594935756680973389816057091023485257878252263267637819438764091564431547476950459762426588933137538974703721051248049286840090603634954766678171996646734099215912799103049848644442081290386783878963819858969596448835682056138877497813812121905295591482321135901963494595929509081506227890142527461638557620972512030674668080892168759631150235417587014290798083726080384318512475895611636566226553669258055039453779333335900300261452649186576160252498320694635374880877864334821692496671735955107381808091538428752280694111857275821820886604357393593784805983039521615750194785736618214603882974276842760975622962730568362135522680135640738296331028620308746382250069172284079364040053282340674713761170578569258667017772240928399349519665864322138207408235687199369617903738509471897278127873969258016939607168428614720640373017844743339470574254105369583170970470053512430153181274071427671854498397850771205953108247014730968526646159301762951069579726556456749052426173557469149722190272058512861966510430582173631134406222887134524729435263990161704540169131273247680281626312795266446203702195408969103295128015363661920261987753295568449248760621557630485553818611855913530375734302520670204070782996401623295580113125871776398960057176653572964373783559037824968968070689578404899999811346867157959506633754412494677637910269622501449234267610976685080621952918476855303256633317517643027804133458461450869733598678898593379940111254690863453568217455691751015595814088254174509460369877357784281734323816100462875030883799905789428870729321727273275194787413349715761795390720655860304767574583440558562554170262803973738986253606495298356590890173991816976361062199343639138034638607346981685153426366089330066831409557870323451051774540943123024688509061459619439511047703363514046358355424270598235531138642376091060968688486473352064326574047793565979934149835214807295824350380299775872331917000818283692703988417371714456493090561684997588501228477353406759300117736513920983969912703419014147982162928550526568492454917996978302773055012501318422852421810668091770054598293305249946664751311740843785077922755831869328889913141189649256784288230310091107243599104788659608279219765258937886142892970100214087279604306880924917398869541979490071136059697492460273515264836809495132113 : ℚ) / 15010680959971913958361924898499749347828788014145415037085573643597045463484753994192927348739934747400558512295865610084331231487750532672391083255660293106745053434130728157699732906701646745152428913533367880293123820810788520418511235501487499019547629077355868649256983722604556025090403839006138026304295693283551653319012026326749718450615893213921427395135221728658845756941238429867162543552079465306524081615402201541473878289157571864312622667712081259224166873747941237037732938924725604117211064274544218571974835697172110258465085577209948540250529500804090901132345069191628606522582753482525929654400910608945221610521055692742776616915147247210013465727577860452453381096887662278336772323810255004781863264069397570219984846864210139110136069208045722219386779874372632968878090216356584611781289415315108329654396744239138222778471549366894127608526735165962026260352870277531858157255128150911145976368753230301271060732858375664184741889829950336445678167168984900794535683435161959856853353591052153544618509429109548220108474433423938325808876195206430733379521901478484137836224525273764226609806845777373314614527628645295857166151249307792196367205119118977443802893077801721099281551577152055643030585192352142558409218973995721502327981686835246756675243378303887295976037667609853302750769331124256807276322513679866021290505760359274261431371202633154136268572193021547803285178515058669769970315023363557635767143968247269713788350700226266978591417434642553281813618786902184141559517241588809880383188364218582909681304558240585571606328833908999446579185304765277223837976413744133785397932788662784363995987238684488010374835007569785001472945154766525281633372631532085801469582607144394337392613829091522473992038047138204211236481328473856084156361173057481351237852039400350525568530471044181996409706468456572268146616958747270749203721570072956347658640211646510923743899331200284769933659450235495628733382908671154390029084188408633264596369382126291855360673931880453935928614205012267855511988496326764440086455035187990985253424507574445191857011754760505943260887202187390286284503483078583520665722712117951846800117447154448366322915644289333882805864991972486376892129285886474899401454176258816821573943675686081956100945205773838717525906414277684656104779487312541708358119456420066449358337439401858919722364004089462126127180727203542142745556264434058549847846250407492572984561375572698499814181863394706668857299097983881649052497215301357814419610295702737916639585709833834448415222683087694530817226324016666333269612601387940856815455107730661787810235992340512675469946746858256766818745252993794699998465500544653381748266122752510446202866942279867357198078848271656047851904331568022619027011506093186739324105735598750616979801207175957817054968196310901103611966150354733449205277923011035059701839391212521217609175034067653775399747658986488524088405595837396149745784785930952730696402904794894216522522976758779375207301224292955658855174665709383170274208760880459337632574764705923133923915079482165538063531691973661471923055910512981213878020475768541689866033794691922795306053080600049012078784938699724318928343276302492661277189791752297313750007946646256673646871908529396733481705324719894944359910949925333136463586414474074287035085148626980397458296264675536638499644452557484837835275086844010814369691963707988622607027158871256524594872470374108197439949921779180944119010743065380904747864455105996001129481961160582843536960358089615559929877636199651878392667947663360000000000000000000000000000000000000000000000000000000000000000000000000000000000000000000000000000000000000000000000000000000000000000000000000000000000000000000000000000000000000000000000000000000000000000000000000000000000000000000000000000000000000000000000000000000000000000000000000000000000000000000000000000000000000000000000000000000000000000000000000000000000000000000000000000000000000000000000000000000000000000000000000000000000000000000000000000000000000000000000000000000000000000000000000000000000000000000000000000000000000000000000000000000000000000000000000000000000000000000000000000000000000000000000000000000000000000000000000000000000000000000000000000000000000000000000000000000000000000000000000000000000000000000000000000000000000000000000000000000000000000000000000000000000000000000000000000000000000000000000000000000000000000000000000000000000000000000000000000000000000000000000000000000000000000000000000000000000000000000000000000000000000000000000000000000000000000000000000000000000000000000000000000000000000000000000000000000000000000000000000000000000000000000000000000000000000000000000000000000000000000000000000000000000000000000000000000000000000000000000000000000000000000000000000000000000000000000000000000000000000000000000000000000000000000000000000000000000000000000000000000000000000000000000000000000000000000000000000000000000000000000000000000000000000000000000000000000000000000000000000000000000000000000000000000000000000000000000000000000000000000000000000000000000000000000000000000000000000000000000000000000000000000000000000000000000000000000000000000000000000000000000000000000000000000000000000000000000000000000000000000000000000000000000000000000000000000000000000000000000000000000000000000000000000000000000000000000000000000000000000000000000000000000000000000000000000000000000000000000000000000000000000000000000000000000000000000000000000000000000000000000000000000000000000000000000000000000000000000000000000000000000000000000000000000000000000000000000000000000000000000000000000000000000000000000000000000000000000000000000000000000000000000000000000000000000000000000000000000000000000000000000000000000000000000000000000000000000000000000000000000000000000000000000000000000000000000000000000000000000000000000000000000000000000000000000000000000000000000000000000000000000000000000000000000000000000000000000000000000000000000000000000000000000000000000000000000000000000000000000000000000000000000000000000000000000000000000000000000000000000000000000000000000000000000000000000000000000000000000000000000000000000000000000000000000000000000000000000000000000000000000000000000000000000000000000000000000000000000000000000000000000000000000000000000000000000000000000000000000000000000000000000000000000000000000000000000000000000000000000000000000000000000000000000000000000000000000000000000000000000000000000000000000000000000000000000000000000000000000000000000000000000000000000000000000000000000000000000000000000000000000000000000000000000000000000000000000000000000000000000000000000000000000000000000000000000000000000000000000000000000000000000000000000000000000000000000000000000000000000000000000000000000000000000000000000000000000000000000000000000000000000000000000000000000000000000000000000000000000000000000000000000000000000000000000000000000000000000000000000000000000000000000000000000000000000000000000000000000000000000000000000000000000000000000000000000000000000000000000000000000000000000000000000000000000000000000000000000000000000000000000000000000000000000000000000000000000000000000000000000000000000000000000000000000000000000000000000000000000000000000000000000000000000000000000000000000000000000000000000000000000000000000000000000000000000000000000000000000000000000000000000000000000000000000000000000000000000000000000000000000000000000000000000000000000000000000000000000000000000000000000000000000000000000000000000000000000000000000000000000000000000000000000000000000000000000000000000000000000000000000000000000000000000000000000000000000000000000000000000000000000000000000000000000000000000000000000000000000000000000000000000000000000000000000000000000000000000000000000000000000000000000000000000000000000000000000000000000000000000000000000000000000000000000000000000000000000000000000000000000000000000000000000000000000000000000000000000000000000000000000000000000000000000000000000000000000000000000000000000000000000000000000000000000000000000000000000000000000000000000000000000000000000000000000000000000000000000000000000000000000000000000000000000000000000000000000000000000000000000000000000000000000000000000000000000000000000000000000000000000000000000000000000000000000000000000000000000000000000000000000000000000000000000000000000000000000000000000000000000000000000000000000000000000000000000000000000000000000000000000000000000000000000000000000000000000000000000000000000000000000000000000000000000000000000000000000000000000000000000000000000000000000000000000000000000000000000000000000000000000000000000000000000000000000000000000000000000000000000000000000000000000000000000000000000000000000000000000000000000000000000000000000000000000000000000000000000000000000000000000000000000000000000000000000000000000000000000000000000000000000000000000000000000000000000000000000000000000000000000000000000000000000000000000000000000000000000000000000000000000000000000000000000000000000000000000000000000000000000000000000000000000000000000000000000000000000000000000000000000000000000000000000000000000000000000000000000000000000000000000000000000000000000000000000000000000000000000000000000000000000000000000000000000000000000000000000000000000000000000000000000000000000000000000000000000000000000000000000000000000000000000000000000000000000000000000000000000000000000000000000000000000000000000000000000000000000000000000000000000000000000000000000000000000000000000000000000000000000000000000000000000000000000000000000000000000000000000000000000000000000000000000000000000000000000000000000000000000000000000000000000000000000000000000000000000000000000000000000000000000000000000000000000000000000000000000000000000000000000000000000000000000000000000000000000000000000000000000000000000000000000000000000000000000000000000000000000000000000000000000000000000000000000000000000000000000000000000000000000000000000000000000000000000000000000000000000000000000000000000000000000000000000000000000000000000000000000000000000000000000000000000000000000000000000000000000000000000000000000000000000000000000000000000000000000000000000000000000000000000000000000000000000000000000000000000000000000000000000000000000000000000000000000000000000000000000000000000000000000000000000000000000000000000000000000000000000000000000000000000000000000000000000000000000000000000000000000000000000000000000000000000000000000000000000000000000000000000000000000000000000000000000000000000)

def cap718 : ℚ × ℚ :=
  ((2534965661481690265834582347703176498909375677892614145798594621729532666832806146573756873315172292150451204903823555406150831102471670574893251502236619414674596634322830192838854778743797064588491606180172301382684565615729944909681980815336389634322256905194636735417107486978578927667814861487430427438455388689277589493772258488753954751666217794945721199770545631953173560569775032683565179288076108616203826011398074036339865854239287897168519690430407827845725617953516986991429106207925741454880768287344451148338215410177579660375864614740876029636241438690239165436282260627604323050111657089977700254191181406484937822859554036992734306871463989391977156562874767148104613721641579953456236662364394405590460915853021363228020335613949787552190954004649568180447064793993847785350885620773983614046905829892061374883508220120294352379314479287484941225375472744303658546480159259522385503334876035608301911536360690776437647939585595428607202734590940661120248290465322911888046783465310795156692901289539191240809385074093414609854033786477752882621778101985088014968258251654953533410023925729190530662917685879407175450962513083131282284973229124428693771123082433331258154540151236373684740126368405733226537745589710090849347076231666670905939555624761981411404703659962166456464606852485281228644654537202466381923077304503810902056007039895922948600223126008676334719758210718882167379818494835307043069048183935616473445148740890945857434558047229582690737631505809264055734909281405478088618298469066814165108464509591181193998192783861496094004787653357336939078720692504325979142633933756214731025080768601513051283423147458287189654815055557233195875258084054197653866765314280115576726809235225555494854235303425422617010845623730817193412624051831617676130079155611023422631955683748717656098284545287733665487596892226987246304702908212954106761728359964187401622958372508044651869321935561803330120000530973514791138574906701146288681816263394278252340043955557641452340581466901031497875264899340700130235908347661369806122907953497692566480681104979495763862852080117555201207042770564888472225632857085573768226492557025360662049178478965443544745964738322034465491325201764660906721441547458113848886138329094599051859046978400424383254091103249003682291916697268627690097118131430488923357608994408944566751966339608614798982158335849346063635366746527817448673495831697374625032803758435608411354020733404405868951642061321119931203031675380047655777132846555133477963750593113459662554020669353719651106736230682882904962691388450792239681604996619123049403072021913095728187013032356793947721412991558058252489350245392294472499041675414901499215846308241220087462694332424013103195042669156169198280058577168503803920359329485429498802445359825088144055698828351799050245183554362364416882282584157379738266970729425401731480909724419669963400907843532595242152061691901608167878466822420639002770824115426463721597696017946663032310928850860146948345379430630559529829065072663877919699692900058970336979794425994230011405050249193741810250192887690951331509020484614836166978828549883514154996823698395361900683665491185370202259543526719062478066263535856835636014803917649302985095936015481157364128639767093133441947636432484728834936685068660942260689689005200449576588309590284967747927819206686390461629593696317685955147684987142450260570401361222976852861501070806945737073125973446070338419967950216120624187505086632016505575745350898675524590651894053495288158408002462801823309945589549328092932234336715855810884222065459118752201716105089875417081218288561769868467904422164216016399893473389165190268393742488306599047873213835648799167549652395307417942699509408950729600017752614216959601439262059418320265278433886088448438303250155424485524078615520512566866844193288060237773445252193769176344161684526310260206190768829980940712519318938567747085061427079281164746685047363328090871086236974014112288085367075078548157426628958409350732646003790233138579513329985907447534052727737792758400757757786838022004127602509648279678081790219331808653707692746738745861235516357984925812318802361428724751672019861398189379345257341996096538907182961580155855109382329575585013431047599849655070418694411646770634226528485658842612714406367495868612155579066298027594482860336612499166758970251356881500411850751489404526030780324986696603089963000900776669663961196302608855036792869384239018406966279547610764850460687741868612255860459727413698616856929162244113121019189356512646867619203835094093509589213042074941759167614323280473860130815086123149833689226116468483460770655856225130998938890030572585208530534467910224572677170898749594425698263547340759215336806023585471062043355603395591782761340490994114461693049583935923540721395923151638491530846877145548244072350687200369537256066458597376622811151820419204296632271343665420892163824851699901871776369399840645962797084802545670530236775214725326517836845890238282463755886877070172080539077633437782648979342328916631668053737193769379558367188643520480867734954513573227935521404808287159919253117981542651614046854061321812556565896682042790862055796691244043952273089192858063627858756152082740196690315943826355806660041299024434539044039140581284148574693546236697715212132651714265112703308834918582523146943734029687233446254261624950024078136749755024883093106136959899222396462833336709300050233925829371007263012805130598475883989356380141326704888916156326916583654614401229270452729075075465300152485176394112901589568441773689758020201741147477413177238003756393741833356166392561306876251830057132563968989189095245548861674707827957683894634028120002125896465203093282487204289173706656818124328496328088202644501082087272177565226140079192583275329685964379932155303433167431595278264228991605211790342991228659449595468920668841062191324932541158883235622299434350707403279044159701352021341190032901075751879819901559324741955045337652751670126578055540745048117311366893055536579982637378075141832968668753052558748263997928583821706095466302303152634971907604216697271312168808839593009536175642836488360133970170724918207871900288303686131151828809416467282769694343214100672671669002016137689700077641951313371509622789800113975379741506715171871140376785930489992659763851691976658136950125004908776036221570742334013156347092754136021351113612303986494084826259522254829733534245692296961034911743939596744695086065356962317937941935411385803822202995819328947440044528469811479064550101960147738692377208153142553390374049249261527009629921942804852091510708719625804731493724877906423710857210543679846845304665380542345162372376156011306764673392128781966055871704860482178542810379156506883165362011592910133089396628927383269721942331063307365143664412120214576252163564218490892062651013916642793178506903071920139708482819905611280256869352195082246935304263095219078437090072395534629936736497305829343790766889499198779649345131977717441862339511425449719941068667045005523729343535007272541932679723036806082972576072083982213235732088532140785981216594483697630011196998151713715665931557153368517414224766326714737048891444536245164748169284777864960674664085575139293796821663828705457593355069776554549623726625236466845632306894759256954551930036441330466043605557513160750033105993818470549183542780718387156712043758562249429799234878378460620047754379056902609797700644384884748748906847796895464438500200484340553446187595397924975506029770000269361618838390932732247721163992755652119442242843146187421909682892933093353365883443648168248314524138957528628798370959720757842933288915281619407718934575925012314048332758875066775098260636402088708266661262398467565700866477257913528354386389593904383621106957572012020306068042167164737373989699778775263507086286562349616370059947616675959666462596652872838562811918197515633844759132004074264320384812137783181194786883052030515473768896063584295190339606556245244070357078063626244665240020348071247171531463850128313349225435162610208174677152437875678938588045175934394177065427993731382193052800710621066871187259334328373529557832005958903048325211192522785434339731118757955353682188440348654766129988155195712355488096199293721883468477651232411377290805505539941475516118136494052847144983629086939091339845004554448100003253234985626202717314309821895447785908197816371345704715941690314617549440971696053193428884146644214711062009639986470177589086395774536926688404762836674775849548501288621251092838850022139768469167318403116217123787756249142684787415490426953808366714848546765383565801304252383251300156728482434847573098677300666348005639039046824697700072131139239261097641803456076873861577643199874994111129442081062236425547943679180506257496662439368478088910825938196167470424282887058942461024049533401344331331087482351020577754485389023510452818282123645125593081029922528581793116211806930659916317523183076272370934403591877520286612654426532866320355021874065695058804048847185295258430736547326867327018013537243207747360085051762535748244461174257660467626130512020343430740886472983180980485023380710351119340162792574178154031987230752568217685912275025160475649003839624180085938725809954085683579274464245262911730516817953890218555455542683649742718099990701928857223013552801256930583714136748768330366249295503953613315702785812116633276588828718292049803483224359290728380734769976557835019435976336052216401753205191487114353223704247687504383737648293621655415358884651251365076184080237866232524071950856636989461543067245619453048609117808415732491139331657691059042000878371721914093133205749946959376012988032912780304958493331231945596071891344049093999356739708020188023925938113160835399105458328912474483328969600888838515678990162316247064249827051193083803433663399103371254202219688044608283228144819913238860928665154740408005153555506298743934002922940735378260597573255288342121763884125616707825896699340106234930010511106487103259841732108905369877867379179482836877132337688658527643054336830497232273464400492329954519538472527974932597585245443669867867814485303620214324276121327113560116924039095239370188130763842788783032113321422716804579035030400134964889000953352672661686448674078564298770473268161027110711983606006581442939097633540392224559581205975067460901047837414302832602298369640647332829152517524898533225446131514630682973085911973331215230333869310668456907855553275092231432150987 : ℚ) / 90064085759831483750171549390998496086972728084872490222513441861582272780908523965157564092439608484403351073775193660505987388926503196034346499533961758640470320604784368946198397440209880470914573481200207281758742924864731122511067413008924994117285774464135211895541902335627336150542423034036828157825774159701309919914072157960498310703695359283528564370811330371953074541647430579202975261312476791839144489692413209248843269734945431185875736006272487555345001242487647422226397633548353624703266385647265311431849014183032661550790513463259691241503177004824545406794070415149771639135496520895155577926405463653671329663126334156456659701490883483260080794365467162714720286581325973670020633942861530028691179584416385421319909081185260834660816415248274333316320679246235797813268541298139507670687736491890649977926380465434829336670829296201364765651160410995772157562117221665191148943530768905466875858212519381807626364397150253985108451338979702018674069003013909404767214100610971759141120121546312921267711056574657289320650846600543629954853257171238584400277131408870904827017347151642585359658841074664239887687165771871775142996907495846753178203230714713864662817358466810326595689309462912333858183511154112855350455313843974329013967890121011480540051460269823323775856226005659119816504615986745540843657935082079196127743034562155645568588227215798924817611433158129286819711071090352018619821890140181345814602863809483618282730104201357601871548504607855319690881712721413104849357103449532859282299130185311497458087827349443513429637973003453996679475111828591663343027858482464802712387596731976706183975923432106928062249010045418710008837670928599151689800235789192514808817495642866366024355682974549134843952228282829225267418887970843136504938167038344888107427112236402103153411182826265091978458238810739433608879701752483624495222329420437738085951841269879065542463395987201708619601956701412973772400297452026926340174505130451799587578216292757751132164043591282723615571685230073607133071930977960586640518730211127945911520547045446671151142070528563035659565323213124341717707020898471501123994336272707711080800704682926690197937493865736003296835189951834918261352775715318849396408725057552900929443662054116491736605671234643032305155438485666107936628676923875250250148716738520398696150024636411153518334184024536772756763084363221252856473337586604351299087077502444955437907368253436190998885091180368240013143794587903289894314983291808146886517661774216427499837514259003006690491336098526167184903357944099997999617675608327645140892730646383970726861415954043076052819680481149540600912471517962768199990793003267920290489596736515062677217201653679204143188473089629936287111425989408135714162069036559120435944634413592503701878807243055746902329809177865406621671796902128400695231667538066210358211036347275127305655050204405922652398485953918931144530433575024376898474708715585716384178417428769365299135137860552676251243807345757733953131047994256299021645252565282756025795448588235538803543490476892993228381190151841968831538335463077887283268122854611250139196202768151536771836318483600294072472709632198345913570059657814955967663138750513783882500047679877540041881231451176380400890231948319369666159465699551998818781518486844445722210510891761882384749777588053219830997866715344909027011650521064064886218151782247931735642162953227539147569234822244649184639699530675085664714064458392285428487186730635976006776891766963497061221762148537693359579265817197911270356007685980160000000000000000000000000000000000000000000000000000000000000000000000000000000000000000000000000000000000000000000000000000000000000000000000000000000000000000000000000000000000000000000000000000000000000000000000000000000000000000000000000000000000000000000000000000000000000000000000000000000000000000000000000000000000000000000000000000000000000000000000000000000000000000000000000000000000000000000000000000000000000000000000000000000000000000000000000000000000000000000000000000000000000000000000000000000000000000000000000000000000000000000000000000000000000000000000000000000000000000000000000000000000000000000000000000000000000000000000000000000000000000000000000000000000000000000000000000000000000000000000000000000000000000000000000000000000000000000000000000000000000000000000000000000000000000000000000000000000000000000000000000000000000000000000000000000000000000000000000000000000000000000000000000000000000000000000000000000000000000000000000000000000000000000000000000000000000000000000000000000000000000000000000000000000000000000000000000000000000000000000000000000000000000000000000000000000000000000000000000000000000000000000000000000000000000000000000000000000000000000000000000000000000000000000000000000000000000000000000000000000000000000000000000000000000000000000000000000000000000000000000000000000000000000000000000000000000000000000000000000000000000000000000000000000000000000000000000000000000000000000000000000000000000000000000000000000000000000000000000000000000000000000000000000000000000000000000000000000000000000000000000000000000000000000000000000000000000000000000000000000000000000000000000000000000000000000000000000000000000000000000000000000000000000000000000000000000000000000000000000000000000000000000000000000000000000000000000000000000000000000000000000000000000000000000000000000000000000000000000000000000000000000000000000000000000000000000000000000000000000000000000000000000000000000000000000000000000000000000000000000000000000000000000000000000000000000000000000000000000000000000000000000000000000000000000000000000000000000000000000000000000000000000000000000000000000000000000000000000000000000000000000000000000000000000000000000000000000000000000000000000000000000000000000000000000000000000000000000000000000000000000000000000000000000000000000000000000000000000000000000000000000000000000000000000000000000000000000000000000000000000000000000000000000000000000000000000000000000000000000000000000000000000000000000000000000000000000000000000000000000000000000000000000000000000000000000000000000000000000000000000000000000000000000000000000000000000000000000000000000000000000000000000000000000000000000000000000000000000000000000000000000000000000000000000000000000000000000000000000000000000000000000000000000000000000000000000000000000000000000000000000000000000000000000000000000000000000000000000000000000000000000000000000000000000000000000000000000000000000000000000000000000000000000000000000000000000000000000000000000000000000000000000000000000000000000000000000000000000000000000000000000000000000000000000000000000000000000000000000000000000000000000000000000000000000000000000000000000000000000000000000000000000000000000000000000000000000000000000000000000000000000000000000000000000000000000000000000000000000000000000000000000000000000000000000000000000000000000000000000000000000000000000000000000000000000000000000000000000000000000000000000000000000000000000000000000000000000000000000000000000000000000000000000000000000000000000000000000000000000000000000000000000000000000000000000000000000000000000000000000000000000000000000000000000000000000000000000000000000000000000000000000000000000000000000000000000000000000000000000000000000000000000000000000000000000000000000000000000000000000000000000000000000000000000000000000000000000000000000000000000000000000000000000000000000000000000000000000000000000000000000000000000000000000000000000000000000000000000000000000000000000000000000000000000000000000000000000000000000000000000000000000000000000000000000000000000000000000000000000000000000000000000000000000000000000000000000000000000000000000000000000000000000000000000000000000000000000000000000000000000000000000000000000000000000000000000000000000000000000000000000000000000000000000000000000000000000000000000000000000000000000000000000000000000000000000000000000000000000000000000000000000000000000000000000000000000000000000000000000000000000000000000000000000000000000000000000000000000000000000000000000000000000000000000000000000000000000000000000000000000000000000000000000000000000000000000000000000000000000000000000000000000000000000000000000000000000000000000000000000000000000000000000000000000000000000000000000000000000000000000000000000000000000000000000000000000000000000000000000000000000000000000000000000000000000000000000000000000000000000000000000000000000000000000000000000000000000000000000000000000000000000000000000000000000000000000000000000000000000000000000000000000000000000000000000000000000000000000000000000000000000000000000000000000000000000000000000000000000000000000000000000000000000000000000000000000000000000000000000000000000000000000000000000000000000000000000000000000000000000000000000000000000000000000000000000000000000000000000000000000000000000000000000000000000000000000000000000000000000000000000000000000000000000000000000000000000000000000000000000000000000000000000000000000000000000000000000000000000000000000000000000000000000000000000000000000000000000000000000000000000000000000000000000000000000000000000000000000000000000000000000000000000000000000000000000000000000000000000000000000000000000000000000000000000000000000000000000000000000000000000000000000000000000000000000000000000000000000000000000000000000000000000000000000000000000000000000000000000000000000000000000000000000000000000000000000000000000000000000000000000000000000000000000000000000000000000000000000000000000000000000000000000000000000000000000000000000000000000000000000000000000000000000000000000000000000000000000000000000000000000000000000000000000000000000000000000000000000000000000000000000000000000000000000000000000000000000000000000000000000000000000000000000000000000000000000000000000000000000000000000000000000000000000000000000000000000000000000000000000000000000000000000000000000000000000000000000000000000000000000000000000000000000000000000000000000000000000000000000000000000000000000000000000000000000000000000000000000000000000000000000000000000000000000000000000000000000000000000000000000000000000000000000000000000000000000000000000000000000000000000000000000000000000000000000000000000000000000000000000000000000000000000000000000000000000000000000000000000000000000000000000000000000000000000000000000000000000000000000000000000000000000000000000000000000000000000000000000000000000000000000000000000000000000000000000000000000000000000000000000000000000000000000000,
   (269517109016560520219283223789143732567202691740714957779360417402941418554328265813634066221899272920252398926952638139732588484320055819008582385374883332344283327996071127070210247743516704868359748710535790219046794236934301134494864265866298762244497389666102680705574227977404416669633608976246313008767180810960882360043649938181520621259681838944499459784285660172516051537980954060166649900368103767191706942053242944404914223744811126151700818839635964921785714485560221395416400576916532194943558986594115716234258319040559331358078986060785635099814348230497028966360835435958847471439644562843957037768757735074141022318483269032869705884599006759584483326362061595947033416534721279115158831684224584645439837810755854878318169501559173669027724197376422116155457832090966301194864851531850930499057148707024734674386925129654603176575658271717647084483458123123517574983879449757256343143706517098301074501800574223933988762310407452519949424879472860459741707511482208645247876693056243092030410219396977436472617433225023179336640686682235307550060655199685082067432200777418074377142583698191131952642858520352313945877201366725562860343232808174116485112327658514384927496327545218727332962412337826695433619854923489917598227630926678698492595932873462881539707525187937676272556161233971976636081924671313736997658208447473951246051096314027059118678360779173705974819804501539484747987593346504986998341754027042234602040554444198686824580355330825487788791284276885243419664799948158483499561808604549908682499416641766589629156949488605790533432271375127833618946079757088174781260358412019437012912924683510612531942467052234376120440851127860616492757727164586191361092396158641605898262173891731860601943427133227561472144000371614288519705290444135310002066990374106905801316553245052038435583576206011601201943227758651915830652516667146257570597142583291754111352222125810387938696310116425431459897423763823970189908459686504299094514670060341895794290615383245920454379188755302714132928053011439972196260400221807266615678480090271737563409447459817205328135734841139946578948377162874536469006839724499733528330974023086378998582802020880863709353214564474927305248283671972694999792707354983032725426359220031087058539980549625511809523828315918766942562527005872263079370135754641132880710300929900379379690653048935007541403107117821694925325786940376416663471617583832873601966778673351244508263154588502028167977321684712285338078519431777155186031412162289261774874797353030518017304950545534646702037982211654888046631572028590811688943250768063099635991840259844974296151397011937661243303281364774871917650264992968810604970720800207596940519932558717316710669021245534708848374758589239318309012223620227397885147261976715998923134644397696459761050428033730970926735397063474489144469067984094300465669261904478762758946113388835057535649531835693475375099340608312976866151283940142791438713497191995260102384291230898049057684979794180293465598812865917170772773547193571619768527578521026350069019105547058260362784749566400453321103008045241868532193429697867620446228739883503436433008238572416401243121005911493632593374040845681147870280063556438668082742947657625527799104171803729220705008948696509999193718166421503978578539949680675415691460821822519917524257597823963360822500782100853549156556810598193097658647450118785809104909949005776991363431024998235440789275279892776285580476674837292496525889551118981832643499976756705136721168286407594640031414363391681747072308239678646313671232250653941889227139848668423346886387592139603608138179377129859866978597268203829329286383494796462685406824703627889897478223494909830393272212430645155110469927219457052587163710696585104457563333197920442693433589025382300288723586955522260300122992036715324465678675788221998695872480020602237746206226651066613121511182389017898889873072136817631234824617836828559994989555060665565064104100730172329423982529346172075302629294355527313775345649445233240268692895899501175908466859125827303366863550340879487730901150037589677397271149592684676405642104893213458332091394227749261479161544965836961857114019825190150006325177492215176405042344588053432964117083420196068408132208760628105806438082853014520879836155401401836643385608420159228844090986474515703162145664301748062792870704423814483373541966167886897019693989205257109577322757603913815164676567313525827423450653489055329847380664926634822957318199364394234874712213028959288082417169768277616406387909000752102273809883874198542569993105082439070589407155208497629538543313467344487369118762826023646736585906872256765936207006677091316761520407588709652645605297467268487171852171868495924436586390358918273954717050256410248656062487022133294633443378941405388611726896524660194117104329423115321010407819632521751425736024940082835539223721368699109741491022533907668711843136595188224104153572825709695249272275066675202453547680676328188381729252070593539016822945384578244926682424652500485107213549585285560239698427540462788355698942894700812941730925469264250509085973752712860122966175020558266248364551454360589045484709578119591463712430062721340620257012998226874329365168923689803485068722857984779006560250667580759659688791806973465961464226783680949602086176087077799618277538707190464502654058844813087102100245473936425246948889345347366181420320238071541157781930578714145869967548701343188519301566987563682090661316162745668312378320063927891792721965502808584311158642192770265068486893410070050656523142226506985379264884096910436972650913978476830621037795535055455789418418189160580425692147837560029391129300139490702240911890254242469710350360426485370831464394714780567124954345595740852069705147002509991380348441345427439900165704880798386961361090734464767325855537352623802061526435963991357830561412698717541686142009144772012135132338821184651939335717340488153998731599435182465108540106041645979063272617021759516865203039861190868579950170003640907557868369370941366973670361163520363970971289899130785053130976212911278166724137797243885257196979042184869167599275850466151125776513228869682485964666554526308120146569562463488994992711297591367470932584298376622260045123317733611609889679082927984760966174890100477591390784207839247592509357858220477438171283458287090008084096278798746524985106586498679822383499495080048300768469236624407335208796105746832515973638866819273042602303219669282889646446490253322872633114696781135501296635497083808923297665688451672274006231539013404292097466810504881151098168748746893562265614334965334125328240887870638465151694204781510979420428163799869012955467611356545605115238047477433611557951179504366425394910634892277805555193616526710540732159724644036894953873022097060458783872095668197571848105717335006488080029041900919128960624636450205060751100403827817145471343720412782216977623670608684420553358005884790968820405638489090416332651775070147894430613849229184751091151745357661910730420718000747348555392146478605640124899322604996389622046474144389116885570905256933004985045084817373365984717568004795023393469048240250896346191794304427917483451240874431652262340226109167851428654139807920287432842379129400303008991948974414490970865840419293817882683564850573990366342242565051910163119654375718339217792290420467510007801606300750347125192368624505946114819634306586533154505023634069656242478170199105791988975657388515271851520721374703747862042869635118099791637490832650047999989709081189419409681092305138132328867140035134191066275523216215217932591998625323218020222522538855234886661880772320644996101877736171260927340541448836370977896581979545201497615420800168381849917710030851613459854600934281640538478477960440127070004986958422148725736455571277178715120934024037315925865660869006821103712561199131342280690024742562656703852211201531818267101624491672468249528356697555089784551064728079433778281171081676866162353472811171757361932282124320131433113577678073252140793196649606642199499835581801461476052704193053748461515173567546760677663882355791209493356953852916593484786617713763521234707405108472330515973814834846716078071519463661368788761541247518463698196007651715975670400357563936087304364920279177649176022615513071711775528656277873430936748561718054868279859576529190487061160451897497663291930701872785604934330795364732569826516634565855892484209965839170638926646588632019394083652001818095578076643743196037481460336241142793125679296680834849402805368385181640740009375967467204893303192626185015399277628516852288125708109910845510967808389817550899839226244986746524868137551875102410335626586493909770711971601605475319648543558842657386245976580038191435516090403921706453722349805671193834133865989479378625948997842345443046033053204170045642317388237068949866316525239741489784023894888045363842830561643826909239558717576146285283595293948675175599521360692360078481051844710644084316722857618009906742743243608765110891048723852840785231226297748859284015472243584679275281557348938889392168709850596406775537343192689098039148480793046342870327454059297300512690522189091226495216272368341687662505022704769789685824627807780366121931031144686371568757000091541279587332135544912701809101060420309746350137712570940485111694821922700000457880481588973266252398395275604953698504255471552139630904226639645152339832779731242936809846851138037394123738949172885060098822007898259740148612542257860501751507313291535988783408037399956482478840720224168458467293150041530801781656504157930253381650714295776711780268371772510876211505918503072910600332949908830124114835472947673233495532544234529961156316929132838840567407676136111471349845543201198859193303603565647500679024833308277255263974814815217226237140851853865578666522527552010715126109509650769012751674965029724041451779482137360525539892286036074027309502449544378606636241527131654993468893809223485482794154808424917077363313455888334243121898158541619049790758887871922808559928487165538456806545609624930696539686205591793305473490253195215124451653499694507753874368284320362706023060498834846164325541599800875157977180955738848972653253426010497519970230199743522148545415684689609303992525512646830694672749648685487616940058718311548290456029966694704777684910809068266899106851811099067870639800047858280866240229357400769076811347527977773804438554255800460010962570276559007229675737851146625870558406588100599369492936806377687621167987 : ℚ) / 135096128639747225625257324086497744130459092127308735333770162792373409171362785947736346138659412726605026610662790490758981083389754794051519749300942637960705480907176553419297596160314820706371860221800310922638114387297096683766601119513387491175928661696202817843312853503441004225813634551055242236738661239551964879871108236940747466055543038925292846556216995557929611812471145868804462891968715187758716734538619813873264904602418146778813604009408731333017501863731471133339596450322530437054899578470897967147773521274548992326185770194889536862254765507236818110191105622724657458703244781342733366889608195480506994494689501234684989552236325224890121191548200744072080429871988960505030950914292295043036769376624578131979863621777891251991224622872411499974481018869353696719902811947209261506031604737835974966889570698152244005006243944302047148476740616493658236343175832497786723415296153358200313787318779072711439546595725380977662677008469553028011103504520864107150821150916457638711680182319469381901566584861985933980976269900815444932279885756857876600415697113306357240526020727463878039488261611996359831530748657807662714495361243770129767304846072070796994226037700215489893533964194368500787275266731169283025682970765961493520951835181517220810077190404734985663784339008488679724756923980118311265486902623118794191614551843233468352882340823698387226417149737193930229566606635528027929732835210272018721904295714225427424095156302036402807322756911782979536322569082119657274035655174299288923448695277967246187131741024165270144456959505180995019212667742887495014541787723697204068581395097965059275963885148160392093373515068128065013256506392898727534700353683788772213226243464299549036533524461823702265928342424243837901128331956264704757407250557517332161140668354603154730116774239397637967687358216109150413319552628725436742833494130656607128927761904818598313695093980802562929402935052119460658600446178040389510261757695677699381367324439136626698246065386924085423357527845110410699607896466940879960778095316691918867280820568170006726713105792844553489347984819686512576560531347707251685991504409061566621201057024390035296906240798604004945252784927752377392029163572978274094613087586329351394165493081174737604908506851964548457733157728499161904943015385812875375223075107780598044225036954616730277501276036805159135144626544831879284710006379906526948630616253667433156861052380154286498327636770552360019715691881854934841472474937712220329776492661324641249756271388504510035737004147789250777355036916149996999426513412491467711339095969575956090292123931064614079229520721724310901368707276944152299986189504901880435734395104772594015825802480518806214782709634444904430667138984112203571243103554838680653916951620388755552818210864583620353494713766798109932507695353192601042847501307099315537316554520912690958482575306608883978597728930878396716795650362536565347712063073378574576267626143154047948702706790829014376865711018636600929696571991384448532467878847924134038693172882353308205315235715339489842571785227762953247307503194616830924902184281916875208794304152227305157754477725400441108709064448297518870355089486722433951494708125770675823750071519816310062821847176764570601335347922479054499239198549327998228172277730266668583315766337642823577124666382079829746496800073017363540517475781596097329327227673371897603463244429841308721353852233366973776959549296012628497071096687588428142730780095953964010165337650445245591832643222806540039368898725796866905534011528970240000000000000000000000000000000000000000000000000000000000000000000000000000000000000000000000000000000000000000000000000000000000000000000000000000000000000000000000000000000000000000000000000000000000000000000000000000000000000000000000000000000000000000000000000000000000000000000000000000000000000000000000000000000000000000000000000000000000000000000000000000000000000000000000000000000000000000000000000000000000000000000000000000000000000000000000000000000000000000000000000000000000000000000000000000000000000000000000000000000000000000000000000000000000000000000000000000000000000000000000000000000000000000000000000000000000000000000000000000000000000000000000000000000000000000000000000000000000000000000000000000000000000000000000000000000000000000000000000000000000000000000000000000000000000000000000000000000000000000000000000000000000000000000000000000000000000000000000000000000000000000000000000000000000000000000000000000000000000000000000000000000000000000000000000000000000000000000000000000000000000000000000000000000000000000000000000000000000000000000000000000000000000000000000000000000000000000000000000000000000000000000000000000000000000000000000000000000000000000000000000000000000000000000000000000000000000000000000000000000000000000000000000000000000000000000000000000000000000000000000000000000000000000000000000000000000000000000000000000000000000000000000000000000000000000000000000000000000000000000000000000000000000000000000000000000000000000000000000000000000000000000000000000000000000000000000000000000000000000000000000000000000000000000000000000000000000000000000000000000000000000000000000000000000000000000000000000000000000000000000000000000000000000000000000000000000000000000000000000000000000000000000000000000000000000000000000000000000000000000000000000000000000000000000000000000000000000000000000000000000000000000000000000000000000000000000000000000000000000000000000000000000000000000000000000000000000000000000000000000000000000000000000000000000000000000000000000000000000000000000000000000000000000000000000000000000000000000000000000000000000000000000000000000000000000000000000000000000000000000000000000000000000000000000000000000000000000000000000000000000000000000000000000000000000000000000000000000000000000000000000000000000000000000000000000000000000000000000000000000000000000000000000000000000000000000000000000000000000000000000000000000000000000000000000000000000000000000000000000000000000000000000000000000000000000000000000000000000000000000000000000000000000000000000000000000000000000000000000000000000000000000000000000000000000000000000000000000000000000000000000000000000000000000000000000000000000000000000000000000000000000000000000000000000000000000000000000000000000000000000000000000000000000000000000000000000000000000000000000000000000000000000000000000000000000000000000000000000000000000000000000000000000000000000000000000000000000000000000000000000000000000000000000000000000000000000000000000000000000000000000000000000000000000000000000000000000000000000000000000000000000000000000000000000000000000000000000000000000000000000000000000000000000000000000000000000000000000000000000000000000000000000000000000000000000000000000000000000000000000000000000000000000000000000000000000000000000000000000000000000000000000000000000000000000000000000000000000000000000000000000000000000000000000000000000000000000000000000000000000000000000000000000000000000000000000000000000000000000000000000000000000000000000000000000000000000000000000000000000000000000000000000000000000000000000000000000000000000000000000000000000000000000000000000000000000000000000000000000000000000000000000000000000000000000000000000000000000000000000000000000000000000000000000000000000000000000000000000000000000000000000000000000000000000000000000000000000000000000000000000000000000000000000000000000000000000000000000000000000000000000000000000000000000000000000000000000000000000000000000000000000000000000000000000000000000000000000000000000000000000000000000000000000000000000000000000000000000000000000000000000000000000000000000000000000000000000000000000000000000000000000000000000000000000000000000000000000000000000000000000000000000000000000000000000000000000000000000000000000000000000000000000000000000000000000000000000000000000000000000000000000000000000000000000000000000000000000000000000000000000000000000000000000000000000000000000000000000000000000000000000000000000000000000000000000000000000000000000000000000000000000000000000000000000000000000000000000000000000000000000000000000000000000000000000000000000000000000000000000000000000000000000000000000000000000000000000000000000000000000000000000000000000000000000000000000000000000000000000000000000000000000000000000000000000000000000000000000000000000000000000000000000000000000000000000000000000000000000000000000000000000000000000000000000000000000000000000000000000000000000000000000000000000000000000000000000000000000000000000000000000000000000000000000000000000000000000000000000000000000000000000000000000000000000000000000000000000000000000000000000000000000000000000000000000000000000000000000000000000000000000000000000000000000000000000000000000000000000000000000000000000000000000000000000000000000000000000000000000000000000000000000000000000000000000000000000000000000000000000000000000000000000000000000000000000000000000000000000000000000000000000000000000000000000000000000000000000000000000000000000000000000000000000000000000000000000000000000000000000000000000000000000000000000000000000000000000000000000000000000000000000000000000000000000000000000000000000000000000000000000000000000000000000000000000000000000000000000000000000000000000000000000000000000000000000000000000000000000000000000000000000000000000000000000000000000000000000000000000000000000000000000000000000000000000000000000000000000000000000000000000000000000000000000000000000000000000000000000000000000000000000000000000000000000000000000000000000000000000000000000000000000000000000000000000000000000000000000000000000000000000000000000000000000000000000000000000000000000000000000000000000000000000000000000000000000000000000000000000000000000000000000000000000000000000000000000000000000000000000000000000000000000000000000000000000000000000000000000000000000000000000000000000000000000000000000000000000000000000000000000000000000000000000000000000000000000000000000000000000000000000000000000000000000000000000000000000000000000000000000000000000000000000000000000000000000000000000000000000000000000000000000000000000000000000000000000000000000000000000000000000000000000000000000000000000000000000000000000000000000000000000000000000000000000000000000000000000000000000000000000000000000000000000000000000000000000000000000000000000000000000000000000000000000000000000000000000000000000000000000000000000000000000000000000000000000000000000000000000000000000000000000000000000000000000)

lemma cap_chunk_1 : capStep^[120] (V 4771, A 4771) = cap120 := by decide

lemma cap_chunk_2 : capStep^[120] cap120 = cap240 := by decide

lemma cap_chunk_3 : capStep^[120] cap240 = cap360 := by decide

lemma cap_chunk_4 : capStep^[120] cap360 = cap480 := by decide

lemma cap_chunk_5 : capStep^[120] cap480 = cap600 := by decide

lemma cap_chunk_6 : capStep^[117] cap600 = cap717 := by decide

lemma cap_chunk_7 : capStep cap717 = cap718 := by decide

lemma capAt_120 : capAt 120 = cap120 := cap_chunk_1

lemma capAt_240 : capAt 240 = cap240 := by
  rw [show (240:ℕ) = 120 + 120 from rfl, capAt_add, capAt_120]
  exact cap_chunk_2

lemma capAt_360 : capAt 360 = cap360 := by
  rw [show (360:ℕ) = 120 + 240 from rfl, capAt_add, capAt_240]
  exact cap_chunk_3

lemma capAt_480 : capAt 480 = cap480 := by
  rw [show (480:ℕ) = 120 + 360 from rfl, capAt_add, capAt_360]
  exact cap_chunk_4

lemma capAt_600 : capAt 600 = cap600 := by
  rw [show (600:ℕ) = 120 + 480 from rfl, capAt_add, capAt_480]
  exact cap_chunk_5

lemma capAt_717 : capAt 717 = cap717 := by
  rw [show (717:ℕ) = 117 + 600 from rfl, capAt_add, capAt_600]
  exact cap_chunk_6

lemma capAt_718 : capAt 718 = cap718 := by
  rw [capAt_succ 717, capAt_717]
  exact cap_chunk_7

lemma cap_e_717 : (5:ℚ) ≤ 2000 - (capAt 717).2 := by
  rw [capAt_717]
  decide

lemma cap_e_ge_5 (k : ℕ) (hk : k ≤ 717) : 5 ≤ 2000 - (capAt k).2 :=
  le_trans cap_e_717 (cap_e_anti hk)

/-! ### Claim C1: the ALT_CAPTURE phase of the trace -/

lemma capture_phase (c t : ℚ → ℚ) : ∀ k, k ≤ 718 →
    (trace c t (4771 + k)).mode = Mode.ALT_CAPTURE
    ∧ (trace c t (4771 + k)).roll = 0
    ∧ (trace c t (4771 + k)).altitude_cmd = 2000
    ∧ (trace c t (4771 + k)).ias_cmd = 100
    ∧ (trace c t (4771 + k)).vspeed = (capAt k).1
    ∧ (trace c t (4771 + k)).altitude = (capAt k).2 := by
  intro k
  induction k with
  | zero =>
      intro _
      obtain ⟨hm, hr, hac, hic, hv, ha⟩ := trace_4771 c t
      rw [show 4771 + 0 = 4771 from rfl]
      refine ⟨hm, hr, hac, hic, ?_, ?_⟩
      · rw [hv]; rfl
      · rw [ha]; rfl
  | succ k ih =>
      intro hk
      obtain ⟨hm, hr, hac, hic, hv, ha⟩ := ih (Nat.le_of_succ_le hk)
      have hkk : k ≤ 717 := Nat.lt_succ_iff.mp (Nat.lt_of_succ_le hk)
      have he5 : 5 ≤ 2000 - (capAt k).2 := cap_e_ge_5 k hkk
      have hnosnap :
          ¬ |(trace c t (4771 + k)).altitude_cmd - (trace c t (4771 + k)).altitude| < 5 := by
        rw [hac, ha, abs_of_nonneg (by linarith : (0:ℚ) ≤ 2000 - (capAt k).2)]
        linarith
      have hstep : trace c t (4771 + (k + 1)) = tick c t (1/60) (trace c t (4771 + k)) := by
        rw [show 4771 + (k + 1) = (4771 + k) + 1 from by omega]
        exact Function.iterate_succ_apply' _ _ _
      refine ⟨?_, ?_, ?_, ?_, ?_, ?_⟩
      · rw [hstep, tick_mode_eq]
        exact modeLogic_nosnap_mode c (1/60) _ hm hnosnap
      · rw [hstep, tick_roll_eq, modeLogic_nosnap_roll c (1/60) _ hm hnosnap, hr]
        exact smooth_zero 2.5 (1/60)
      · rw [hstep, tick_altitude_cmd]
        exact hac
      · rw [hstep, tick_ias_cmd]
        exact hic
      · rw [hstep, tick_vspeed_eq, modeLogic_nosnap_vspeed c (1/60) _ hm hnosnap,
          hac, ha, hv, capAt_succ]
        rfl
      · rw [hstep, tick_altitude_eq, modeLogic_nosnap_altitude c (1/60) _ hm hnosnap,
          hac, ha, hv, capAt_succ]
        rfl

lemma trace_5489 (c t : ℚ → ℚ) :
    (trace c t 5489).mode = Mode.ALT_CAPTURE ∧ (trace c t 5489).roll = 0
    ∧ (trace c t 5489).altitude_cmd = 2000 ∧ (trace c t 5489).ias_cmd = 100
    ∧ (trace c t 5489).vspeed = cap718.1 ∧ (trace c t 5489).altitude = cap718.2 := by
  have h := capture_phase c t 718 le_rfl
  rw [show 4771 + 718 = 5489 from rfl, capAt_718] at h
  exact h

lemma trace_5490 (c t : ℚ → ℚ) :
    (trace c t 5490).mode = Mode.CRUISE ∧ (trace c t 5490).altitude = 2000
    ∧ (trace c t 5490).vspeed = 0 ∧ (trace c t 5490).airspeed = 100
    ∧ (trace c t 5490).pitch = 0 := by
  obtain ⟨hm, hr, hac, hic, hv, ha⟩ := trace_5489 c t
  have hsnap : |(trace c t 5489).altitude_cmd - (trace c t 5489).altitude| < 5 := by
    rw [hac, ha]
    decide
  have hstep : trace c t 5490 = tick c t (1/60) (trace c t 5489) :=
    Function.iterate_succ_apply' _ 5489 _
  refine ⟨?_, ?_, ?_, ?_, ?_⟩
  · rw [hstep, tick_mode_eq]
    exact modeLogic_snap_mode c (1/60) _ hm hsnap
  · rw [hstep, tick_altitude_eq, modeLogic_snap_altitude c (1/60) _ hm hsnap]
    exact hac
  · rw [hstep, tick_vspeed_eq]
    exact modeLogic_snap_vspeed c (1/60) _ hm hsnap
  · rw [hstep, tick_airspeed_eq, modeLogic_snap_airspeed c (1/60) _ hm hsnap]
    exact hic
  · rw [hstep, tick_pitch_eq]
    exact modeLogic_snap_pitch c (1/60) _ hm hsnap

/-- Claim C1 (amended): in the run starting from altitude 1000, commanded
altitude 2000 and mode CLIMB with fixed `dt = 1/60`, the mode changes from
CLIMB to ALT_CAPTURE at tick 4771, exactly the first tick whose post-update
altitude reaches `altitudeCmd - 80 = 1920`; the post-update error
`|altitudeCmd - altitude|` first drops below 5 ft at tick 5489, but the mode
changes to CRUISE only at the NEXT tick, 5490 (the controller evaluates the
5-ft test on the altitude captured before that tick's update), and at tick
5490 the state is snapped to altitude exactly 2000, vspeed 0, airspeed
`iasCmd = 100` and pitch 0.  The 80-ft and 5-ft thresholds are exact, and
the trace does not depend on the trigonometric oracles. -/
theorem C1_climb_capture_cruise_trace (c t : ℚ → ℚ) :
    (∀ n, n ≤ 4770 → (trace c t n).mode = Mode.CLIMB ∧ (trace c t n).altitude < 1920)
    ∧ ((trace c t 4771).mode = Mode.ALT_CAPTURE ∧ 1920 ≤ (trace c t 4771).altitude)
    ∧ (∀ k, k ≤ 717 → (trace c t (4771 + k)).mode = Mode.ALT_CAPTURE
        ∧ 5 ≤ |2000 - (trace c t (4771 + k)).altitude|)
    ∧ ((trace c t 5489).mode = Mode.ALT_CAPTURE
        ∧ |2000 - (trace c t 5489).altitude| < 5
        ∧ (trace c t 5489).altitude ≠ 2000 ∧ (trace c t 5489).vspeed ≠ 0)
    ∧ ((trace c t 5490).mode = Mode.CRUISE ∧ (trace c t 5490).altitude = 2000
        ∧ (trace c t 5490).vspeed = 0 ∧ (trace c t 5490).airspeed = 100
        ∧ (trace c t 5490).pitch = 0) := by
  refine ⟨?_, ?_, ?_, ?_, trace_5490 c t⟩
  · intro n hn
    obtain ⟨hm, _, _, _, _, ha⟩ := climb_phase c t n hn
    exact ⟨hm, by rw [ha]; exact lt_of_le_of_lt (A_mono hn) A_4770_lt⟩
  · obtain ⟨hm, _, _, _, _, ha⟩ := trace_4771 c t
    exact ⟨hm, by rw [ha]; exact A_4771_ge⟩
  · intro k hk
    obtain ⟨hm, _, _, _, _, ha⟩ := capture_phase c t k (le_trans hk (by norm_num))
    have he5 := cap_e_ge_5 k hk
    refine ⟨hm, ?_⟩
    rw [ha, abs_of_nonneg (by linarith : (0:ℚ) ≤ 2000 - (capAt k).2)]
    exact he5
  · obtain ⟨hm, _, _, _, hv, ha⟩ := trace_5489 c t
    refine ⟨hm, ?_, ?_, ?_⟩
    · rw [ha]; decide
    · rw [ha]; decide
    · rw [hv]; decide

/-- Claim C1 counterexample: at tick 5489 of the claimed run -- the first
tick whose post-update altitude error is below 5 ft -- the mode is still
ALT_CAPTURE, not CRUISE, and the state is not snapped: the claim that the
CRUISE transition happens at the first tick where `|altitudeCmd - altitude|
< 5` is off by one tick (the code tests the error computed from the
pre-update altitude).  The trace is evaluated with the zero trig oracles;
by `C1` machinery it is the same for every oracle. -/
theorem C1_capture_cruise_counterexample :
    |2000 - (trace (fun _ => 0) (fun _ => 0) 5489).altitude| < 5
    ∧ (trace (fun _ => 0) (fun _ => 0) 5489).mode = Mode.ALT_CAPTURE
    ∧ (trace (fun _ => 0) (fun _ => 0) 5489).mode ≠ Mode.CRUISE
    ∧ (trace (fun _ => 0) (fun _ => 0) 5489).altitude ≠ 2000
    ∧ (trace (fun _ => 0) (fun _ => 0) 5489).vspeed ≠ 0 := by
  obtain ⟨hm, _, _, _, hv, ha⟩ := trace_5489 (fun _ => 0) (fun _ => 0)
  exact ⟨by rw [ha]; decide, hm, by rw [hm]; decide, by rw [ha]; decide,
    by rw [hv]; decide⟩


end PFDSim
